import Mathlib

/-!
# Hotel management system: embedding and verified properties

Shallow embedding of the store (`Database`) and of the entity classes
(`Room`, `Customer`, `Reservation`, `Employee`, `Bill`) of the C++ sources.

Modelling conventions

* `int` and `time_t` values are integers (`Int`). Where a value is narrowed,
  as in `Utils::daysBetween`, the result is reduced to the width of the target
  type; ids and counters are assumed to stay inside the range of `int`.
* `double` values are rationals (`ℚ`) and `+`, `-`, `*` on them are exact,
  where the machine rounds each result to a binary64 value. The evaluations at
  concrete inputs use values on which the machine operations are exact.
* `std::vector<T>` is `List T`; a pointer returned by a `find...` function is
  the first matching element, and a write through it rewrites that element in
  place (`modifyFirst`).
* A C++ function that can throw returns the thrown `HotelException` in an
  `Except`; a member function that can throw returns its outcome together with
  the object (or store) as it is after the call.
* `time(nullptr)` is a parameter `now`.
* The `save...` calls that follow a mutation of the store open a data file for
  writing and throw a `FileException` when it cannot be opened. Which files can
  be opened is a parameter (`DataFiles`) of every operation that saves; what is
  written is not modelled.
* The file codecs of the entity classes work on texts: `saveToFile` is the list
  of characters it writes, `loadFromFile` reads from an input stream with its
  `eofbit` and `failbit`. A `std::string` is a `String`, its characters the
  elements of `String.data`.
-/

set_option autoImplicit false

namespace Hotel

/-! ## Enumerations (Utils.h) -/

inductive RoomType where
  | STANDARD | DELUXE | SUITE | PRESIDENTIAL
  deriving DecidableEq, Repr

inductive Shift where
  | MORNING | AFTERNOON | NIGHT
  deriving DecidableEq, Repr

inductive RoomStatus where
  | AVAILABLE | OCCUPIED | RESERVED | MAINTENANCE
  deriving DecidableEq, Repr

inductive ReservationStatus where
  | CONFIRMED | CHECKED_IN | CHECKED_OUT | CANCELLED
  deriving DecidableEq, Repr

inductive PaymentStatus where
  | PENDING | PAID | PARTIAL
  deriving DecidableEq, Repr

inductive Department where
  | FRONT_DESK | HOUSEKEEPING | KITCHEN | MANAGEMENT
  deriving DecidableEq, Repr

/-! ## Exceptions (Exceptions.h)

Only the classes that the modelled code throws are listed; the payload is the
text returned by `what()`. -/

inductive HotelException where
  | ValidationException (message : String)
  | RoomException (message : String)
  | FileException (message : String)
  deriving DecidableEq, Repr

instance instDecidableEqExcept {ε α : Type} [DecidableEq ε] [DecidableEq α] :
    DecidableEq (Except ε α)
  | .ok a, .ok b =>
    if h : a = b then isTrue (by rw [h]) else isFalse (fun hab => h (Except.ok.inj hab))
  | .error a, .error b =>
    if h : a = b then isTrue (by rw [h]) else isFalse (fun hab => h (Except.error.inj hab))
  | .ok _, .error _ => isFalse (fun hab => Except.noConfusion hab)
  | .error _, .ok _ => isFalse (fun hab => Except.noConfusion hab)

/-- The message built by `RoomException(operation)` with empty details. -/
def roomExceptionMessage (operation : String) : String :=
  "Room operation failed: " ++ operation

/-- The message built by `FileException(msg)`. -/
def fileExceptionMessage (msg : String) : String :=
  "File Error: " ++ msg

/-- Recogniser for the class `ValidationException`. -/
def HotelException.isValidation : HotelException → Bool
  | .ValidationException _ => true
  | .RoomException _ => false
  | .FileException _ => false

/-- Recogniser for the class `RoomException`. -/
def HotelException.isRoom : HotelException → Bool
  | .ValidationException _ => false
  | .RoomException _ => true
  | .FileException _ => false

/-- Recogniser for the class `FileException`. -/
def HotelException.isFile : HotelException → Bool
  | .ValidationException _ => false
  | .RoomException _ => false
  | .FileException _ => true

/-! ## Utils -/

/-- The value of a signed machine integer of `w` bits that holds the low `w`
bits of `n` (two's complement): what a conversion of `n` to that type yields. -/
def wrapInt (w : Nat) (n : Int) : Int :=
  (n + 2 ^ (w - 1)) % 2 ^ w - 2 ^ (w - 1)

/-- `Utils::daysBetween`: `(end - start) / (60 * 60 * 24)` on `time_t` values
(64 bits) with C++ integer division, which truncates toward zero; the quotient
is converted to the `int` (32 bits) that the function returns. -/
def Utils.daysBetween (start stop : Int) : Int :=
  wrapInt 32 (Int.tdiv (wrapInt 64 (stop - start)) (60 * 60 * 24))

/-- `std::string::find(c, pos)`: the index of the first `c` at an index not
below `pos`, or `none` for `npos`. The second argument is the index of the head
of the list. -/
def Utils.findFrom (c : Char) : List Char → Nat → Nat → Option Nat
  | [], _, _ => none
  | x :: xs, i, pos => if pos ≤ i ∧ x = c then some i else Utils.findFrom c xs (i + 1) pos

/-- `Utils::isValidEmail`: `atPos = email.find('@')`, `dotPos = email.find('.',
atPos)` (which is `npos` when `atPos` is), and the result is `atPos != npos &&
dotPos != npos && dotPos > atPos + 1`. -/
def Utils.isValidEmail (email : String) : Bool :=
  let atPos := Utils.findFrom '@' email.data 0 0
  let dotPos :=
    match atPos with
    | none => none
    | some a => Utils.findFrom '.' email.data 0 a
  match atPos, dotPos with
  | some a, some d => decide (d > a + 1)
  | _, _ => false

/-- The character test of `Utils::isValidPhone`: `isdigit(c)` or one of
`+ - space ( )`. -/
def Utils.isPhoneChar (c : Char) : Bool :=
  c.isDigit || c == '+' || c == '-' || c == ' ' || c == '(' || c == ')'

/-- `Utils::isValidPhone`: `phone.length() >= 10` and every character passes
the test. -/
def Utils.isValidPhone (phone : String) : Bool :=
  decide (phone.data.length ≥ 10) && phone.data.all Utils.isPhoneChar

/-- `Utils::toLower`: `::tolower` on every character. -/
def Utils.toLower (str : String) : String :=
  ⟨str.data.map Char.toLower⟩

/-- `std::string::find(str)`: the index of the first occurrence of `needle` as a
run of consecutive characters, or `none` for `npos`. The last argument is the
index of the head of the list. -/
def Utils.find (needle : List Char) : List Char → Nat → Option Nat
  | [], i => if needle.isPrefixOf [] then some i else none
  | c :: rest, i =>
    if needle.isPrefixOf (c :: rest) then some i else Utils.find needle rest (i + 1)

/-! ## Room -/

structure Room where
  roomNumber : Int
  type : RoomType
  status : RoomStatus
  pricePerNight : ℚ
  capacity : Int
  features : List String
  deriving DecidableEq, Repr

def Room.setStatus (r : Room) (newStatus : RoomStatus) : Room :=
  { r with status := newStatus }

def Room.isAvailable (r : Room) : Bool :=
  r.status == RoomStatus.AVAILABLE

def Room.canAccommodate (r : Room) (guests : Int) : Bool :=
  decide (guests ≤ r.capacity)

/-- The validating constructor `Room::Room(roomNo, t, price, cap, feat)`: the
members are initialised (status `AVAILABLE`), then the three checks run. -/
def Room.ctor (roomNo : Int) (t : RoomType) (price : ℚ) (cap : Int) (feat : List String) :
    Except HotelException Room :=
  if roomNo ≤ 0 then .error (.ValidationException "Room number must be positive")
  else if price ≤ 0 then .error (.ValidationException "Price must be positive")
  else if cap ≤ 0 then .error (.ValidationException "Capacity must be positive")
  else .ok { roomNumber := roomNo, type := t, status := RoomStatus.AVAILABLE,
             pricePerNight := price, capacity := cap, features := feat }

/-- `Room::isValid`. -/
def Room.isValid (r : Room) : Bool :=
  decide (r.roomNumber > 0) && decide (r.pricePerNight > 0) && decide (r.capacity > 0)

/-- `Room::setPrice`. -/
def Room.setPrice (r : Room) (newPrice : ℚ) : Except HotelException Unit × Room :=
  if newPrice ≤ 0 then (.error (.ValidationException "Price must be positive"), r)
  else (.ok (), { r with pricePerNight := newPrice })

/-- `Room::setFeatures`. -/
def Room.setFeatures (r : Room) (newFeatures : List String) : Room :=
  { r with features := newFeatures }

/-! ## Customer -/

structure Customer where
  customerId : Int
  name : String
  email : String
  phone : String
  address : String
  idProof : String
  registrationDate : Int
  totalVisits : Int
  totalSpent : ℚ
  deriving DecidableEq, Repr

/-- The validating constructor `Customer::Customer(id, n, e, p, addr, proof)`;
the registration date is `time(nullptr)`. -/
def Customer.ctor (id : Int) (n e p addr proof : String) (now : Int) :
    Except HotelException Customer :=
  if id ≤ 0 then .error (.ValidationException "Customer ID must be positive")
  else if n = "" then .error (.ValidationException "Name cannot be empty")
  else if !Utils.isValidEmail e then .error (.ValidationException "Invalid email format")
  else if !Utils.isValidPhone p then .error (.ValidationException "Invalid phone number")
  else if addr = "" then .error (.ValidationException "Address cannot be empty")
  else if proof = "" then .error (.ValidationException "ID proof cannot be empty")
  else .ok { customerId := id, name := n, email := e, phone := p, address := addr,
             idProof := proof, registrationDate := now, totalVisits := 0, totalSpent := 0 }

/-- `Customer::setName`. -/
def Customer.setName (c : Customer) (newName : String) : Except HotelException Unit × Customer :=
  if newName = "" then (.error (.ValidationException "Name cannot be empty"), c)
  else (.ok (), { c with name := newName })

/-- `Customer::setEmail`. -/
def Customer.setEmail (c : Customer) (newEmail : String) :
    Except HotelException Unit × Customer :=
  if !Utils.isValidEmail newEmail then
    (.error (.ValidationException "Invalid email format"), c)
  else (.ok (), { c with email := newEmail })

/-- `Customer::setPhone`. -/
def Customer.setPhone (c : Customer) (newPhone : String) :
    Except HotelException Unit × Customer :=
  if !Utils.isValidPhone newPhone then
    (.error (.ValidationException "Invalid phone number"), c)
  else (.ok (), { c with phone := newPhone })

/-- `Customer::setAddress`. -/
def Customer.setAddress (c : Customer) (newAddress : String) :
    Except HotelException Unit × Customer :=
  if newAddress = "" then (.error (.ValidationException "Address cannot be empty"), c)
  else (.ok (), { c with address := newAddress })

/-- `Customer::setIdProof`. -/
def Customer.setIdProof (c : Customer) (newProof : String) :
    Except HotelException Unit × Customer :=
  if newProof = "" then (.error (.ValidationException "ID proof cannot be empty"), c)
  else (.ok (), { c with idProof := newProof })

/-- `Customer::addVisit`. -/
def Customer.addVisit (c : Customer) (amount : ℚ) : Except HotelException Unit × Customer :=
  if amount < 0 then (.error (.ValidationException "Amount cannot be negative"), c)
  else (.ok (), { c with totalVisits := c.totalVisits + 1, totalSpent := c.totalSpent + amount })

/-- `Customer::updateInfo`: `setPhone`, `setEmail`, `setAddress` in this order;
the first one that throws ends the call. -/
def Customer.updateInfo (c : Customer) (newPhone newEmail newAddress : String) :
    Except HotelException Unit × Customer :=
  match c.setPhone newPhone with
  | (.error e, c1) => (.error e, c1)
  | (.ok _, c1) =>
    match c1.setEmail newEmail with
    | (.error e, c2) => (.error e, c2)
    | (.ok _, c2) => c2.setAddress newAddress

/-- `Customer::isValid`. -/
def Customer.isValid (c : Customer) : Bool :=
  decide (c.customerId > 0) && c.name != "" && Utils.isValidEmail c.email &&
    Utils.isValidPhone c.phone && c.address != "" && c.idProof != ""

/-! ## Employee -/

structure Employee where
  employeeId : Int
  name : String
  position : String
  department : Department
  shift : Shift
  salary : ℚ
  contactNumber : String
  address : String
  joinDate : String
  email : String
  password : String
  deriving DecidableEq, Repr

/-! ## Reservation -/

structure Reservation where
  reservationId : Int
  customerId : Int
  roomNumber : Int
  checkInDate : Int
  checkOutDate : Int
  numberOfGuests : Int
  roomRate : ℚ
  totalAmount : ℚ
  paidAmount : ℚ
  status : ReservationStatus
  paymentStatus : PaymentStatus
  specialRequests : String
  bookingDate : Int
  deriving DecidableEq, Repr

/-- `Reservation::calculateNights`. -/
def Reservation.calculateNights (r : Reservation) : Int :=
  Utils.daysBetween r.checkInDate r.checkOutDate

/-- `Reservation::calculateTotal`: `roomRate * calculateNights()`. -/
def Reservation.calculateTotal (r : Reservation) : ℚ :=
  r.roomRate * (r.calculateNights : ℚ)

/-- `Reservation::getDueAmount`. -/
def Reservation.getDueAmount (r : Reservation) : ℚ :=
  r.totalAmount - r.paidAmount

/-- The validating constructor `Reservation::Reservation(resId, custId, roomNo,
checkIn, checkOut, guests, rate)`. The member initialisers run first, then the
six checks in source order, then the total is computed and the paid amount is
reset. -/
def Reservation.ctor (resId custId roomNo checkIn checkOut guests : Int) (rate : ℚ)
    (now : Int) : Except HotelException Reservation :=
  let r0 : Reservation :=
    { reservationId := resId, customerId := custId, roomNumber := roomNo,
      checkInDate := checkIn, checkOutDate := checkOut, numberOfGuests := guests,
      roomRate := rate, totalAmount := 0, paidAmount := 0,
      status := ReservationStatus.CONFIRMED, paymentStatus := PaymentStatus.PENDING,
      specialRequests := "", bookingDate := now }
  if resId ≤ 0 then .error (.ValidationException "Reservation ID must be positive")
  else if custId ≤ 0 then .error (.ValidationException "Customer ID must be positive")
  else if roomNo ≤ 0 then .error (.ValidationException "Room number must be positive")
  else if checkIn ≥ checkOut then
    .error (.ValidationException "Check-out must be after check-in")
  else if guests ≤ 0 then
    .error (.ValidationException "Number of guests must be positive")
  else if rate ≤ 0 then .error (.ValidationException "Room rate must be positive")
  else .ok { r0 with totalAmount := r0.calculateTotal, paidAmount := 0 }

/-- `Reservation::setDates`. -/
def Reservation.setDates (r : Reservation) (newCheckIn newCheckOut : Int) :
    Except HotelException Unit × Reservation :=
  if newCheckIn ≥ newCheckOut then
    (.error (.ValidationException "Check-out must be after check-in"), r)
  else
    let r1 := { r with checkInDate := newCheckIn, checkOutDate := newCheckOut }
    (.ok (), { r1 with totalAmount := r1.calculateTotal })

/-- `Reservation::setGuests`. -/
def Reservation.setGuests (r : Reservation) (guests : Int) :
    Except HotelException Unit × Reservation :=
  if guests ≤ 0 then
    (.error (.ValidationException "Number of guests must be positive"), r)
  else (.ok (), { r with numberOfGuests := guests })

/-- `Reservation::setRoomRate`. -/
def Reservation.setRoomRate (r : Reservation) (rate : ℚ) :
    Except HotelException Unit × Reservation :=
  if rate ≤ 0 then (.error (.ValidationException "Room rate must be positive"), r)
  else
    let r1 := { r with roomRate := rate }
    (.ok (), { r1 with totalAmount := r1.calculateTotal })

/-- `Reservation::setSpecialRequests`. -/
def Reservation.setSpecialRequests (r : Reservation) (requests : String) : Reservation :=
  { r with specialRequests := requests }

/-- `Reservation::checkIn`: the returned flag and the object after the call. -/
def Reservation.checkIn (r : Reservation) : Bool × Reservation :=
  if r.status ≠ ReservationStatus.CONFIRMED then (false, r)
  else (true, { r with status := ReservationStatus.CHECKED_IN })

/-- `Reservation::checkOut`. -/
def Reservation.checkOut (r : Reservation) : Bool × Reservation :=
  if r.status ≠ ReservationStatus.CHECKED_IN then (false, r)
  else (true, { r with status := ReservationStatus.CHECKED_OUT })

/-- `Reservation::cancel`: refused for `CHECKED_IN` and `CHECKED_OUT`, otherwise
the status is set to `CANCELLED`. -/
def Reservation.cancel (r : Reservation) : Bool × Reservation :=
  if r.status = ReservationStatus.CHECKED_IN ∨ r.status = ReservationStatus.CHECKED_OUT then
    (false, r)
  else (true, { r with status := ReservationStatus.CANCELLED })

/-- `Reservation::makePayment`. -/
def Reservation.makePayment (r : Reservation) (amount : ℚ) :
    Except HotelException Bool × Reservation :=
  if amount ≤ 0 then (.error (.ValidationException "Payment amount must be positive"), r)
  else if amount > r.getDueAmount then
    (.error (.ValidationException "Payment exceeds due amount"), r)
  else
    let r1 := { r with paidAmount := r.paidAmount + amount }
    let r2 :=
      if r1.paidAmount ≥ r1.totalAmount then { r1 with paymentStatus := PaymentStatus.PAID }
      else if r1.paidAmount > 0 then { r1 with paymentStatus := PaymentStatus.PARTIAL }
      else r1
    (.ok true, r2)

/-- `Reservation::isValid`. -/
def Reservation.isValid (r : Reservation) : Bool :=
  decide (r.reservationId > 0) && decide (r.customerId > 0) && decide (r.roomNumber > 0) &&
    decide (r.checkInDate < r.checkOutDate) && decide (r.numberOfGuests > 0) &&
    decide (r.roomRate > 0) && decide (r.totalAmount > 0)

/-! ## Bill -/

structure BillItem where
  description : String
  amount : ℚ
  quantity : Int
  deriving DecidableEq, Repr

/-- `BillItem::getTotal`: `amount * quantity`. -/
def BillItem.getTotal (i : BillItem) : ℚ :=
  i.amount * (i.quantity : ℚ)

structure Bill where
  billId : Int
  reservationId : Int
  items : List BillItem
  taxRate : ℚ
  discount : ℚ
  paymentMethod : String
  paymentDate : Int
  isPaid : Bool
  deriving DecidableEq, Repr

/-- `Bill::calculateSubtotal`: the accumulation loop over the items, from `0.0`. -/
def Bill.calculateSubtotal (b : Bill) : ℚ :=
  b.items.foldl (fun subtotal item => subtotal + item.getTotal) 0

/-- `Bill::calculateTax`. -/
def Bill.calculateTax (b : Bill) : ℚ :=
  b.calculateSubtotal * b.taxRate

/-- `Bill::calculateDiscountAmount`. -/
def Bill.calculateDiscountAmount (b : Bill) : ℚ :=
  let subtotal := b.calculateSubtotal
  let tax := b.calculateTax
  (subtotal + tax) * b.discount

/-- `Bill::calculateTotal`. -/
def Bill.calculateTotal (b : Bill) : ℚ :=
  let subtotal := b.calculateSubtotal
  let tax := b.calculateTax
  let discountAmount := b.calculateDiscountAmount
  subtotal + tax - discountAmount

/-- `Bill::processPayment`: both checks come before the three writes. -/
def Bill.processPayment (b : Bill) (method : String) (now : Int) :
    Except HotelException Bool × Bill :=
  if method = "" then
    (.error (.ValidationException "Payment method cannot be empty"), b)
  else if b.isPaid then (.error (.ValidationException "Bill is already paid"), b)
  else (.ok true, { b with paymentMethod := method, paymentDate := now, isPaid := true })

/-- `Bill::getBalanceDue`. -/
def Bill.getBalanceDue (b : Bill) : ℚ :=
  if b.isPaid then 0 else b.calculateTotal

/-- The validating constructor `Bill::Bill(id, resId, tax, disc)`. -/
def Bill.ctor (id resId : Int) (tax disc : ℚ) : Except HotelException Bill :=
  if id ≤ 0 then .error (.ValidationException "Bill ID must be positive")
  else if resId ≤ 0 then .error (.ValidationException "Reservation ID must be positive")
  else if tax < 0 then .error (.ValidationException "Tax rate cannot be negative")
  else if disc < 0 ∨ disc > 1 then
    .error (.ValidationException "Discount must be between 0 and 1")
  else .ok { billId := id, reservationId := resId, items := [], taxRate := tax,
             discount := disc, paymentMethod := "", paymentDate := 0, isPaid := false }

/-! ## Database -/

/-- A write through the pointer that a `find...` loop returned: the first
element satisfying `p` is replaced by its image under `f`. -/
def modifyFirst {α : Type} (p : α → Bool) (f : α → α) : List α → List α
  | [] => []
  | x :: xs => if p x then f x :: xs else x :: modifyFirst p f xs

structure Database where
  rooms : List Room
  customers : List Customer
  reservations : List Reservation
  employees : List Employee
  bills : List Bill
  nextRoomNumber : Int
  nextCustomerId : Int
  nextReservationId : Int
  nextEmployeeId : Int
  nextBillId : Int
  deriving DecidableEq, Repr

/-- `Database::findRoom`: the first room with that number, if any. -/
def Database.findRoom (db : Database) (roomNumber : Int) : Option Room :=
  db.rooms.find? (fun room => room.roomNumber == roomNumber)

/-- `Database::findCustomer`. -/
def Database.findCustomer (db : Database) (customerId : Int) : Option Customer :=
  db.customers.find? (fun customer => customer.customerId == customerId)

/-- `Database::findReservation`. -/
def Database.findReservation (db : Database) (reservationId : Int) : Option Reservation :=
  db.reservations.find? (fun reservation => reservation.reservationId == reservationId)

/-- `Database::findBill`. -/
def Database.findBill (db : Database) (billId : Int) : Option Bill :=
  db.bills.find? (fun bill => bill.billId == billId)

/-- Which of the data files `ofstream` can open for writing, as the `save...`
functions meet them during one call of a store operation. -/
structure DataFiles where
  rooms : Bool
  customers : Bool
  reservations : Bool
  employees : Bool
  bills : Bool
  deriving DecidableEq, Repr

/-- `Database::saveRooms`: throws when the rooms file cannot be opened,
otherwise writes the rooms and returns true. -/
def Database.saveRooms (_ : Database) (disk : DataFiles) : Except HotelException Bool :=
  if disk.rooms then .ok true
  else .error (.FileException (fileExceptionMessage "Cannot open rooms file"))

/-- `Database::saveCustomers`. -/
def Database.saveCustomers (_ : Database) (disk : DataFiles) : Except HotelException Bool :=
  if disk.customers then .ok true
  else .error (.FileException (fileExceptionMessage "Cannot open customers file"))

/-- `Database::saveReservations`. -/
def Database.saveReservations (_ : Database) (disk : DataFiles) :
    Except HotelException Bool :=
  if disk.reservations then .ok true
  else .error (.FileException (fileExceptionMessage "Cannot open reservations file"))

/-- `Database::saveEmployees`. -/
def Database.saveEmployees (_ : Database) (disk : DataFiles) : Except HotelException Bool :=
  if disk.employees then .ok true
  else .error (.FileException (fileExceptionMessage "Cannot open employees file"))

/-- `Database::saveBills`. -/
def Database.saveBills (_ : Database) (disk : DataFiles) : Except HotelException Bool :=
  if disk.bills then .ok true
  else .error (.FileException (fileExceptionMessage "Cannot open bills file"))

/-- The outcome of a store operation that has made its changes in memory and
goes on to `return value` after the `save...` calls whose outcomes are `saves`,
in the order of the calls: the first save that throws ends the operation with
its exception, which the `catch` block rethrows. -/
def afterSaves {α : Type} (value : α) : List (Except HotelException Bool) →
    Except HotelException α
  | [] => .ok value
  | .error e :: _ => .error e
  | .ok _ :: rest => afterSaves value rest

/-- `Database::addRoom`: `nextRoomNumber++` is evaluated before the `Room`
constructor runs; `saveRooms()` follows the `push_back`. -/
def Database.addRoom (db : Database) (type : RoomType) (price : ℚ) (capacity : Int)
    (features : List String) (disk : DataFiles) : Except HotelException Int × Database :=
  let db1 := { db with nextRoomNumber := db.nextRoomNumber + 1 }
  match Room.ctor db.nextRoomNumber type price capacity features with
  | .error e => (.error e, db1)
  | .ok newRoom =>
    let db2 := { db1 with rooms := db1.rooms ++ [newRoom] }
    (afterSaves newRoom.roomNumber [db2.saveRooms disk], db2)

/-- `Database::addCustomer`: `nextCustomerId++` is evaluated before the
`Customer` constructor runs; `saveCustomers()` follows the `push_back`. -/
def Database.addCustomer (db : Database) (name email phone address idProof : String)
    (now : Int) (disk : DataFiles) : Except HotelException Int × Database :=
  let db1 := { db with nextCustomerId := db.nextCustomerId + 1 }
  match Customer.ctor db.nextCustomerId name email phone address idProof now with
  | .error e => (.error e, db1)
  | .ok newCustomer =>
    let db2 := { db1 with customers := db1.customers ++ [newCustomer] }
    (afterSaves newCustomer.customerId [db2.saveCustomers disk], db2)

/-- `Database::makeReservation`. The post-increment of `nextReservationId` is
evaluated before the `Reservation` constructor runs, so the counter has already
advanced when the constructor throws. `saveReservations()` and `saveRooms()`
run after the room was set to `RESERVED` and the reservation was pushed. -/
def Database.makeReservation (db : Database) (customerId roomNumber checkIn checkOut
    guests : Int) (requests : String) (now : Int) (disk : DataFiles) :
    Except HotelException Int × Database :=
  match db.findCustomer customerId with
  | none => (.error (.ValidationException "Customer not found"), db)
  | some _ =>
    match db.findRoom roomNumber with
    | none => (.error (.ValidationException "Room not found"), db)
    | some room =>
      if !room.isAvailable then
        (.error (.RoomException (roomExceptionMessage "Room is not available")), db)
      else if !room.canAccommodate guests then
        (.error (.ValidationException
          ("Room cannot accommodate " ++ toString guests ++ " guests")), db)
      else
        let roomRate := room.pricePerNight
        let db1 := { db with nextReservationId := db.nextReservationId + 1 }
        match Reservation.ctor db.nextReservationId customerId roomNumber checkIn checkOut
            guests roomRate now with
        | .error e => (.error e, db1)
        | .ok created =>
          let newReservation :=
            if requests ≠ "" then created.setSpecialRequests requests else created
          let db2 := { db1 with
            rooms := modifyFirst (fun r => r.roomNumber == roomNumber)
              (fun r => r.setStatus RoomStatus.RESERVED) db1.rooms }
          let db3 := { db2 with reservations := db2.reservations ++ [newReservation] }
          (afterSaves newReservation.reservationId
            [db3.saveReservations disk, db3.saveRooms disk], db3)

/-- The effect of `room->setStatus(status)` after `Room* room = findRoom(n)`,
guarded by `if (room)`. -/
def Database.setRoomStatus (db : Database) (roomNumber : Int) (status : RoomStatus) :
    Database :=
  match db.findRoom roomNumber with
  | none => db
  | some _ =>
    { db with
      rooms := modifyFirst (fun r => r.roomNumber == roomNumber)
        (fun r => r.setStatus status) db.rooms }

/-- The `save...` calls of `cancelReservation`, `checkIn` and `checkOut` after
the member function returned true: `saveRooms()` when `findRoom` found the room
of the reservation (whose status is then set), and `saveReservations()` in
either case. -/
def Database.savesAfterTransition (db : Database) (roomNumber : Int) (disk : DataFiles) :
    List (Except HotelException Bool) :=
  match db.findRoom roomNumber with
  | some _ => [db.saveRooms disk, db.saveReservations disk]
  | none => [db.saveReservations disk]

/-- `Database::cancelReservation`. -/
def Database.cancelReservation (db : Database) (reservationId : Int) (disk : DataFiles) :
    Except HotelException Bool × Database :=
  match db.findReservation reservationId with
  | none => (.ok false, db)
  | some reservation =>
    let db1 := { db with
      reservations := modifyFirst (fun r => r.reservationId == reservationId)
        (fun r => r.cancel.2) db.reservations }
    if reservation.cancel.1 then
      (afterSaves true (db1.savesAfterTransition reservation.cancel.2.roomNumber disk),
        db1.setRoomStatus reservation.cancel.2.roomNumber RoomStatus.AVAILABLE)
    else (.ok false, db1)

/-- `Database::checkIn`. -/
def Database.checkIn (db : Database) (reservationId : Int) (disk : DataFiles) :
    Except HotelException Bool × Database :=
  match db.findReservation reservationId with
  | none => (.ok false, db)
  | some reservation =>
    let db1 := { db with
      reservations := modifyFirst (fun r => r.reservationId == reservationId)
        (fun r => r.checkIn.2) db.reservations }
    if reservation.checkIn.1 then
      (afterSaves true (db1.savesAfterTransition reservation.checkIn.2.roomNumber disk),
        db1.setRoomStatus reservation.checkIn.2.roomNumber RoomStatus.OCCUPIED)
    else (.ok false, db1)

/-- `Database::checkOut`. -/
def Database.checkOut (db : Database) (reservationId : Int) (disk : DataFiles) :
    Except HotelException Bool × Database :=
  match db.findReservation reservationId with
  | none => (.ok false, db)
  | some reservation =>
    let db1 := { db with
      reservations := modifyFirst (fun r => r.reservationId == reservationId)
        (fun r => r.checkOut.2) db.reservations }
    if reservation.checkOut.1 then
      (afterSaves true (db1.savesAfterTransition reservation.checkOut.2.roomNumber disk),
        db1.setRoomStatus reservation.checkOut.2.roomNumber RoomStatus.AVAILABLE)
    else (.ok false, db1)

/-- `Database::processPayment`. -/
def Database.processPayment (db : Database) (billId : Int) (paymentMethod : String)
    (now : Int) (disk : DataFiles) : Except HotelException Bool × Database :=
  match db.findBill billId with
  | none => (.ok false, db)
  | some bill =>
    let db1 := { db with
      bills := modifyFirst (fun b => b.billId == billId)
        (fun b => (b.processPayment paymentMethod now).2) db.bills }
    match (bill.processPayment paymentMethod now).1 with
    | .error e => (.error e, db1)
    | .ok _ => (afterSaves true [db1.saveBills disk], db1)

/-! ## Text output and input

The part of `<iostream>` and `<string>` that the file codecs use, on lists of
characters. An output stream is the text written to it. An input stream is the
unread text with its `eofbit` and `failbit`. A read that leaves its variable
untouched (the stream was not good) returns `none`. -/

/-- `isspace` in the "C" locale. -/
def Text.isSpace (c : Char) : Bool :=
  c == ' ' || c == '\t' || c == '\n' || c == '\x0b' || c == '\x0c' || c == '\r'

/-- `os << n` for an unsigned integer: its decimal digits. -/
def Text.showNat (n : Nat) : List Char :=
  Nat.toDigits 10 n

/-- `os << n` for a signed integer. -/
def Text.showInt : Int → List Char
  | .ofNat n => Text.showNat n
  | .negSucc n => '-' :: Text.showNat (n + 1)

/-- `os << b` for a `bool` without `boolalpha`. -/
def Text.showBool (b : Bool) : List Char :=
  if b then ['1'] else ['0']

/-- The value of a decimal digit. -/
def Text.digitValue (c : Char) : Nat :=
  c.toNat - 48

/-- The number written by a list of decimal digits. -/
def Text.digitsValue (ds : List Char) : Nat :=
  ds.foldl (fun acc c => acc * 10 + Text.digitValue c) 0

/-- The integer conversion of `num_get` and `strtol` at the head of the text: an
optional sign, then digits. Returns the value, if there is a digit, and the text
after the characters taken. -/
def Text.parseInt (buf : List Char) : Option Int × List Char :=
  let signed : Bool × List Char :=
    match buf with
    | '-' :: t => (true, t)
    | '+' :: t => (false, t)
    | _ => (false, buf)
  let split := signed.2.span Char.isDigit
  if split.1 = [] then (none, split.2)
  else if signed.1 then (some (-(Text.digitsValue split.1 : Int)), split.2)
  else (some (Text.digitsValue split.1 : Int), split.2)

/-- `std::stoi`: leading white space is skipped; `none` stands for the
`std::invalid_argument` thrown when no digit is found. -/
def Text.stoi (str : List Char) : Option Int :=
  (Text.parseInt (str.dropWhile Text.isSpace)).1

structure IStream where
  buf : List Char
  eof : Bool
  fail : Bool
  deriving DecidableEq, Repr

/-- A stream just opened on a text. -/
def IStream.ofText (t : List Char) : IStream :=
  { buf := t, eof := false, fail := false }

/-- `is.good()`. -/
def IStream.good (s : IStream) : Bool :=
  !s.eof && !s.fail

/-- The sentry of a formatted extraction (`>>`): a stream that is not good gets
`failbit`; otherwise white space is skipped, and reaching the end sets `eofbit`
and `failbit`. The flag tells whether the extraction goes on. -/
def IStream.sentry (s : IStream) : Bool × IStream :=
  if !s.good then (false, { s with fail := true })
  else if s.buf.dropWhile Text.isSpace = [] then
    (false, { buf := [], eof := true, fail := true })
  else (true, { s with buf := s.buf.dropWhile Text.isSpace })

/-- `is >> n` for an integer: a failed conversion stores 0 and sets `failbit`;
reading up to the end sets `eofbit`. -/
def IStream.readInt (s : IStream) : Option Int × IStream :=
  if s.sentry.1 then
    match Text.parseInt s.sentry.2.buf with
    | (none, rest) => (some 0, { buf := rest, eof := decide (rest = []), fail := true })
    | (some v, rest) => (some v, { buf := rest, eof := decide (rest = []), fail := false })
  else (none, s.sentry.2)

/-- `is >> b` for a `bool` without `boolalpha`: read as an integer; 0 is false,
1 is true, anything else stores true and sets `failbit`. -/
def IStream.readBool (s : IStream) : Option Bool × IStream :=
  match s.readInt with
  | (none, s1) => (none, s1)
  | (some v, s1) =>
    if v = 0 then (some false, s1)
    else if v = 1 then (some true, s1)
    else (some true, { s1 with fail := true })

/-- `is >> str` for a `std::string`: the characters up to the next white space. -/
def IStream.readWord (s : IStream) : Option (List Char) × IStream :=
  if s.sentry.1 then
    let split := s.sentry.2.buf.span (fun c => !Text.isSpace c)
    (some split.1, { buf := split.2, eof := decide (split.2 = []), fail := false })
  else (none, s.sentry.2)

/-- `is.ignore()`: drops one character. -/
def IStream.ignore (s : IStream) : IStream :=
  if !s.good then { s with fail := true }
  else
    match s.buf with
    | [] => { s with eof := true }
    | _ :: t => { s with buf := t }

/-- The characters before the first `d`, the text after that `d`, and whether a
`d` was found. -/
def Text.untilDelim (d : Char) : List Char → List Char × List Char × Bool
  | [] => ([], [], false)
  | c :: cs =>
    if c = d then ([], cs, true)
    else ((c :: (Text.untilDelim d cs).1), (Text.untilDelim d cs).2.1,
      (Text.untilDelim d cs).2.2)

/-- `std::getline(is, str, d)`: a stream that is not good gets `failbit` and
`str` is left alone; otherwise `str` receives the characters up to the
delimiter, which is dropped; reaching the end sets `eofbit`, and `failbit` too
when nothing at all was extracted. -/
def IStream.getline (s : IStream) (d : Char) : Option (List Char) × IStream :=
  if !s.good then (none, { s with fail := true })
  else if (Text.untilDelim d s.buf).2.2 then
    (some (Text.untilDelim d s.buf).1, { s with buf := (Text.untilDelim d s.buf).2.1 })
  else
    (some (Text.untilDelim d s.buf).1,
      { buf := [], eof := true, fail := decide ((Text.untilDelim d s.buf).1 = []) })

/-- `while (getline(ss, token, d)) tokens.push_back(token);` with one unit of
fuel for each possible turn. -/
def Text.tokenLoop (d : Char) : Nat → IStream → List (List Char) → List (List Char)
  | 0, _, acc => acc
  | fuel + 1, s, acc =>
    match s.getline d with
    | (some w, s1) => if s1.fail then acc else Text.tokenLoop d fuel s1 (acc ++ [w])
    | (none, _) => acc

/-- The tokens of a line: the loop above on `stringstream ss(line)`. No turn
leaves the stream as it found it without ending the loop, so the fuel suffices. -/
def Text.tokens (d : Char) (line : List Char) : List (List Char) :=
  Text.tokenLoop d (line.length + 1) (IStream.ofText line) []

/-! ## Text form of a `double`

`os << x` with the default flags prints as `printf("%g")` does with precision
6: six significant digits, trailing zeros removed, scientific notation when the
decimal exponent is below -4 or at least 6. The digits are those of the exact
value, a tie rounded to the even digit. The argument is a rational: for a
rational that is a binary64 value this is what the stream writes; for another
rational the stream writes the digits of the binary64 value next to it, which
can differ in the last digit when the rational is a tie or close to one. The
evaluations below use binary64 values, or values whose text is the same either
way. -/

/-- For `0 < d ≤ n`: the largest `k` with `d * 10^k ≤ n`, searched upward. -/
def Text.expUp (n d : Nat) : Nat → Nat → Nat
  | 0, k => k
  | fuel + 1, k => if d * 10 ^ (k + 1) ≤ n then Text.expUp n d fuel (k + 1) else k

/-- For `0 < n < d`: the smallest `k ≥ 1` with `d ≤ n * 10^k`, searched upward. -/
def Text.expDown (n d : Nat) : Nat → Nat → Nat
  | 0, k => k
  | fuel + 1, k => if d ≤ n * 10 ^ k then k else Text.expDown n d fuel (k + 1)

/-- The decimal exponent `floor(log10(n/d))` of a positive fraction. -/
def Text.decimalExponent (n d : Nat) : Int :=
  if d ≤ n then (Text.expUp n d n 0 : Int) else -(Text.expDown n d d 1 : Int)

/-- `N / D` rounded to the nearest integer, a tie to the even one. -/
def Text.roundHalfEven (N D : Nat) : Nat :=
  if 2 * (N % D) > D then N / D + 1
  else if 2 * (N % D) < D then N / D
  else if (N / D) % 2 = 0 then N / D
  else N / D + 1

/-- The six significant digits of `n/d` as a number in `[10^5, 10^6)`, with the
decimal exponent, which moves up by one when rounding reaches `10^6`. -/
def Text.sixDigits (n d : Nat) : Nat × Int :=
  let e := Text.decimalExponent n d
  let m :=
    if e ≤ 5 then Text.roundHalfEven (n * 10 ^ (5 - e).toNat) d
    else Text.roundHalfEven n (d * 10 ^ (e - 5).toNat)
  if m ≥ 10 ^ 6 then (10 ^ 5, e + 1) else (m, e)

/-- Trailing zeros removed. -/
def Text.stripZeros (ds : List Char) : List Char :=
  (ds.reverse.dropWhile (fun c => c == '0')).reverse

/-- The decimal digits of `m`, padded with zeros on the left to `width`. -/
def Text.padded (width m : Nat) : List Char :=
  List.replicate (width - (Text.showNat m).length) '0' ++ Text.showNat m

/-- The fraction part after the decimal point, or nothing. -/
def Text.fraction (ds : List Char) : List Char :=
  if Text.stripZeros ds = [] then [] else '.' :: Text.stripZeros ds

/-- Fixed notation of `m * 10^(e-5)` for `-4 ≤ e ≤ 5`. -/
def Text.showFixed (m : Nat) (e : Int) : List Char :=
  let fracLen := (5 - e).toNat
  Text.showNat (m / 10 ^ fracLen) ++ Text.fraction (Text.padded fracLen (m % 10 ^ fracLen))

/-- Scientific notation of `m * 10^(e-5)`: one digit, the fraction, and an
exponent of at least two digits. -/
def Text.showScientific (m : Nat) (e : Int) : List Char :=
  Text.showNat (m / 10 ^ 5) ++ Text.fraction (Text.padded 5 (m % 10 ^ 5)) ++
    ['e', if e < 0 then '-' else '+'] ++ Text.padded 2 e.natAbs

/-- `os << x` for a `double`. -/
def Text.showDouble (x : ℚ) : List Char :=
  if x.num = 0 then ['0']
  else
    let md := Text.sixDigits x.num.natAbs x.den
    (if x.num < 0 then ['-'] else []) ++
      (if md.2 < -4 ∨ md.2 ≥ 6 then Text.showScientific md.1 md.2
       else Text.showFixed md.1 md.2)

/-- The decimal floating conversion of `num_get` and `strtod` at the head of
the text: an optional sign, digits with an optional point, and an optional
exponent. Returns the value, if there is a digit, and the text after the
characters taken. The hexadecimal form and the forms `inf` and `nan`, which
`strtod` also takes, are not modelled; no text written by `showDouble` has
them. -/
def Text.parseDouble (buf : List Char) : Option ℚ × List Char :=
  let signed : Bool × List Char :=
    match buf with
    | '-' :: t => (true, t)
    | '+' :: t => (false, t)
    | _ => (false, buf)
  let ip := signed.2.span Char.isDigit
  let fp : List Char × List Char :=
    match ip.2 with
    | '.' :: t => t.span Char.isDigit
    | _ => ([], ip.2)
  if ip.1 = [] ∧ fp.1 = [] then (none, signed.2)
  else
    let afterE : Option (List Char) :=
      match fp.2 with
      | 'e' :: t => some t
      | 'E' :: t => some t
      | _ => none
    let ex : Int × List Char :=
      match afterE with
      | none => (0, fp.2)
      | some t =>
        let es : Bool × List Char :=
          match t with
          | '-' :: u => (true, u)
          | '+' :: u => (false, u)
          | _ => (false, t)
        let ed := es.2.span Char.isDigit
        if ed.1 = [] then (0, fp.2)
        else if es.1 then (-(Text.digitsValue ed.1 : Int), ed.2)
        else ((Text.digitsValue ed.1 : Int), ed.2)
    let mant : Int :=
      if signed.1 then -(Text.digitsValue (ip.1 ++ fp.1) : Int)
      else (Text.digitsValue (ip.1 ++ fp.1) : Int)
    let scale : Int := ex.1 - (fp.1.length : Int)
    let value : ℚ :=
      if 0 ≤ scale then mkRat (mant * 10 ^ scale.toNat) 1 else mkRat mant (10 ^ (-scale).toNat)
    (some value, ex.2)

/-- `std::stod` on the decimal form (see `parseDouble`); `none` stands for the
`std::invalid_argument` thrown when no digit is found. -/
def Text.stod (str : List Char) : Option ℚ :=
  (Text.parseDouble (str.dropWhile Text.isSpace)).1

/-- `is >> x` for a `double`. -/
def IStream.readDouble (s : IStream) : Option ℚ × IStream :=
  if s.sentry.1 then
    match Text.parseDouble s.sentry.2.buf with
    | (none, rest) => (some 0, { buf := rest, eof := decide (rest = []), fail := true })
    | (some v, rest) => (some v, { buf := rest, eof := decide (rest = []), fail := false })
  else (none, s.sentry.2)

/-! ## File codecs

`saveToFile` is the text it writes; `loadFromFile` reads from an input stream
into an existing object. Both streams are open. -/

/-- How a `loadFromFile` ends. -/
inductive Loaded (α : Type) where
  /-- It returns: the object and the stream after the call. -/
  | done (obj : α) (rest : IStream)
  /-- A `HotelException` leaves it. -/
  | threwHotel (e : HotelException)
  /-- The `std::invalid_argument` of `stoi` or `stod` leaves it. -/
  | threwInvalidArgument
  /-- It reads a local variable that no extraction has set, or casts to an
  enumeration an integer that is none of its enumerators. -/
  | outside
  deriving DecidableEq, Repr

/-- `static_cast<int>(type)`. -/
def RoomType.toInt : RoomType → Int
  | .STANDARD => 1
  | .DELUXE => 2
  | .SUITE => 3
  | .PRESIDENTIAL => 4

/-- `static_cast<RoomType>(n)` for the four enumerators. -/
def RoomType.ofInt (n : Int) : Option RoomType :=
  if n = 1 then some .STANDARD
  else if n = 2 then some .DELUXE
  else if n = 3 then some .SUITE
  else if n = 4 then some .PRESIDENTIAL
  else none

/-- `static_cast<int>(status)`. -/
def RoomStatus.toInt : RoomStatus → Int
  | .AVAILABLE => 1
  | .OCCUPIED => 2
  | .RESERVED => 3
  | .MAINTENANCE => 4

/-- `static_cast<RoomStatus>(n)` for the four enumerators. -/
def RoomStatus.ofInt (n : Int) : Option RoomStatus :=
  if n = 1 then some .AVAILABLE
  else if n = 2 then some .OCCUPIED
  else if n = 3 then some .RESERVED
  else if n = 4 then some .MAINTENANCE
  else none

/-- `static_cast<int>(department)`. -/
def Department.toInt : Department → Int
  | .FRONT_DESK => 1
  | .HOUSEKEEPING => 2
  | .KITCHEN => 3
  | .MANAGEMENT => 4

/-- `static_cast<Department>(n)` for the four enumerators. -/
def Department.ofInt (n : Int) : Option Department :=
  if n = 1 then some .FRONT_DESK
  else if n = 2 then some .HOUSEKEEPING
  else if n = 3 then some .KITCHEN
  else if n = 4 then some .MANAGEMENT
  else none

/-- `static_cast<int>(shift)`. -/
def Shift.toInt : Shift → Int
  | .MORNING => 1
  | .AFTERNOON => 2
  | .NIGHT => 3

/-- `static_cast<Shift>(n)` for the three enumerators. -/
def Shift.ofInt (n : Int) : Option Shift :=
  if n = 1 then some .MORNING
  else if n = 2 then some .AFTERNOON
  else if n = 3 then some .NIGHT
  else none

/-- The default constructor `Room::Room()`. -/
def Room.fresh : Room :=
  { roomNumber := 0, type := RoomType.STANDARD, status := RoomStatus.AVAILABLE,
    pricePerNight := 0, capacity := 1, features := [] }

/-- `Room::saveToFile`. -/
def Room.saveToFile (r : Room) : List Char :=
  Text.showInt r.roomNumber ++ [' '] ++ Text.showInt r.type.toInt ++ [' '] ++
    Text.showInt r.status.toInt ++ [' '] ++ Text.showDouble r.pricePerNight ++ [' '] ++
    Text.showInt r.capacity ++ [' '] ++ Text.showNat r.features.length ++ [' '] ++
    (r.features.map (fun feature => feature.data ++ [' '])).flatten ++ ['\n']

/-- The feature loop of `Room::loadFromFile`: each turn extracts into a new
empty string and pushes it, whether or not the extraction worked. -/
def Room.loadFeatures : Nat → IStream → List String × IStream
  | 0, s => ([], s)
  | k + 1, s =>
    (String.mk (s.readWord.1.getD []) :: (Room.loadFeatures k s.readWord.2).1,
      (Room.loadFeatures k s.readWord.2).2)

/-- `Room::loadFromFile`: the members keep their value when their extraction
does not run; `typeInt`, `statusInt` and `featureCount` are locals without an
initial value. -/
def Room.loadFromFile (r : Room) (s : IStream) : Loaded Room :=
  let number := s.readInt
  let typeInt := number.2.readInt
  let statusInt := typeInt.2.readInt
  let price := statusInt.2.readDouble
  let cap := price.2.readInt
  let featureCount := cap.2.readInt
  match typeInt.1, statusInt.1, featureCount.1 with
  | some t, some st, some count =>
    match RoomType.ofInt t, RoomStatus.ofInt st with
    | some type, some status =>
      let loaded := Room.loadFeatures count.toNat featureCount.2
      .done
        { roomNumber := number.1.getD r.roomNumber, type := type, status := status,
          pricePerNight := price.1.getD r.pricePerNight,
          capacity := cap.1.getD r.capacity, features := loaded.1 }
        loaded.2
    | _, _ => .outside
  | _, _, _ => .outside

/-- The default constructor `Customer::Customer()`, run at time `now`. -/
def Customer.fresh (now : Int) : Customer :=
  { customerId := 0, name := "", email := "", phone := "", address := "", idProof := "",
    registrationDate := now, totalVisits := 0, totalSpent := 0 }

/-- `Customer::saveToFile`. -/
def Customer.saveToFile (c : Customer) : List Char :=
  Text.showInt c.customerId ++ [' '] ++ c.name.data ++ [' '] ++ c.email.data ++ [' '] ++
    c.phone.data ++ [' '] ++ c.address.data ++ [' '] ++ c.idProof.data ++ [' '] ++
    Text.showInt c.registrationDate ++ [' '] ++ Text.showInt c.totalVisits ++ [' '] ++
    Text.showDouble c.totalSpent ++ ['\n']

/-- The text a `getline` stored, or the member as it was. -/
def Text.stored (read : Option (List Char)) (old : String) : String :=
  match read with
  | some w => String.mk w
  | none => old

/-- `Customer::loadFromFile`. -/
def Customer.loadFromFile (c : Customer) (s : IStream) : Customer × IStream :=
  let id := s.readInt
  let name := id.2.ignore.getline '|'
  let email := name.2.getline '|'
  let phone := email.2.getline '|'
  let address := phone.2.getline '|'
  let idProof := address.2.getline '|'
  let registrationDate := idProof.2.readInt
  let totalVisits := registrationDate.2.readInt
  let totalSpent := totalVisits.2.readDouble
  ({ customerId := id.1.getD c.customerId,
     name := Text.stored name.1 c.name,
     email := Text.stored email.1 c.email,
     phone := Text.stored phone.1 c.phone,
     address := Text.stored address.1 c.address,
     idProof := Text.stored idProof.1 c.idProof,
     registrationDate := registrationDate.1.getD c.registrationDate,
     totalVisits := totalVisits.1.getD c.totalVisits,
     totalSpent := totalSpent.1.getD c.totalSpent },
   totalSpent.2)

/-- The validating constructor `BillItem::BillItem(desc, amt, qty)`. -/
def BillItem.ctor (desc : String) (amt : ℚ) (qty : Int) : Except HotelException BillItem :=
  if desc = "" then .error (.ValidationException "Description cannot be empty")
  else if amt ≤ 0 then .error (.ValidationException "Amount must be positive")
  else if qty ≤ 0 then .error (.ValidationException "Quantity must be positive")
  else .ok { description := desc, amount := amt, quantity := qty }

/-- The default constructor `Bill::Bill()`. -/
def Bill.fresh : Bill :=
  { billId := 0, reservationId := 0, items := [], taxRate := 1 / 10, discount := 0,
    paymentMethod := "", paymentDate := 0, isPaid := false }

/-- `Bill::saveToFile`: the header line, then one line for each item. -/
def Bill.saveToFile (b : Bill) : List Char :=
  Text.showInt b.billId ++ [' '] ++ Text.showInt b.reservationId ++ [' '] ++
    Text.showDouble b.taxRate ++ [' '] ++ Text.showDouble b.discount ++ [' '] ++
    Text.showBool b.isPaid ++ [' '] ++ b.paymentMethod.data ++ [' '] ++
    Text.showInt b.paymentDate ++ [' '] ++ Text.showNat b.items.length ++ ['\n'] ++
    (b.items.map (fun item =>
      item.description.data ++ ['|'] ++ Text.showDouble item.amount ++ ['|'] ++
        Text.showInt item.quantity ++ ['\n'])).flatten

/-- The item loop of `Bill::loadFromFile`: each turn reads one line into a new
empty string and, when the line is not empty, splits it at `'|'` into three new
strings, converts two of them and pushes a `BillItem`. -/
def Bill.loadItems : Nat → IStream → List BillItem → Loaded (List BillItem)
  | 0, s, items => .done items s
  | k + 1, s, items =>
    let line := (s.getline '\n').1.getD []
    let after := (s.getline '\n').2
    if line = [] then Bill.loadItems k after items
    else
      let desc := (IStream.ofText line).getline '|'
      let amountStr := desc.2.getline '|'
      let qtyStr := amountStr.2.getline '|'
      match Text.stod (amountStr.1.getD []) with
      | none => .threwInvalidArgument
      | some amount =>
        match Text.stoi (qtyStr.1.getD []) with
        | none => .threwInvalidArgument
        | some quantity =>
          match BillItem.ctor (String.mk (desc.1.getD [])) amount quantity with
          | .error e => .threwHotel e
          | .ok item => Bill.loadItems k after (items ++ [item])

/-- `Bill::loadFromFile`; `itemCount` is a local without an initial value. -/
def Bill.loadFromFile (b : Bill) (s : IStream) : Loaded Bill :=
  let billId := s.readInt
  let reservationId := billId.2.readInt
  let taxRate := reservationId.2.readDouble
  let discount := taxRate.2.readDouble
  let isPaid := discount.2.readBool
  let paymentMethod := isPaid.2.readWord
  let paymentDate := paymentMethod.2.readInt
  let itemCount := paymentDate.2.readInt
  match itemCount.1 with
  | none => .outside
  | some count =>
    match Bill.loadItems count.toNat itemCount.2 [] with
    | .done items rest =>
      .done
        { billId := billId.1.getD b.billId,
          reservationId := reservationId.1.getD b.reservationId,
          items := items,
          taxRate := taxRate.1.getD b.taxRate,
          discount := discount.1.getD b.discount,
          paymentMethod := Text.stored paymentMethod.1 b.paymentMethod,
          paymentDate := paymentDate.1.getD b.paymentDate,
          isPaid := isPaid.1.getD b.isPaid }
        rest
    | .threwHotel e => .threwHotel e
    | .threwInvalidArgument => .threwInvalidArgument
    | .outside => .outside

/-- The validating constructor `Employee::Employee(id, n, pos, dept, sh, sal,
contact, addr, joinDt)`: after the seven checks the e-mail is the lower-cased
name up to its first space followed by `@hotel.com`, and the password is
`default123`. -/
def Employee.ctor (id : Int) (n pos : String) (dept : Department) (sh : Shift) (sal : ℚ)
    (contact addr joinDt : String) : Except HotelException Employee :=
  if id ≤ 0 then .error (.ValidationException "Employee ID must be positive")
  else if n = "" then .error (.ValidationException "Name cannot be empty")
  else if pos = "" then .error (.ValidationException "Position cannot be empty")
  else if sal ≤ 0 then .error (.ValidationException "Salary must be positive")
  else if !Utils.isValidPhone contact then
    .error (.ValidationException "Invalid phone number")
  else if addr = "" then .error (.ValidationException "Address cannot be empty")
  else if joinDt = "" then .error (.ValidationException "Join date cannot be empty")
  else
    .ok { employeeId := id, name := n, position := pos, department := dept, shift := sh,
          salary := sal, contactNumber := contact, address := addr, joinDate := joinDt,
          email :=
            String.mk ((n.data.takeWhile (fun c => c != ' ')).map Char.toLower ++
              "@hotel.com".data),
          password := "default123" }

/-- The default constructor `Employee::Employee()`. -/
def Employee.fresh : Employee :=
  { employeeId := 0, name := "", position := "", department := Department.FRONT_DESK,
    shift := Shift.MORNING, salary := 0, contactNumber := "", address := "", joinDate := "",
    email := "", password := "" }

/-- The line `Employee::saveToFile` writes, without its final line break. -/
def Employee.line (e : Employee) : List Char :=
  Text.showInt e.employeeId ++ ['|'] ++ e.name.data ++ ['|'] ++ e.position.data ++ ['|'] ++
    Text.showInt e.department.toInt ++ ['|'] ++ Text.showInt e.shift.toInt ++ ['|'] ++
    Text.showDouble e.salary ++ ['|'] ++ e.contactNumber.data ++ ['|'] ++
    e.address.data ++ ['|'] ++ e.joinDate.data ++ ['|'] ++ e.email.data ++ ['|'] ++
    e.password.data

/-- `Employee::saveToFile`. -/
def Employee.saveToFile (e : Employee) : List Char :=
  e.line ++ ['\n']

/-- The assignments of `Employee::loadFromFile` from at least eleven tokens, in
source order; the three `stoi` and the `stod` may throw. -/
def Employee.assign (e : Employee) (tokens : List (List Char)) (rest : IStream) :
    Loaded Employee :=
  match Text.stoi (tokens.getD 0 []) with
  | none => .threwInvalidArgument
  | some employeeId =>
    match Text.stoi (tokens.getD 3 []) with
    | none => .threwInvalidArgument
    | some departmentInt =>
      match Text.stoi (tokens.getD 4 []) with
      | none => .threwInvalidArgument
      | some shiftInt =>
        match Text.stod (tokens.getD 5 []) with
        | none => .threwInvalidArgument
        | some salary =>
          match Department.ofInt departmentInt, Shift.ofInt shiftInt with
          | some department, some shift =>
            .done
              { e with
                employeeId := employeeId
                name := String.mk (tokens.getD 1 [])
                position := String.mk (tokens.getD 2 [])
                department := department
                shift := shift
                salary := salary
                contactNumber := String.mk (tokens.getD 6 [])
                address := String.mk (tokens.getD 7 [])
                joinDate := String.mk (tokens.getD 8 [])
                email := String.mk (tokens.getD 9 [])
                password := String.mk (tokens.getD 10 []) }
              rest
          | _, _ => .outside

/-- `Employee::loadFromFile`: one line is read; when that worked and the line
splits at `'|'` into at least eleven tokens the members are assigned, otherwise
the object is left alone. -/
def Employee.loadFromFile (e : Employee) (s : IStream) : Loaded Employee :=
  let line := s.getline '\n'
  if line.2.fail then .done e line.2
  else if (Text.tokens '|' (line.1.getD [])).length ≥ 11 then
    Employee.assign e (Text.tokens '|' (line.1.getD [])) line.2
  else .done e line.2

/-! ## Store operations on rooms, customers, employees and bills

A pointer into one of the vectors of the store is the position of the element
it points to; a `vector<T*>` result is the list of these positions. -/

/-- The loop `for (auto& x : xs) if (p(x)) result.push_back(&x)`: the positions
of the elements that satisfy `p`, in the order of the loop. The last argument
is the position of the head of the list. -/
def positionsWhere {α : Type} (p : α → Bool) : List α → Nat → List Nat
  | [], _ => []
  | x :: xs, i =>
    if p x then i :: positionsWhere p xs (i + 1) else positionsWhere p xs (i + 1)

/-- `Database::findAvailableRooms`. -/
def Database.findAvailableRooms (db : Database) (type : RoomType) (capacity : Int) :
    List Nat :=
  positionsWhere
    (fun room => room.type == type && decide (room.capacity ≥ capacity) && room.isAvailable)
    db.rooms 0

/-- `Database::modifyRoom`: `setPrice` then `setFeatures` on the room that
`findRoom` returned, then `saveRooms()`; an exception of `setPrice` or of the
save is rethrown. -/
def Database.modifyRoom (db : Database) (roomNumber : Int) (newPrice : ℚ)
    (newFeatures : List String) (disk : DataFiles) : Except HotelException Bool × Database :=
  match db.findRoom roomNumber with
  | none => (.ok false, db)
  | some room =>
    match (room.setPrice newPrice).1 with
    | .error e =>
      (.error e, { db with
        rooms := modifyFirst (fun r => r.roomNumber == roomNumber)
          (fun r => (r.setPrice newPrice).2) db.rooms })
    | .ok _ =>
      let db1 := { db with
        rooms := modifyFirst (fun r => r.roomNumber == roomNumber)
          (fun r => ((r.setPrice newPrice).2).setFeatures newFeatures) db.rooms }
      (afterSaves true [db1.saveRooms disk], db1)

/-- `Database::updateCustomerInfo`: `updateInfo` on the customer that
`findCustomer` returned, then `saveCustomers()`; an exception of either is
rethrown. -/
def Database.updateCustomerInfo (db : Database) (customerId : Int)
    (phone email address : String) (disk : DataFiles) :
    Except HotelException Bool × Database :=
  match db.findCustomer customerId with
  | none => (.ok false, db)
  | some customer =>
    let db1 := { db with
      customers := modifyFirst (fun c => c.customerId == customerId)
        (fun c => (c.updateInfo phone email address).2) db.customers }
    match (customer.updateInfo phone email address).1 with
    | .error e => (.error e, db1)
    | .ok _ => (afterSaves true [db1.saveCustomers disk], db1)

/-- `Database::searchCustomers`: the keyword is lower-cased for the comparison
with the lower-cased name and e-mail, and used as given for the phone. -/
def Database.searchCustomers (db : Database) (keyword : String) : List Nat :=
  let searchKey := Utils.toLower keyword
  positionsWhere
    (fun customer =>
      (Utils.find searchKey.data (Utils.toLower customer.name).data 0).isSome ||
      (Utils.find searchKey.data (Utils.toLower customer.email).data 0).isSome ||
      (Utils.find keyword.data customer.phone.data 0).isSome)
    db.customers 0

/-- `Database::addEmployee`: `nextEmployeeId++` is evaluated before the
`Employee` constructor runs; `saveEmployees()` follows the `push_back`. -/
def Database.addEmployee (db : Database) (name position : String) (dept : Department)
    (shift : Shift) (salary : ℚ) (contact address joinDate : String) (disk : DataFiles) :
    Except HotelException Int × Database :=
  let db1 := { db with nextEmployeeId := db.nextEmployeeId + 1 }
  match Employee.ctor db.nextEmployeeId name position dept shift salary contact address
      joinDate with
  | .error e => (.error e, db1)
  | .ok newEmployee =>
    let db2 := { db1 with employees := db1.employees ++ [newEmployee] }
    (afterSaves newEmployee.employeeId [db2.saveEmployees disk], db2)

/-- `Database::createBill`: the reservation is looked up first; `nextBillId++`
is evaluated before the `Bill` constructor runs; `saveBills()` follows the
`push_back`. -/
def Database.createBill (db : Database) (reservationId : Int) (taxRate discount : ℚ)
    (disk : DataFiles) : Except HotelException Int × Database :=
  match db.findReservation reservationId with
  | none => (.error (.ValidationException "Reservation not found"), db)
  | some _ =>
    let db1 := { db with nextBillId := db.nextBillId + 1 }
    match Bill.ctor db.nextBillId reservationId taxRate discount with
    | .error e => (.error e, db1)
    | .ok newBill =>
      let db2 := { db1 with bills := db1.bills ++ [newBill] }
      (afterSaves newBill.billId [db2.saveBills disk], db2)

/-- What the five `load...` calls of `loadAllData` read. For each collection,
`none` stands for a file that could not be opened, which leaves the collection
as it was, and `some records` for a file that was opened: the collection was
cleared and `records` were pushed, in file order. -/
structure LoadedFiles where
  rooms : Option (List Room)
  customers : Option (List Customer)
  reservations : Option (List Reservation)
  employees : Option (List Employee)
  bills : Option (List Bill)
  deriving DecidableEq, Repr

/-- `Database::loadAllData`: the five loads, then the block that updates the
counters, each from `back()` of its collection when the collection is not
empty. The records read are a parameter; the returned flag is not modelled. -/
def Database.loadAllData (db : Database) (files : LoadedFiles) : Database :=
  let db0 := { db with
    rooms := files.rooms.getD db.rooms
    customers := files.customers.getD db.customers
    reservations := files.reservations.getD db.reservations
    employees := files.employees.getD db.employees
    bills := files.bills.getD db.bills }
  let db1 :=
    match db0.rooms.getLast? with
    | some room => { db0 with nextRoomNumber := room.roomNumber + 1 }
    | none => db0
  let db2 :=
    match db1.customers.getLast? with
    | some customer => { db1 with nextCustomerId := customer.customerId + 1 }
    | none => db1
  let db3 :=
    match db2.reservations.getLast? with
    | some reservation => { db2 with nextReservationId := reservation.reservationId + 1 }
    | none => db2
  let db4 :=
    match db3.employees.getLast? with
    | some employee => { db3 with nextEmployeeId := employee.employeeId + 1 }
    | none => db3
  match db4.bills.getLast? with
  | some bill => { db4 with nextBillId := bill.billId + 1 }
  | none => db4

/-! ## Client sequences on a `Customer` and on the store -/

/-- One call of a public mutator of `Customer`, with its arguments. -/
inductive CustomerCall where
  | setName (newName : String)
  | setEmail (newEmail : String)
  | setPhone (newPhone : String)
  | setAddress (newAddress : String)
  | setIdProof (newProof : String)
  | updateInfo (newPhone newEmail newAddress : String)
  | addVisit (amount : ℚ)
  deriving DecidableEq, Repr

/-- The customer after one call; a call that throws leaves the object as the
member function left it. -/
def Customer.call (c : Customer) : CustomerCall → Customer
  | .setName s => (c.setName s).2
  | .setEmail s => (c.setEmail s).2
  | .setPhone s => (c.setPhone s).2
  | .setAddress s => (c.setAddress s).2
  | .setIdProof s => (c.setIdProof s).2
  | .updateInfo p e a => (c.updateInfo p e a).2
  | .addVisit amount => (c.addVisit amount).2

/-- The customer after a sequence of calls, in order. -/
def Customer.calls (c : Customer) (cs : List CustomerCall) : Customer :=
  cs.foldl Customer.call c

/-- Recogniser for a call of `addVisit`. -/
def CustomerCall.isAddVisit : CustomerCall → Bool
  | .addVisit _ => true
  | _ => false

/-- One call of an operation of the store that creates an entity, with its
arguments and with the data files that can be opened while it runs. -/
inductive StoreCall where
  | addRoom (type : RoomType) (price : ℚ) (capacity : Int) (features : List String)
      (disk : DataFiles)
  | addCustomer (name email phone address idProof : String) (now : Int) (disk : DataFiles)
  | addEmployee (name position : String) (dept : Department) (shift : Shift) (salary : ℚ)
      (contact address joinDate : String) (disk : DataFiles)
  | makeReservation (customerId roomNumber checkIn checkOut guests : Int) (requests : String)
      (now : Int) (disk : DataFiles)
  | createBill (reservationId : Int) (taxRate discount : ℚ) (disk : DataFiles)
  deriving DecidableEq, Repr

/-- The store after one call, whether the call returned or threw. -/
def Database.call (db : Database) : StoreCall → Database
  | .addRoom t p c f disk => (db.addRoom t p c f disk).2
  | .addCustomer n e p a i now disk => (db.addCustomer n e p a i now disk).2
  | .addEmployee n pos d sh sal c a j disk => (db.addEmployee n pos d sh sal c a j disk).2
  | .makeReservation c r i o g q now disk => (db.makeReservation c r i o g q now disk).2
  | .createBill r t d disk => (db.createBill r t d disk).2

/-- The store after a sequence of calls, in order. -/
def Database.calls (db : Database) (cs : List StoreCall) : Database :=
  cs.foldl Database.call db

/-- The store after a sequence of `modifyRoom` calls, returning or throwing,
each given by its room number, new price and new features and by the data
files that can be opened while it runs. -/
def Database.modifyRooms (db : Database) (ms : List (Int × ℚ × List String × DataFiles)) :
    Database :=
  ms.foldl (fun d m => (d.modifyRoom m.1 m.2.1 m.2.2.1 m.2.2.2).2) db

/-! ## Client sequences on a `Reservation` -/

/-- One call of a public mutator of `Reservation`, with its arguments. -/
inductive ReservationCall where
  | setDates (newCheckIn newCheckOut : Int)
  | setRoomRate (rate : ℚ)
  | setGuests (guests : Int)
  | setSpecialRequests (requests : String)
  | checkIn
  | checkOut
  | cancel
  | makePayment (amount : ℚ)
  deriving DecidableEq, Repr

/-- The reservation after one call; a call that throws leaves the object as the
member function left it. -/
def Reservation.call (r : Reservation) : ReservationCall → Reservation
  | .setDates a b => (r.setDates a b).2
  | .setRoomRate rate => (r.setRoomRate rate).2
  | .setGuests g => (r.setGuests g).2
  | .setSpecialRequests s => r.setSpecialRequests s
  | .checkIn => r.checkIn.2
  | .checkOut => r.checkOut.2
  | .cancel => r.cancel.2
  | .makePayment amount => (r.makePayment amount).2

/-- The reservation after a sequence of calls, in order. -/
def Reservation.calls (r : Reservation) (cs : List ReservationCall) : Reservation :=
  cs.foldl Reservation.call r

/-- The common shape of `cancelReservation`, `checkIn` and `checkOut`: look the
reservation up, run the member function `step` on it in place and, when it
returns true, set the status of the reservation's room to `roomStatus` and run
the saves. -/
def Database.transition (step : Reservation → Bool × Reservation) (roomStatus : RoomStatus)
    (db : Database) (reservationId : Int) (disk : DataFiles) :
    Except HotelException Bool × Database :=
  match db.findReservation reservationId with
  | none => (.ok false, db)
  | some reservation =>
    let db1 := { db with
      reservations := modifyFirst (fun r => r.reservationId == reservationId)
        (fun r => (step r).2) db.reservations }
    if (step reservation).1 then
      (afterSaves true (db1.savesAfterTransition (step reservation).2.roomNumber disk),
        db1.setRoomStatus (step reservation).2.roomNumber roomStatus)
    else (.ok false, db1)

/-! ## Vocabulary of the statements -/

/-- `l2` is `l1` with its first element satisfying `p`, which is `x`, replaced
by `y`; every other position holds what it held. -/
def ReplacedFirst {α : Type} (p : α → Bool) (x y : α) (l1 l2 : List α) : Prop :=
  ∃ pre post, l1 = pre ++ x :: post ∧ (∀ z ∈ pre, p z = false) ∧ p x = true ∧
    l2 = pre ++ y :: post

/-- What the validating constructor establishes and every public mutator of
`Reservation` keeps: the stay is not empty and the stored total is the one
`calculateTotal` gives. -/
def Reservation.Consistent (r : Reservation) : Prop :=
  r.checkInDate < r.checkOutDate ∧ r.totalAmount = r.calculateTotal

/-- The ids `ids` of a collection, in insertion order, are positive, strictly
increasing, pairwise distinct and below the positive counter `next`. -/
def IdsOrdered (ids : List Int) (next : Int) : Prop :=
  ids.Pairwise (· < ·) ∧ ids.Nodup ∧ (∀ i ∈ ids, 0 < i ∧ i < next) ∧ 0 < next

/-- Every collection of the store has its ids ordered below its counter. -/
def Database.IdsOrdered (db : Database) : Prop :=
  Hotel.IdsOrdered (db.rooms.map Room.roomNumber) db.nextRoomNumber ∧
  Hotel.IdsOrdered (db.customers.map Customer.customerId) db.nextCustomerId ∧
  Hotel.IdsOrdered (db.employees.map Employee.employeeId) db.nextEmployeeId ∧
  Hotel.IdsOrdered (db.reservations.map Reservation.reservationId) db.nextReservationId ∧
  Hotel.IdsOrdered (db.bills.map Bill.billId) db.nextBillId

/-! ## Sample data -/

/-- Every data file can be opened for writing. -/
def writableFiles : DataFiles :=
  { rooms := true, customers := true, reservations := true, employees := true, bills := true }

/-- The rooms file cannot be opened; the other data files can. -/
def noRoomsFile : DataFiles :=
  { writableFiles with rooms := false }

/-- The customers file cannot be opened; the other data files can. -/
def noCustomersFile : DataFiles :=
  { writableFiles with customers := false }

/-- The reservations file cannot be opened; the other data files can. -/
def noReservationsFile : DataFiles :=
  { writableFiles with reservations := false }

def sampleRoom : Room :=
  { roomNumber := 101, type := RoomType.STANDARD, status := RoomStatus.AVAILABLE,
    pricePerNight := 100, capacity := 2, features := [] }

def sampleCustomer : Customer :=
  { customerId := 1001, name := "Test Customer", email := "test@email.com",
    phone := "1234567890", address := "Test Address", idProof := "TEST123",
    registrationDate := 0, totalVisits := 0, totalSpent := 0 }

/-- A store holding one available room (101) and one customer (1001), with the
counters one past them and the other counters at their seeds. -/
def sampleDb : Database :=
  { rooms := [sampleRoom], customers := [sampleCustomer], reservations := [],
    employees := [], bills := [], nextRoomNumber := 102, nextCustomerId := 1002,
    nextReservationId := 10001, nextEmployeeId := 201, nextBillId := 5001 }

/-- A sequence of mutator calls: a rejected and an accepted change of dates, a
payment, a new rate, check-in and a cancellation attempt. -/
def sampleCalls : List ReservationCall :=
  [.setDates 500000 400000, .setDates 86400 500000, .makePayment 50, .setRoomRate 120,
   .setGuests 1, .checkIn, .cancel]

/-- The bill of the specification's scenario: one item of amount 100 and
quantity 3, tax rate 0.10, discount 0, with the given paid state. -/
def sampleBill (paid : Bool) : Bill :=
  { billId := 5001, reservationId := 10001,
    items := [{ description := "Room Charge", amount := 100, quantity := 3 }],
    taxRate := 1 / 10, discount := 0, paymentMethod := "", paymentDate := 0, isPaid := paid }

/-- The sample customer carrying id 0. -/
def sampleCustomerZero : Customer :=
  { sampleCustomer with customerId := 0 }

/-- The sample room carrying number 0. -/
def sampleRoomZero : Room :=
  { sampleRoom with roomNumber := 0 }

/-- The sample store with its next reservation id at 0. -/
def sampleDbCounterZero : Database :=
  { sampleDb with nextReservationId := 0 }

/-- The sample store whose only customer carries id 0. -/
def sampleDbCustomerZero : Database :=
  { sampleDb with customers := [sampleCustomerZero] }

/-- The sample store whose only room carries number 0. -/
def sampleDbRoomZero : Database :=
  { sampleDb with rooms := [sampleRoomZero] }

/-- The sample room with a guest in it. -/
def sampleRoomOccupied : Room :=
  { sampleRoom with status := RoomStatus.OCCUPIED }

/-- The sample store with its room occupied. -/
def sampleDbOccupied : Database :=
  { sampleDb with rooms := [sampleRoomOccupied] }

/-- The sample store with its room occupied and no customer. -/
def sampleDbOccupiedNoCustomer : Database :=
  { sampleDb with rooms := [sampleRoomOccupied], customers := [] }

/-- A reservation of room 101 in the given lifecycle state. -/
def sampleReservation (id : Int) (st : ReservationStatus) : Reservation :=
  { reservationId := id, customerId := 1001, roomNumber := 101, checkInDate := 86400,
    checkOutDate := 345600, numberOfGuests := 2, roomRate := 100, totalAmount := 300,
    paidAmount := 0, status := st, paymentStatus := PaymentStatus.PENDING,
    specialRequests := "", bookingDate := 0 }

/-- The sample room held for a confirmed reservation. -/
def sampleRoomReserved : Room :=
  { sampleRoom with status := RoomStatus.RESERVED }

/-- The sample store after customer 1001 booked room 101 as reservation 10001. -/
def sampleDbBooked : Database :=
  { sampleDb with
    rooms := [sampleRoomReserved]
    reservations := [sampleReservation 10001 ReservationStatus.CONFIRMED]
    nextReservationId := 10002 }

/-- The sample store with the guest of reservation 10001 checked in. -/
def sampleDbCheckedIn : Database :=
  { sampleDb with
    rooms := [sampleRoomOccupied]
    reservations := [sampleReservation 10001 ReservationStatus.CHECKED_IN]
    nextReservationId := 10002 }

/-- The sample store after these calls: room 101 is booked (10001), the booking
is cancelled, the room is booked again (10002) and that guest checks in. -/
def sampleDbRebooked : Database :=
  let booked := (sampleDb.makeReservation 1001 101 86400 345600 2 "" 0 writableFiles).2
  let cancelled := (booked.cancelReservation 10001 writableFiles).2
  let rebooked := (cancelled.makeReservation 1001 101 86400 345600 2 "" 0 writableFiles).2
  (rebooked.checkIn 10002 writableFiles).2

/-- The store of a fresh `Database` with nothing loaded: no entities and the
counters at their seeds. -/
def emptyDb : Database :=
  { rooms := [], customers := [], reservations := [], employees := [], bills := [],
    nextRoomNumber := 101, nextCustomerId := 1001, nextReservationId := 10001,
    nextEmployeeId := 201, nextBillId := 5001 }

/-- A room record numbered -1, as `loadRooms` accepts it from a rooms file. -/
def sampleRoomNegative : Room :=
  { sampleRoom with roomNumber := -1 }

/-- The store after `loadAllData` read that record: the counter is one past the
last room number, that is 0. -/
def sampleDbRoomCounterZero : Database :=
  { emptyDb with rooms := [sampleRoomNegative], nextRoomNumber := 0 }

/-- A reservation record with a negative paid amount, as `loadFromFile` accepts
it from a reservations file. -/
def sampleReservationNegativePaid : Reservation :=
  { sampleReservation 10001 ReservationStatus.CONFIRMED with paidAmount := -10 }

/-- A customer record with id -1, as `loadCustomers` accepts it from a customers
file. -/
def sampleCustomerNegative : Customer :=
  { sampleCustomer with customerId := -1 }

/-- The store after `loadAllData` read that record: the counter is one past the
last customer id, that is 0. -/
def sampleDbCustomerCounterZero : Database :=
  { emptyDb with customers := [sampleCustomerNegative], nextCustomerId := 0 }

/-- The third room of `initializeSampleData`:
`addRoom(DELUXE, 200.0, 2, {"WiFi", "Smart TV", "AC", "Mini-bar", "Jacuzzi"})`. -/
def sampleRoomDeluxe : Room :=
  { roomNumber := 103, type := RoomType.DELUXE, status := RoomStatus.AVAILABLE,
    pricePerNight := 200, capacity := 2,
    features := ["WiFi", "Smart TV", "AC", "Mini-bar", "Jacuzzi"] }

/-- The sample bill after `processPayment("Cash")` at time 1000. -/
def sampleBillPaid : Bill :=
  { sampleBill false with paymentMethod := "Cash", paymentDate := 1000, isPaid := true }

/-- The employee of the integration test, as the validating constructor builds
it. -/
def sampleEmployee : Employee :=
  { employeeId := 201, name := "Test Employee", position := "Receptionist",
    department := Department.FRONT_DESK, shift := Shift.MORNING, salary := 2500,
    contactNumber := "9876543210", address := "Emp Address", joinDate := "2024-01-15",
    email := "test@hotel.com", password := "default123" }

/-- The same employee living at an address written with a `'|'`. -/
def sampleEmployeePipe : Employee :=
  { sampleEmployee with address := "Suite 5|B Street" }

/-- The same employee with an address of two lines. -/
def sampleEmployeeTwoLines : Employee :=
  { sampleEmployee with address := "Suite 5\nB Street" }

/-- The same employee with a salary of 12500.75, a binary64 value of seven
significant digits. -/
def sampleEmployeeSalary : Employee :=
  { sampleEmployee with salary := 1250075 / 100 }

/-- What the five loads read from files in which the rooms file lists room 105
before room 102 and the other files hold no record. -/
def sampleFilesUnordered : LoadedFiles :=
  { rooms := some [{ sampleRoom with roomNumber := 105 }, { sampleRoom with roomNumber := 102 }],
    customers := some [], reservations := some [], employees := some [], bills := some [] }

/-- The fresh store after `loadAllData` read these files. -/
def sampleDbReloaded : Database :=
  emptyDb.loadAllData sampleFilesUnordered

/-- That store after two calls of `addRoom`, which return 103 and 104. -/
def sampleDbReloadedGrown : Database :=
  ((sampleDbReloaded.addRoom RoomType.STANDARD 100 2 [] writableFiles).2.addRoom
    RoomType.STANDARD 100 2 [] writableFiles).2

/-- The reservation that the constructor builds for a stay of `2 ^ 31` days in
room 101 at 100 a night. -/
def sampleReservationLong : Reservation :=
  { reservationId := 10001, customerId := 1001, roomNumber := 101, checkInDate := 0,
    checkOutDate := 185542587187200, numberOfGuests := 2, roomRate := 100,
    totalAmount := -214748364800, paidAmount := 0, status := ReservationStatus.CONFIRMED,
    paymentStatus := PaymentStatus.PENDING, specialRequests := "", bookingDate := 0 }

/-- The reservation that the constructor builds for a stay of one hour in room
101 at 100 a night. -/
def sampleReservationShort : Reservation :=
  { reservationId := 10001, customerId := 1001, roomNumber := 101, checkInDate := 0,
    checkOutDate := 3600, numberOfGuests := 2, roomRate := 100, totalAmount := 0,
    paidAmount := 0, status := ReservationStatus.CONFIRMED,
    paymentStatus := PaymentStatus.PENDING, specialRequests := "", bookingDate := 0 }

/-- The store after these calls on a fresh store: a room is added (101), a
customer is added (1001), the room is booked (10001), the booking is cancelled
and the room is booked again (10002). -/
def sampleDbSecondBooking : Database :=
  let withRoom := (emptyDb.addRoom RoomType.STANDARD 100 2 [] writableFiles).2
  let withCustomer := (withRoom.addCustomer "Test Customer" "test@email.com" "1234567890"
    "Test Address" "TEST123" 0 writableFiles).2
  let booked := (withCustomer.makeReservation 1001 101 86400 345600 2 "" 0 writableFiles).2
  let cancelled := (booked.cancelReservation 10001 writableFiles).2
  (cancelled.makeReservation 1001 101 86400 345600 2 "" 0 writableFiles).2

/-- The store after reservation 10001 is cancelled a second time. -/
def sampleDbCancelledTwice : Database :=
  (sampleDbSecondBooking.cancelReservation 10001 writableFiles).2

/-- The store after room 101 is then booked a third time (10003). -/
def sampleDbDoubleBooked : Database :=
  (sampleDbCancelledTwice.makeReservation 1001 101 86400 345600 2 "" 0 writableFiles).2

/-- The ids of the reservations for room `roomNumber` whose status is
`CONFIRMED` or `CHECKED_IN`, in store order. -/
def Database.activeReservations (db : Database) (roomNumber : Int) : List Int :=
  (db.reservations.filter (fun r => r.roomNumber == roomNumber &&
    (r.status == ReservationStatus.CONFIRMED || r.status == ReservationStatus.CHECKED_IN))).map
    Reservation.reservationId

/-! ## Lemmas on first-match lookup and update -/

theorem find?_split {α : Type} (p : α → Bool) :
    ∀ (l : List α) (x : α), l.find? p = some x →
      ∃ pre post, l = pre ++ x :: post ∧ (∀ z ∈ pre, p z = false) ∧ p x = true := by
  intro l
  induction l with
  | nil => intro x h; simp at h
  | cons a t ih =>
    intro x h
    by_cases hp : p a = true
    · rw [List.find?_cons_of_pos _ hp] at h
      cases h
      exact ⟨[], t, rfl, by simp, hp⟩
    · rw [List.find?_cons_of_neg _ hp] at h
      obtain ⟨pre, post, h1, h2, h3⟩ := ih x h
      refine ⟨a :: pre, post, by simp [h1], ?_, h3⟩
      intro z hz
      rcases List.mem_cons.mp hz with rfl | hz
      · simpa using hp
      · exact h2 z hz

theorem modifyFirst_split {α : Type} (p : α → Bool) (f : α → α) (x : α) (post : List α) :
    ∀ pre : List α, (∀ z ∈ pre, p z = false) → p x = true →
      modifyFirst p f (pre ++ x :: post) = pre ++ f x :: post := by
  intro pre
  induction pre with
  | nil => intro _ hx; simp [modifyFirst, hx]
  | cons a t ih =>
    intro h hx
    have ha : p a = false := h a (by simp)
    have ht : ∀ z ∈ t, p z = false := fun z hz => h z (by simp [hz])
    simp [modifyFirst, ha, ih ht hx]

theorem find?_of_split {α : Type} (p : α → Bool) (y : α) (post : List α) :
    ∀ pre : List α, (∀ z ∈ pre, p z = false) → p y = true →
      (pre ++ y :: post).find? p = some y := by
  intro pre
  induction pre with
  | nil => intro _ hy; simp [hy]
  | cons a t ih =>
    intro h hy
    have ha : p a = false := h a (by simp)
    have ht : ∀ z ∈ t, p z = false := fun z hz => h z (by simp [hz])
    simp [List.find?_cons, ha, ih ht hy]

theorem modifyFirst_replaced {α : Type} (p : α → Bool) (f : α → α) (l : List α) (x : α)
    (h : l.find? p = some x) : ReplacedFirst p x (f x) l (modifyFirst p f l) := by
  obtain ⟨pre, post, h1, h2, h3⟩ := find?_split p l x h
  exact ⟨pre, post, h1, h2, h3, by rw [h1, modifyFirst_split p f x post pre h2 h3]⟩

theorem find?_modifyFirst {α : Type} (p : α → Bool) (f : α → α) (l : List α) (x : α)
    (h : l.find? p = some x) (hf : p (f x) = true) :
    (modifyFirst p f l).find? p = some (f x) := by
  obtain ⟨pre, post, h1, h2, h3⟩ := find?_split p l x h
  rw [h1, modifyFirst_split p f x post pre h2 h3]
  exact find?_of_split p (f x) post pre h2 hf

theorem find?_mem_prop {α : Type} (p : α → Bool) (l : List α) (x : α)
    (h : l.find? p = some x) : p x = true := by
  obtain ⟨_, _, _, _, h3⟩ := find?_split p l x h
  exact h3

/-! ## Reservation state machine -/

/-- C5: `checkIn()` returns true exactly from `CONFIRMED` and then only the
status changes, to `CHECKED_IN`; `checkOut()` returns true exactly from
`CHECKED_IN` and then only the status changes, to `CHECKED_OUT`; a call that
returns false leaves the whole reservation as it was. -/
theorem reservation_checkIn_checkOut_spec (r : Reservation) :
    (r.checkIn.1 = true ↔ r.status = ReservationStatus.CONFIRMED) ∧
    (r.checkIn.1 = true →
      r.checkIn.2 = { r with status := ReservationStatus.CHECKED_IN }) ∧
    (r.checkIn.1 = false → r.checkIn.2 = r) ∧
    (r.checkOut.1 = true ↔ r.status = ReservationStatus.CHECKED_IN) ∧
    (r.checkOut.1 = true →
      r.checkOut.2 = { r with status := ReservationStatus.CHECKED_OUT }) ∧
    (r.checkOut.1 = false → r.checkOut.2 = r) := by
  unfold Reservation.checkIn Reservation.checkOut
  refine ⟨?_, ?_, ?_, ?_, ?_, ?_⟩ <;> split <;> simp_all

/-- C4: at a reservation whose status is `CANCELLED`, `cancel()` returns true
(the claim says false). Through the store, with every data file writable: after
room 101 was booked as 10001, cancelled, booked again as 10002 and checked in
to, `cancelReservation(10001)` returns true once more and sets room 101 to
`AVAILABLE` while the guest of 10002 is checked in. -/
theorem reservation_cancel_from_cancelled :
    (sampleReservation 10001 ReservationStatus.CANCELLED).cancel =
      (true, sampleReservation 10001 ReservationStatus.CANCELLED) ∧
    sampleDbRebooked.rooms.map (fun room => (room.roomNumber, room.status)) =
      [(101, RoomStatus.OCCUPIED)] ∧
    sampleDbRebooked.reservations.map (fun r => (r.reservationId, r.roomNumber, r.status)) =
      [(10001, 101, ReservationStatus.CANCELLED),
       (10002, 101, ReservationStatus.CHECKED_IN)] ∧
    (sampleDbRebooked.cancelReservation 10001 writableFiles).1 = .ok true ∧
    (sampleDbRebooked.cancelReservation 10001 writableFiles).2.rooms.map
        (fun room => (room.roomNumber, room.status)) =
      [(101, RoomStatus.AVAILABLE)] ∧
    (sampleDbRebooked.cancelReservation 10001 writableFiles).2.reservations.map
        (fun r => (r.reservationId, r.roomNumber, r.status)) =
      [(10001, 101, ReservationStatus.CANCELLED),
       (10002, 101, ReservationStatus.CHECKED_IN)] := by
  decide

/-! ## Store transitions: cancel, check-in, check-out -/

theorem setRoomStatus_reservations (db : Database) (n : Int) (s : RoomStatus) :
    (db.setRoomStatus n s).reservations = db.reservations := by
  unfold Database.setRoomStatus
  split <;> rfl

theorem setRoomStatus_none (db : Database) (n : Int) (s : RoomStatus)
    (h : db.findRoom n = none) : db.setRoomStatus n s = db := by
  unfold Database.setRoomStatus
  rw [h]

theorem setRoomStatus_some (db : Database) (n : Int) (s : RoomStatus) (room : Room)
    (h : db.findRoom n = some room) :
    ReplacedFirst (fun x => x.roomNumber == n) room { room with status := s }
        db.rooms (db.setRoomStatus n s).rooms ∧
      (db.setRoomStatus n s).findRoom n = some { room with status := s } := by
  have hk := find?_mem_prop _ _ _ h
  constructor
  · unfold Database.setRoomStatus
    rw [h]
    exact modifyFirst_replaced _ (fun r => r.setStatus s) _ _ h
  · unfold Database.setRoomStatus
    rw [h]
    exact find?_modifyFirst _ (fun r => r.setStatus s) _ _ h hk

theorem cancelReservation_eq_transition (db : Database) (id : Int) (disk : DataFiles) :
    db.cancelReservation id disk =
      Database.transition Reservation.cancel RoomStatus.AVAILABLE db id disk := rfl

theorem checkIn_eq_transition (db : Database) (id : Int) (disk : DataFiles) :
    db.checkIn id disk =
      Database.transition Reservation.checkIn RoomStatus.OCCUPIED db id disk := rfl

theorem checkOut_eq_transition (db : Database) (id : Int) (disk : DataFiles) :
    db.checkOut id disk =
      Database.transition Reservation.checkOut RoomStatus.AVAILABLE db id disk := rfl

theorem transition_none (step : Reservation → Bool × Reservation) (s : RoomStatus)
    (db : Database) (id : Int) (disk : DataFiles) (h : db.findReservation id = none) :
    Database.transition step s db id disk = (.ok false, db) := by
  unfold Database.transition
  rw [h]

theorem modifyFirst_fixed {α : Type} (p : α → Bool) (f : α → α) (l : List α) (x : α)
    (h : l.find? p = some x) (hx : f x = x) : modifyFirst p f l = l := by
  obtain ⟨pre, post, h1, h2, h3⟩ := find?_split p l x h
  rw [h1, modifyFirst_split p f x post pre h2 h3, hx]

/-- A step that refuses and leaves the reservation alone leaves the store alone. -/
theorem transition_refused (step : Reservation → Bool × Reservation) (s : RoomStatus)
    (db : Database) (id : Int) (disk : DataFiles) (r : Reservation)
    (h : db.findReservation id = some r)
    (hno : (step r).1 = false) (hsame : (step r).2 = r) :
    Database.transition step s db id disk = (.ok false, db) := by
  unfold Database.transition
  rw [h]
  have hl : modifyFirst (fun x => x.reservationId == id) (fun x => (step x).2)
      db.reservations = db.reservations :=
    modifyFirst_fixed _ _ _ r h hsame
  simp [hno, hl]

/-- The outcome of the saves that follow an accepted transition: the rooms file
is needed when the store has the room, the reservations file always, in this
order. -/
theorem savesAfterTransition_outcome (db : Database) (n : Int) (disk : DataFiles) :
    ((db.findRoom n = none ∨ disk.rooms = true) → disk.reservations = true →
      afterSaves true (db.savesAfterTransition n disk) = .ok true) ∧
    (db.findRoom n ≠ none → disk.rooms = false →
      afterSaves true (db.savesAfterTransition n disk) =
        .error (.FileException (fileExceptionMessage "Cannot open rooms file"))) ∧
    ((db.findRoom n = none ∨ disk.rooms = true) → disk.reservations = false →
      afterSaves true (db.savesAfterTransition n disk) =
        .error (.FileException (fileExceptionMessage "Cannot open reservations file"))) := by
  unfold Database.savesAfterTransition Database.saveRooms Database.saveReservations
  cases hf : db.findRoom n <;> cases hr : disk.rooms <;> cases hv : disk.reservations <;>
    simp [afterSaves]

/-- A step that accepts rewrites the reservation in place and sets the status of
its room, when the store has that room; the outcome is that of the saves. -/
theorem transition_done (step : Reservation → Bool × Reservation) (s : RoomStatus)
    (db : Database) (id : Int) (disk : DataFiles) (r : Reservation)
    (h : db.findReservation id = some r)
    (hyes : (step r).1 = true) (hid : (step r).2.reservationId = r.reservationId) :
    (Database.transition step s db id disk).1 =
      afterSaves true (db.savesAfterTransition (step r).2.roomNumber disk) ∧
    ReplacedFirst (fun x => x.reservationId == id) r (step r).2
      db.reservations (Database.transition step s db id disk).2.reservations ∧
    (Database.transition step s db id disk).2.findReservation id = some (step r).2 ∧
    (∀ room, db.findRoom (step r).2.roomNumber = some room →
      ReplacedFirst (fun x => x.roomNumber == (step r).2.roomNumber) room
        { room with status := s } db.rooms (Database.transition step s db id disk).2.rooms ∧
      (Database.transition step s db id disk).2.findRoom (step r).2.roomNumber =
        some { room with status := s }) ∧
    (db.findRoom (step r).2.roomNumber = none →
      (Database.transition step s db id disk).2.rooms = db.rooms) := by
  have hk : (r.reservationId == id) = true :=
    find?_mem_prop (fun x : Reservation => x.reservationId == id) _ _ h
  have hout : Database.transition step s db id disk =
      (afterSaves true (db.savesAfterTransition (step r).2.roomNumber disk),
        Database.setRoomStatus
        { db with
          reservations := modifyFirst (fun x => x.reservationId == id)
            (fun x => (step x).2) db.reservations }
        (step r).2.roomNumber s) := by
    unfold Database.transition
    rw [h]
    simp only [hyes, if_true]
    rfl
  rw [hout]
  refine ⟨rfl, ?_, ?_, ?_, ?_⟩
  · simp only [setRoomStatus_reservations]
    exact modifyFirst_replaced _ (fun x => (step x).2) _ _ h
  · unfold Database.findReservation
    simp only [setRoomStatus_reservations]
    exact find?_modifyFirst _ (fun x => (step x).2) _ _ h (by simpa [hid] using hk)
  · intro room hroom
    exact setRoomStatus_some
      { db with
        reservations := modifyFirst (fun x => x.reservationId == id)
          (fun x => (step x).2) db.reservations } _ s room hroom
  · intro hnone
    have hsame := setRoomStatus_none
      { db with
        reservations := modifyFirst (fun x => x.reservationId == id)
          (fun x => (step x).2) db.reservations } _ s hnone
    simp only [hsame]

theorem transition_fst (step : Reservation → Bool × Reservation) (s : RoomStatus)
    (db : Database) (id : Int) (disk : DataFiles) (r : Reservation)
    (h : db.findReservation id = some r) :
    (Database.transition step s db id disk).1 =
      if (step r).1 = true then
        afterSaves true (db.savesAfterTransition (step r).2.roomNumber disk)
      else .ok false := by
  unfold Database.transition
  rw [h]
  by_cases hstep : (step r).1 = true
  · simp only [hstep, if_true]
    rfl
  · simp only [hstep, if_false, Bool.false_eq_true]

/-- The outcomes of a transition: it returns or throws a `FileException`; it
returns true exactly when the step accepts and the saves succeed, and it throws
only after the step accepted. -/
theorem transition_outcome (step : Reservation → Bool × Reservation) (s : RoomStatus)
    (db : Database) (id : Int) (disk : DataFiles) :
    ((Database.transition step s db id disk).1 = .ok true ↔
      ∃ r, db.findReservation id = some r ∧ (step r).1 = true ∧
        (db.findRoom (step r).2.roomNumber = none ∨ disk.rooms = true) ∧
        disk.reservations = true) ∧
    (∀ e, (Database.transition step s db id disk).1 = .error e →
      e.isFile = true ∧ ∃ r, db.findReservation id = some r ∧ (step r).1 = true) := by
  cases hf : db.findReservation id with
  | none => rw [transition_none step s db id disk hf]; simp
  | some r =>
    rw [transition_fst step s db id disk r hf]
    have hsaves := savesAfterTransition_outcome db (step r).2.roomNumber disk
    by_cases hstep : (step r).1 = true
    case neg => simp [hstep]
    case pos =>
      simp only [if_true, Option.some.injEq, exists_eq_left', hstep, true_and]
      cases hroom : db.findRoom (step r).2.roomNumber with
      | none =>
        cases hv : disk.reservations with
        | true =>
          rw [hsaves.1 (Or.inl hroom) hv]
          simp
        | false =>
          rw [hsaves.2.2 (Or.inl hroom) hv]
          simp [HotelException.isFile]
      | some room =>
        cases hr : disk.rooms with
        | false =>
          rw [hsaves.2.1 (by simp [hroom]) hr]
          simp [HotelException.isFile]
        | true =>
          cases hv : disk.reservations with
          | true =>
            rw [hsaves.1 (Or.inr hr) hv]
            simp
          | false =>
            rw [hsaves.2.2 (Or.inr hr) hv]
            simp [HotelException.isFile]

/-- A transition that returns false has changed nothing, and it returns false
exactly when no reservation is found or the step refuses, provided a refusing
step leaves the reservation as it was. -/
theorem transition_false (step : Reservation → Bool × Reservation) (s : RoomStatus)
    (db : Database) (id : Int) (disk : DataFiles)
    (hrej : ∀ r, (step r).1 = false → (step r).2 = r) :
    ((Database.transition step s db id disk).1 = .ok false →
      (Database.transition step s db id disk).2 = db) ∧
    ((Database.transition step s db id disk).1 = .ok false ↔
      ¬ ∃ r, db.findReservation id = some r ∧ (step r).1 = true) := by
  cases hf : db.findReservation id with
  | none => rw [transition_none step s db id disk hf]; simp
  | some r =>
    by_cases hstep : (step r).1 = true
    · have hfst := transition_fst step s db id disk r hf
      rw [if_pos hstep] at hfst
      have hne : afterSaves true (db.savesAfterTransition (step r).2.roomNumber disk)
          ≠ .ok false := by
        unfold Database.savesAfterTransition Database.saveRooms Database.saveReservations
        cases db.findRoom (step r).2.roomNumber <;> cases disk.rooms <;>
          cases disk.reservations <;> simp [afterSaves]
      rw [hfst]
      constructor
      · intro h; exact absurd h hne
      · constructor
        · intro h; exact absurd h hne
        · intro h; exact absurd ⟨r, rfl, hstep⟩ h
    · have hno : (step r).1 = false := by simpa using hstep
      rw [transition_refused step s db id disk r hf hno (hrej r hno)]
      simp [hstep]

/-- C6 (as stated, refuted): on the booked sample store reservation 10001 is
`CONFIRMED`; when the rooms file cannot be opened `cancelReservation(10001)`
does not return true but throws the `FileException` of `saveRooms()`, after the
reservation was set to `CANCELLED` and room 101 to `AVAILABLE`. -/
theorem cancelReservation_throws_when_save_fails :
    sampleDbBooked.findReservation 10001 =
      some (sampleReservation 10001 ReservationStatus.CONFIRMED) ∧
    (sampleDbBooked.cancelReservation 10001 noRoomsFile).1 =
      .error (.FileException "File Error: Cannot open rooms file") ∧
    (sampleDbBooked.cancelReservation 10001 noRoomsFile).2.findReservation 10001 =
      some (sampleReservation 10001 ReservationStatus.CANCELLED) ∧
    (sampleDbBooked.cancelReservation 10001 noRoomsFile).2.findRoom 101 = some sampleRoom := by
  decide

/-- C6 (amended): `cancelReservation(id)` returns false and leaves the store as
it was when no reservation has the id or when the reservation is `CHECKED_IN`
or `CHECKED_OUT`. When the reservation is `CONFIRMED`, that reservation (and no
other) becomes `CANCELLED` and the room with its room number (and no other)
gets status `AVAILABLE`; the call then returns true when the rooms file (needed
when the store has that room) and the reservations file can be opened, and
otherwise throws the `FileException` of the first save that fails, with these
changes made. -/
theorem database_cancelReservation_spec (db : Database) (id : Int) (disk : DataFiles) :
    (db.findReservation id = none → db.cancelReservation id disk = (.ok false, db)) ∧
    (∀ r, db.findReservation id = some r →
      r.status = ReservationStatus.CHECKED_IN ∨ r.status = ReservationStatus.CHECKED_OUT →
      db.cancelReservation id disk = (.ok false, db)) ∧
    (∀ r, db.findReservation id = some r → r.status = ReservationStatus.CONFIRMED →
      ((db.findRoom r.roomNumber = none ∨ disk.rooms = true) → disk.reservations = true →
        (db.cancelReservation id disk).1 = .ok true) ∧
      (db.findRoom r.roomNumber ≠ none → disk.rooms = false →
        (db.cancelReservation id disk).1 =
          .error (.FileException (fileExceptionMessage "Cannot open rooms file"))) ∧
      ((db.findRoom r.roomNumber = none ∨ disk.rooms = true) → disk.reservations = false →
        (db.cancelReservation id disk).1 =
          .error (.FileException (fileExceptionMessage "Cannot open reservations file"))) ∧
      ReplacedFirst (fun x => x.reservationId == id) r
        { r with status := ReservationStatus.CANCELLED }
        db.reservations (db.cancelReservation id disk).2.reservations ∧
      (db.cancelReservation id disk).2.findReservation id =
        some { r with status := ReservationStatus.CANCELLED } ∧
      (∀ room, db.findRoom r.roomNumber = some room →
        ReplacedFirst (fun x => x.roomNumber == r.roomNumber) room
          { room with status := RoomStatus.AVAILABLE }
          db.rooms (db.cancelReservation id disk).2.rooms ∧
        (db.cancelReservation id disk).2.findRoom r.roomNumber =
          some { room with status := RoomStatus.AVAILABLE }) ∧
      (db.findRoom r.roomNumber = none →
        (db.cancelReservation id disk).2.rooms = db.rooms)) := by
  rw [cancelReservation_eq_transition]
  refine ⟨transition_none _ _ db id disk, ?_, ?_⟩
  · intro r h hst
    refine transition_refused _ _ db id disk r h ?_ ?_ <;>
      rcases hst with hst | hst <;> simp [Reservation.cancel, hst]
  · intro r h hst
    have hstep : r.cancel = (true, { r with status := ReservationStatus.CANCELLED }) := by
      simp [Reservation.cancel, hst]
    have hdone := transition_done Reservation.cancel RoomStatus.AVAILABLE db id disk r h
      (by rw [hstep]) (by rw [hstep])
    have hsaves := savesAfterTransition_outcome db r.roomNumber disk
    rw [hstep] at hdone
    simp only at hdone
    refine ⟨?_, ?_, ?_, hdone.2⟩
    · intro h1 h2; rw [hdone.1]; exact hsaves.1 h1 h2
    · intro h1 h2; rw [hdone.1]; exact hsaves.2.1 h1 h2
    · intro h1 h2; rw [hdone.1]; exact hsaves.2.2 h1 h2

/-- C6 (amended) on the booked sample store with every data file writable:
cancelling reservation 10001 returns true, the reservation is `CANCELLED` and
room 101 is `AVAILABLE` again; an unknown id and a checked-in reservation are
refused without any change. -/
theorem database_cancelReservation_spec_witness :
    ((sampleDbBooked.cancelReservation 10001 writableFiles).1 = .ok true ∧
      (sampleDbBooked.cancelReservation 10001 writableFiles).2.findReservation 10001 =
        some (sampleReservation 10001 ReservationStatus.CANCELLED) ∧
      (sampleDbBooked.cancelReservation 10001 writableFiles).2.findRoom 101 =
        some sampleRoom) ∧
    sampleDbBooked.cancelReservation 99999 writableFiles = (.ok false, sampleDbBooked) ∧
    sampleDbCheckedIn.cancelReservation 10001 writableFiles = (.ok false, sampleDbCheckedIn) := by
  have h := (database_cancelReservation_spec sampleDbBooked 10001 writableFiles).2.2
    (sampleReservation 10001 ReservationStatus.CONFIRMED) (by decide) rfl
  exact ⟨⟨h.1 (Or.inr rfl) rfl, h.2.2.2.2.1,
      (h.2.2.2.2.2.1 sampleRoomReserved (by decide)).2⟩,
    (database_cancelReservation_spec sampleDbBooked 99999 writableFiles).1 (by decide),
    (database_cancelReservation_spec sampleDbCheckedIn 10001 writableFiles).2.1
      (sampleReservation 10001 ReservationStatus.CHECKED_IN) (by decide) (Or.inl rfl)⟩

/-- C7 (as stated, refuted): on the booked sample store reservation 10001 is
`CONFIRMED`; when the reservations file cannot be opened `checkIn(10001)` does
not return true but throws the `FileException` of `saveReservations()`, after
the reservation was set to `CHECKED_IN` and room 101 to `OCCUPIED`. -/
theorem checkIn_throws_when_save_fails :
    sampleDbBooked.findReservation 10001 =
      some (sampleReservation 10001 ReservationStatus.CONFIRMED) ∧
    (sampleDbBooked.checkIn 10001 noReservationsFile).1 =
      .error (.FileException "File Error: Cannot open reservations file") ∧
    (sampleDbBooked.checkIn 10001 noReservationsFile).2.findReservation 10001 =
      some (sampleReservation 10001 ReservationStatus.CHECKED_IN) ∧
    (sampleDbBooked.checkIn 10001 noReservationsFile).2.findRoom 101 =
      some sampleRoomOccupied := by
  decide

/-- C7 (amended): `Database::checkIn(id)` returns true exactly when the
reservation found for the id is `CONFIRMED` and the rooms file (needed when the
store has the reservation's room) and the reservations file can be opened; it
throws, and then a `FileException`, only when the reservation found is
`CONFIRMED`; it returns false exactly when no reservation found is `CONFIRMED`,
and then the whole store is as it was. Whenever the reservation found is
`CONFIRMED`, that reservation (and no other) is `CHECKED_IN` after the call and
the room with its room number (and no other) is `OCCUPIED`, also when the call
throws. `Database::checkOut(id)` is the same with `CHECKED_IN` for `CONFIRMED`,
`CHECKED_OUT` for `CHECKED_IN` and `AVAILABLE` for `OCCUPIED`. -/
theorem database_checkIn_checkOut_spec (db : Database) (id : Int) (disk : DataFiles) :
    ((db.checkIn id disk).1 = .ok true ↔
      ∃ r, db.findReservation id = some r ∧ r.status = ReservationStatus.CONFIRMED ∧
        (db.findRoom r.roomNumber = none ∨ disk.rooms = true) ∧ disk.reservations = true) ∧
    (∀ e, (db.checkIn id disk).1 = .error e →
      e.isFile = true ∧
      ∃ r, db.findReservation id = some r ∧ r.status = ReservationStatus.CONFIRMED) ∧
    ((db.checkIn id disk).1 = .ok false ↔
      ¬ ∃ r, db.findReservation id = some r ∧ r.status = ReservationStatus.CONFIRMED) ∧
    (∀ r, db.findReservation id = some r → r.status = ReservationStatus.CONFIRMED →
      ReplacedFirst (fun x => x.reservationId == id) r
        { r with status := ReservationStatus.CHECKED_IN }
        db.reservations (db.checkIn id disk).2.reservations ∧
      (db.checkIn id disk).2.findReservation id =
        some { r with status := ReservationStatus.CHECKED_IN } ∧
      (∀ room, db.findRoom r.roomNumber = some room →
        ReplacedFirst (fun x => x.roomNumber == r.roomNumber) room
          { room with status := RoomStatus.OCCUPIED } db.rooms (db.checkIn id disk).2.rooms ∧
        (db.checkIn id disk).2.findRoom r.roomNumber =
          some { room with status := RoomStatus.OCCUPIED }) ∧
      (db.findRoom r.roomNumber = none → (db.checkIn id disk).2.rooms = db.rooms)) ∧
    ((db.checkIn id disk).1 = .ok false → (db.checkIn id disk).2 = db) ∧
    ((db.checkOut id disk).1 = .ok true ↔
      ∃ r, db.findReservation id = some r ∧ r.status = ReservationStatus.CHECKED_IN ∧
        (db.findRoom r.roomNumber = none ∨ disk.rooms = true) ∧ disk.reservations = true) ∧
    (∀ e, (db.checkOut id disk).1 = .error e →
      e.isFile = true ∧
      ∃ r, db.findReservation id = some r ∧ r.status = ReservationStatus.CHECKED_IN) ∧
    ((db.checkOut id disk).1 = .ok false ↔
      ¬ ∃ r, db.findReservation id = some r ∧ r.status = ReservationStatus.CHECKED_IN) ∧
    (∀ r, db.findReservation id = some r → r.status = ReservationStatus.CHECKED_IN →
      ReplacedFirst (fun x => x.reservationId == id) r
        { r with status := ReservationStatus.CHECKED_OUT }
        db.reservations (db.checkOut id disk).2.reservations ∧
      (db.checkOut id disk).2.findReservation id =
        some { r with status := ReservationStatus.CHECKED_OUT } ∧
      (∀ room, db.findRoom r.roomNumber = some room →
        ReplacedFirst (fun x => x.roomNumber == r.roomNumber) room
          { room with status := RoomStatus.AVAILABLE } db.rooms (db.checkOut id disk).2.rooms ∧
        (db.checkOut id disk).2.findRoom r.roomNumber =
          some { room with status := RoomStatus.AVAILABLE }) ∧
      (db.findRoom r.roomNumber = none → (db.checkOut id disk).2.rooms = db.rooms)) ∧
    ((db.checkOut id disk).1 = .ok false → (db.checkOut id disk).2 = db) := by
  rw [checkIn_eq_transition, checkOut_eq_transition]
  have hin : ∀ r : Reservation, r.status = ReservationStatus.CONFIRMED →
      r.checkIn = (true, { r with status := ReservationStatus.CHECKED_IN }) := by
    intro r hst; simp [Reservation.checkIn, hst]
  have hin_no : ∀ r : Reservation, r.status ≠ ReservationStatus.CONFIRMED →
      r.checkIn = (false, r) := by
    intro r hst; simp [Reservation.checkIn, hst]
  have hout : ∀ r : Reservation, r.status = ReservationStatus.CHECKED_IN →
      r.checkOut = (true, { r with status := ReservationStatus.CHECKED_OUT }) := by
    intro r hst; simp [Reservation.checkOut, hst]
  have hout_no : ∀ r : Reservation, r.status ≠ ReservationStatus.CHECKED_IN →
      r.checkOut = (false, r) := by
    intro r hst; simp [Reservation.checkOut, hst]
  have hin_iff : ∀ r : Reservation,
      r.checkIn.1 = true ↔ r.status = ReservationStatus.CONFIRMED := by
    intro r
    by_cases hst : r.status = ReservationStatus.CONFIRMED
    · simp [hin r hst, hst]
    · simp [hin_no r hst, hst]
  have hout_iff : ∀ r : Reservation,
      r.checkOut.1 = true ↔ r.status = ReservationStatus.CHECKED_IN := by
    intro r
    by_cases hst : r.status = ReservationStatus.CHECKED_IN
    · simp [hout r hst, hst]
    · simp [hout_no r hst, hst]
  have hin_room : ∀ r : Reservation, r.checkIn.2.roomNumber = r.roomNumber := by
    intro r
    by_cases hst : r.status = ReservationStatus.CONFIRMED
    · rw [hin r hst]
    · rw [hin_no r hst]
  have hout_room : ∀ r : Reservation, r.checkOut.2.roomNumber = r.roomNumber := by
    intro r
    by_cases hst : r.status = ReservationStatus.CHECKED_IN
    · rw [hout r hst]
    · rw [hout_no r hst]
  have oin := transition_outcome Reservation.checkIn RoomStatus.OCCUPIED db id disk
  have oout := transition_outcome Reservation.checkOut RoomStatus.AVAILABLE db id disk
  have fin := transition_false Reservation.checkIn RoomStatus.OCCUPIED db id disk
    (fun r h => by
      have : r.status ≠ ReservationStatus.CONFIRMED := fun hst => by
        rw [hin r hst] at h; simp at h
      rw [hin_no r this])
  have fout := transition_false Reservation.checkOut RoomStatus.AVAILABLE db id disk
    (fun r h => by
      have : r.status ≠ ReservationStatus.CHECKED_IN := fun hst => by
        rw [hout r hst] at h; simp at h
      rw [hout_no r this])
  simp only [hin_iff, hin_room] at oin fin
  simp only [hout_iff, hout_room] at oout fout
  refine ⟨oin.1, oin.2, fin.2, ?_, fin.1, oout.1, oout.2, fout.2, ?_, fout.1⟩
  · intro r hf hst
    have := (transition_done Reservation.checkIn RoomStatus.OCCUPIED db id disk r hf
      (by rw [hin r hst]) (by rw [hin r hst])).2
    simpa [hin r hst] using this
  · intro r hf hst
    have := (transition_done Reservation.checkOut RoomStatus.AVAILABLE db id disk r hf
      (by rw [hout r hst]) (by rw [hout r hst])).2
    simpa [hout r hst] using this

/-- C7 (amended) on the sample stores with every data file writable, following
the business-logic test: check-in of the booked reservation 10001 returns true
and room 101 is `OCCUPIED`; check-out of the checked-in reservation returns true
and room 101 is `AVAILABLE`; check-out before check-in returns false without
any change. -/
theorem database_checkIn_checkOut_spec_witness :
    ((sampleDbBooked.checkIn 10001 writableFiles).1 = .ok true ∧
      (sampleDbBooked.checkIn 10001 writableFiles).2.findReservation 10001 =
        some (sampleReservation 10001 ReservationStatus.CHECKED_IN) ∧
      (sampleDbBooked.checkIn 10001 writableFiles).2.findRoom 101 = some sampleRoomOccupied) ∧
    ((sampleDbCheckedIn.checkOut 10001 writableFiles).1 = .ok true ∧
      (sampleDbCheckedIn.checkOut 10001 writableFiles).2.findReservation 10001 =
        some (sampleReservation 10001 ReservationStatus.CHECKED_OUT) ∧
      (sampleDbCheckedIn.checkOut 10001 writableFiles).2.findRoom 101 = some sampleRoom) ∧
    ((sampleDbBooked.checkOut 10001 writableFiles).1 = .ok false ∧
      (sampleDbBooked.checkOut 10001 writableFiles).2 = sampleDbBooked) := by
  have hin := (database_checkIn_checkOut_spec sampleDbBooked 10001 writableFiles).2.2.2.1
    (sampleReservation 10001 ReservationStatus.CONFIRMED) (by decide) rfl
  have hout :=
    (database_checkIn_checkOut_spec sampleDbCheckedIn 10001 writableFiles).2.2.2.2.2.2.2.2.1
      (sampleReservation 10001 ReservationStatus.CHECKED_IN) (by decide) rfl
  have hno : (sampleDbBooked.checkOut 10001 writableFiles).1 = .ok false :=
    (database_checkIn_checkOut_spec sampleDbBooked 10001 writableFiles).2.2.2.2.2.2.2.1.mpr
      (by decide)
  exact ⟨⟨(database_checkIn_checkOut_spec sampleDbBooked 10001 writableFiles).1.mpr
        ⟨sampleReservation 10001 ReservationStatus.CONFIRMED, by decide, rfl, Or.inr rfl, rfl⟩,
      hin.2.1, (hin.2.2.1 sampleRoomReserved (by decide)).2⟩,
    ⟨(database_checkIn_checkOut_spec sampleDbCheckedIn 10001 writableFiles).2.2.2.2.2.1.mpr
        ⟨sampleReservation 10001 ReservationStatus.CHECKED_IN, by decide, rfl, Or.inr rfl, rfl⟩,
      hout.2.1, (hout.2.2.1 sampleRoomOccupied (by decide)).2⟩,
    hno, (database_checkIn_checkOut_spec sampleDbBooked 10001 writableFiles).2.2.2.2.2.2.2.2.2
      hno⟩

/-! ## Booking: `makeReservation` -/

/-- The reservation that a successful `makeReservation` appends. -/
theorem ctor_ok (resId custId roomNo checkIn checkOut guests : Int) (rate : ℚ) (now : Int)
    (h1 : 0 < resId) (h2 : 0 < custId) (h3 : 0 < roomNo) (h4 : checkIn < checkOut)
    (h5 : 0 < guests) (h6 : 0 < rate) :
    Reservation.ctor resId custId roomNo checkIn checkOut guests rate now =
      .ok { reservationId := resId, customerId := custId, roomNumber := roomNo,
            checkInDate := checkIn, checkOutDate := checkOut, numberOfGuests := guests,
            roomRate := rate,
            totalAmount := rate * (Utils.daysBetween checkIn checkOut : ℚ),
            paidAmount := 0, status := ReservationStatus.CONFIRMED,
            paymentStatus := PaymentStatus.PENDING, specialRequests := "",
            bookingDate := now } := by
  unfold Reservation.ctor
  simp [not_le.mpr h1, not_le.mpr h2, not_le.mpr h3, not_le.mpr h4, not_le.mpr h5,
    not_le.mpr h6, Reservation.calculateTotal, Reservation.calculateNights]

/-- Every rejection by the constructor is a `ValidationException`. -/
theorem ctor_error_isValidation (resId custId roomNo checkIn checkOut guests : Int) (rate : ℚ)
    (now : Int) (e : HotelException)
    (h : Reservation.ctor resId custId roomNo checkIn checkOut guests rate now = .error e) :
    e.isValidation = true := by
  unfold Reservation.ctor at h
  simp only at h
  split_ifs at h <;> (cases h; rfl)

/-- The constructor rejects `checkIn ≥ checkOut` whatever the other arguments. -/
theorem ctor_rejects_dates (resId custId roomNo checkIn checkOut guests : Int) (rate : ℚ)
    (now : Int) (h : checkOut ≤ checkIn) :
    ∃ e, Reservation.ctor resId custId roomNo checkIn checkOut guests rate now = .error e := by
  unfold Reservation.ctor
  simp only
  split_ifs <;> exact ⟨_, rfl⟩

/-- A `save...` call that throws throws a `FileException`. -/
theorem save_error_isFile (db : Database) (disk : DataFiles) (e : HotelException)
    (h : db.saveRooms disk = .error e ∨ db.saveCustomers disk = .error e ∨
      db.saveReservations disk = .error e ∨ db.saveEmployees disk = .error e ∨
      db.saveBills disk = .error e) : e.isFile = true := by
  unfold Database.saveRooms Database.saveCustomers Database.saveReservations
    Database.saveEmployees Database.saveBills at h
  rcases h with h | h | h | h | h <;> split_ifs at h <;> cases h <;> rfl

/-- An operation that throws after its in-memory part throws what one of its
saves threw. -/
theorem afterSaves_error {α : Type} (value : α) (e : HotelException) :
    ∀ saves : List (Except HotelException Bool),
      afterSaves value saves = .error e → Except.error e ∈ saves := by
  intro saves
  induction saves with
  | nil => intro h; simp [afterSaves] at h
  | cons a t ih =>
    intro h
    cases a with
    | error e' =>
      simp only [afterSaves, Except.error.injEq] at h
      simp [h]
    | ok b =>
      simp only [afterSaves] at h
      exact List.mem_cons_of_mem _ (ih h)

/-- What `makeReservation` does when every check passes: the outcome is that of
the two saves, and the store holds the new reservation and the reserved room. -/
theorem makeReservation_accepted (db : Database)
    (customerId roomNumber checkIn checkOut guests : Int) (requests : String) (now : Int)
    (disk : DataFiles) (customer : Customer) (room : Room)
    (hcust : db.findCustomer customerId = some customer)
    (hroom : db.findRoom roomNumber = some room)
    (havail : room.status = RoomStatus.AVAILABLE) (hprice : 0 < room.pricePerNight)
    (hguests : 0 < guests) (hcap : guests ≤ room.capacity) (hdates : checkIn < checkOut)
    (hcid : 0 < customerId) (hrn : 0 < roomNumber) (hnext : 0 < db.nextReservationId) :
    db.makeReservation customerId roomNumber checkIn checkOut guests requests now disk =
      (afterSaves db.nextReservationId [db.saveReservations disk, db.saveRooms disk],
        { db with
          nextReservationId := db.nextReservationId + 1
          rooms := modifyFirst (fun r => r.roomNumber == roomNumber)
            (fun r => r.setStatus RoomStatus.RESERVED) db.rooms
          reservations := db.reservations ++ [{
            reservationId := db.nextReservationId, customerId := customerId,
            roomNumber := roomNumber, checkInDate := checkIn, checkOutDate := checkOut,
            numberOfGuests := guests, roomRate := room.pricePerNight,
            totalAmount := room.pricePerNight * (Utils.daysBetween checkIn checkOut : ℚ),
            paidAmount := 0, status := ReservationStatus.CONFIRMED,
            paymentStatus := PaymentStatus.PENDING, specialRequests := requests,
            bookingDate := now }] }) := by
  have hctor := ctor_ok db.nextReservationId customerId roomNumber checkIn checkOut guests
    room.pricePerNight now hnext hcid hrn hdates hguests hprice
  unfold Database.makeReservation
  rw [hcust, hroom]
  simp only [Room.isAvailable, Room.canAccommodate, havail, hcap, hctor]
  by_cases hreq : requests = ""
  · subst hreq
    simp
    rfl
  · simp [Reservation.setSpecialRequests, hreq]
    rfl

/-- C1 (as stated, refuted): with a customer, an available room of positive
price, `0 < guests ≤ capacity` and `checkIn < checkOut`, `makeReservation` still
fails when the next reservation id, the customer id or the room number is not
positive: the `Reservation` constructor rejects each of them. It also fails,
with all of them positive, when the reservations file cannot be opened:
`saveReservations()` throws after the reservation was pushed and the room
reserved. -/
theorem makeReservation_nonpositive_id_fails :
    (sampleDbCounterZero.findCustomer 1001 = some sampleCustomer ∧
     sampleDbCounterZero.findRoom 101 = some sampleRoom ∧
     sampleRoom.status = RoomStatus.AVAILABLE ∧ 0 < sampleRoom.pricePerNight ∧
     (0 : Int) < 2 ∧ 2 ≤ sampleRoom.capacity ∧ (86400 : Int) < 345600 ∧
     (sampleDbCounterZero.makeReservation 1001 101 86400 345600 2 "" 0 writableFiles).1 =
       .error (.ValidationException "Reservation ID must be positive")) ∧
    (sampleDbCustomerZero.findCustomer 0 = some sampleCustomerZero ∧
     sampleDbCustomerZero.findRoom 101 = some sampleRoom ∧
     sampleRoom.status = RoomStatus.AVAILABLE ∧ 0 < sampleRoom.pricePerNight ∧
     (0 : Int) < 2 ∧ 2 ≤ sampleRoom.capacity ∧ (86400 : Int) < 345600 ∧
     (sampleDbCustomerZero.makeReservation 0 101 86400 345600 2 "" 0 writableFiles).1 =
       .error (.ValidationException "Customer ID must be positive")) ∧
    (sampleDbRoomZero.findCustomer 1001 = some sampleCustomer ∧
     sampleDbRoomZero.findRoom 0 = some sampleRoomZero ∧
     sampleRoomZero.status = RoomStatus.AVAILABLE ∧ 0 < sampleRoomZero.pricePerNight ∧
     (0 : Int) < 2 ∧ 2 ≤ sampleRoomZero.capacity ∧ (86400 : Int) < 345600 ∧
     (sampleDbRoomZero.makeReservation 1001 0 86400 345600 2 "" 0 writableFiles).1 =
       .error (.ValidationException "Room number must be positive")) ∧
    (sampleDb.findCustomer 1001 = some sampleCustomer ∧
     sampleDb.findRoom 101 = some sampleRoom ∧
     sampleRoom.status = RoomStatus.AVAILABLE ∧ 0 < sampleRoom.pricePerNight ∧
     (0 : Int) < 2 ∧ 2 ≤ sampleRoom.capacity ∧ (86400 : Int) < 345600 ∧
     (sampleDb.makeReservation 1001 101 86400 345600 2 "" 0 noReservationsFile).1 =
       .error (.FileException "File Error: Cannot open reservations file") ∧
     (sampleDb.makeReservation 1001 101 86400 345600 2 "" 0
       noReservationsFile).2.reservations.map Reservation.reservationId = [10001] ∧
     (sampleDb.makeReservation 1001 101 86400 345600 2 "" 0
       noReservationsFile).2.rooms = [sampleRoomReserved]) := by
  decide

/-- C1 (amended): when the customer id, the room number and the store's next
reservation id are positive, a customer with `customerId` exists, the room found
for `roomNumber` is `AVAILABLE` with a positive price, `0 < guests ≤ capacity`
and `checkIn < checkOut`, then exactly one reservation is appended, with the
next reservation id, status `CONFIRMED`, the room's current price as rate, total
`rate * nights` and paid amount 0; the room found gets status `RESERVED`; every
other room and every earlier reservation is as it was. `makeReservation` then
returns the id of that reservation when the reservations file and the rooms
file can be opened, and otherwise throws the `FileException` of the first save
that fails, with these changes made. -/
theorem makeReservation_success (db : Database)
    (customerId roomNumber checkIn checkOut guests : Int) (requests : String) (now : Int)
    (disk : DataFiles) (customer : Customer) (room : Room)
    (hcust : db.findCustomer customerId = some customer)
    (hroom : db.findRoom roomNumber = some room)
    (havail : room.status = RoomStatus.AVAILABLE) (hprice : 0 < room.pricePerNight)
    (hguests : 0 < guests) (hcap : guests ≤ room.capacity) (hdates : checkIn < checkOut)
    (hcid : 0 < customerId) (hrn : 0 < roomNumber) (hnext : 0 < db.nextReservationId) :
    ∃ res : Reservation,
      (disk.reservations = true → disk.rooms = true →
        (db.makeReservation customerId roomNumber checkIn checkOut guests requests now
          disk).1 = .ok res.reservationId) ∧
      (disk.reservations = false →
        (db.makeReservation customerId roomNumber checkIn checkOut guests requests now
          disk).1 =
          .error (.FileException (fileExceptionMessage "Cannot open reservations file"))) ∧
      (disk.reservations = true → disk.rooms = false →
        (db.makeReservation customerId roomNumber checkIn checkOut guests requests now
          disk).1 = .error (.FileException (fileExceptionMessage "Cannot open rooms file"))) ∧
      (db.makeReservation customerId roomNumber checkIn checkOut guests requests now
        disk).2.reservations = db.reservations ++ [res] ∧
      res.reservationId = db.nextReservationId ∧
      res.customerId = customerId ∧ res.roomNumber = roomNumber ∧
      res.checkInDate = checkIn ∧ res.checkOutDate = checkOut ∧
      res.numberOfGuests = guests ∧ res.specialRequests = requests ∧
      res.status = ReservationStatus.CONFIRMED ∧
      res.roomRate = room.pricePerNight ∧
      res.totalAmount = res.roomRate * (res.calculateNights : ℚ) ∧
      res.paidAmount = 0 ∧
      ReplacedFirst (fun x => x.roomNumber == roomNumber) room
        { room with status := RoomStatus.RESERVED } db.rooms
        (db.makeReservation customerId roomNumber checkIn checkOut guests requests now
          disk).2.rooms ∧
      (db.makeReservation customerId roomNumber checkIn checkOut guests requests
        now disk).2.findRoom roomNumber = some { room with status := RoomStatus.RESERVED } := by
  have hk : (room.roomNumber == roomNumber) = true :=
    find?_mem_prop (fun x : Room => x.roomNumber == roomNumber) _ _ hroom
  have hrep := modifyFirst_replaced (fun x : Room => x.roomNumber == roomNumber)
    (fun r => r.setStatus RoomStatus.RESERVED) db.rooms room hroom
  have hfind := find?_modifyFirst (fun x : Room => x.roomNumber == roomNumber)
    (fun r => r.setStatus RoomStatus.RESERVED) db.rooms room hroom hk
  rw [makeReservation_accepted db customerId roomNumber checkIn checkOut guests requests now
    disk customer room hcust hroom havail hprice hguests hcap hdates hcid hrn hnext]
  refine ⟨_, ?_, ?_, ?_, rfl, rfl, rfl, rfl, rfl, rfl, rfl, rfl, rfl, rfl, rfl, rfl,
    hrep, hfind⟩
  · intro h1 h2
    simp [afterSaves, Database.saveReservations, Database.saveRooms, h1, h2]
  · intro h1
    simp [afterSaves, Database.saveReservations, h1]
  · intro h1 h2
    simp [afterSaves, Database.saveReservations, Database.saveRooms, h1, h2]

/-- C1 (amended), at the booking of the integration test with every data file
writable: customer 1001 books room 101 for two guests and three nights. -/
theorem makeReservation_success_witness :
    ∃ res : Reservation,
      (sampleDb.makeReservation 1001 101 86400 345600 2 "Test reservation" 0
        writableFiles).1 = .ok res.reservationId ∧
      (sampleDb.makeReservation 1001 101 86400 345600 2 "Test reservation" 0
        writableFiles).2.reservations = sampleDb.reservations ++ [res] ∧
      res.reservationId = sampleDb.nextReservationId ∧
      res.customerId = 1001 ∧ res.roomNumber = 101 ∧
      res.checkInDate = 86400 ∧ res.checkOutDate = 345600 ∧
      res.numberOfGuests = 2 ∧ res.specialRequests = "Test reservation" ∧
      res.status = ReservationStatus.CONFIRMED ∧
      res.roomRate = sampleRoom.pricePerNight ∧
      res.totalAmount = res.roomRate * (res.calculateNights : ℚ) ∧
      res.paidAmount = 0 ∧
      ReplacedFirst (fun x => x.roomNumber == 101) sampleRoom
        { sampleRoom with status := RoomStatus.RESERVED } sampleDb.rooms
        (sampleDb.makeReservation 1001 101 86400 345600 2 "Test reservation" 0
          writableFiles).2.rooms ∧
      (sampleDb.makeReservation 1001 101 86400 345600 2 "Test reservation" 0
        writableFiles).2.findRoom 101
        = some { sampleRoom with status := RoomStatus.RESERVED } := by
  obtain ⟨res, h1, _, _, h⟩ :=
    makeReservation_success sampleDb 1001 101 86400 345600 2 "Test reservation" 0
      writableFiles sampleCustomer sampleRoom (by decide) (by decide) (by decide) (by decide)
      (by decide) (by decide) (by decide) (by decide) (by decide) (by decide)
  exact ⟨res, h1 rfl rfl, h⟩

/-- C2 (as stated, refuted): the clauses of the claim overlap and the code
answers with the first check that fails. With no customer 1001 and room 101
occupied the error is the `ValidationException` "Customer not found", not a
`RoomException`; with the customer present, room 101 occupied and five guests
for a capacity of two, the error is the `RoomException`, not a
`ValidationException`. -/
theorem makeReservation_first_failing_check_wins :
    (sampleDbOccupiedNoCustomer.findRoom 101 = some sampleRoomOccupied ∧
     sampleRoomOccupied.status ≠ RoomStatus.AVAILABLE ∧
     (sampleDbOccupiedNoCustomer.makeReservation 1001 101 86400 345600 2 "" 0
       writableFiles).1 = .error (.ValidationException "Customer not found")) ∧
    (sampleDbOccupied.findCustomer 1001 = some sampleCustomer ∧
     sampleDbOccupied.findRoom 101 = some sampleRoomOccupied ∧
     sampleRoomOccupied.capacity < 5 ∧
     (sampleDbOccupied.makeReservation 1001 101 86400 345600 5 "" 0 writableFiles).1 =
       .error (.RoomException "Room operation failed: Room is not available")) := by
  decide

/-- C2 (amended): `makeReservation` fails with the not-found error (the
`ValidationException` "Customer not found" or "Room not found") when no
customer has `customerId` or no room has `roomNumber`; with the conflict error
(the `RoomException` for "Room is not available") when the customer exists and
the room found is not `AVAILABLE`; and with a `ValidationException` when the
customer exists, the room found is `AVAILABLE` and `guests` exceeds its capacity
or `checkOut ≤ checkIn`; each of these whichever data files can be opened. -/
theorem makeReservation_errors (db : Database)
    (customerId roomNumber checkIn checkOut guests : Int) (requests : String) (now : Int)
    (disk : DataFiles) :
    (db.findCustomer customerId = none →
      (db.makeReservation customerId roomNumber checkIn checkOut guests requests now
        disk).1 = .error (.ValidationException "Customer not found")) ∧
    (db.findCustomer customerId ≠ none → db.findRoom roomNumber = none →
      (db.makeReservation customerId roomNumber checkIn checkOut guests requests now
        disk).1 = .error (.ValidationException "Room not found")) ∧
    (db.findCustomer customerId = none ∨ db.findRoom roomNumber = none →
      (db.makeReservation customerId roomNumber checkIn checkOut guests requests now
        disk).1 = .error (.ValidationException "Customer not found") ∨
      (db.makeReservation customerId roomNumber checkIn checkOut guests requests now
        disk).1 = .error (.ValidationException "Room not found")) ∧
    (∀ room, db.findCustomer customerId ≠ none → db.findRoom roomNumber = some room →
      room.status ≠ RoomStatus.AVAILABLE →
      (db.makeReservation customerId roomNumber checkIn checkOut guests requests now
        disk).1 = .error (.RoomException (roomExceptionMessage "Room is not available"))) ∧
    (∀ room, db.findCustomer customerId ≠ none → db.findRoom roomNumber = some room →
      room.status = RoomStatus.AVAILABLE →
      room.capacity < guests ∨ checkOut ≤ checkIn →
      ∃ e, (db.makeReservation customerId roomNumber checkIn checkOut guests requests
          now disk).1 = .error e ∧ e.isValidation = true) := by
  have hnocust : db.findCustomer customerId = none →
      (db.makeReservation customerId roomNumber checkIn checkOut guests requests now
        disk).1 = .error (.ValidationException "Customer not found") := by
    intro h
    unfold Database.makeReservation
    rw [h]
  have hnoroom : db.findCustomer customerId ≠ none → db.findRoom roomNumber = none →
      (db.makeReservation customerId roomNumber checkIn checkOut guests requests now
        disk).1 = .error (.ValidationException "Room not found") := by
    intro hc hr
    obtain ⟨c, hc⟩ := Option.ne_none_iff_exists'.mp hc
    unfold Database.makeReservation
    rw [hc, hr]
  refine ⟨hnocust, hnoroom, ?_, ?_, ?_⟩
  · intro h
    by_cases hc : db.findCustomer customerId = none
    · exact Or.inl (hnocust hc)
    · rcases h with h | h
      · exact absurd h hc
      · exact Or.inr (hnoroom hc h)
  · intro room hc hr hst
    obtain ⟨c, hc⟩ := Option.ne_none_iff_exists'.mp hc
    unfold Database.makeReservation
    rw [hc, hr]
    simp [Room.isAvailable, hst]
  · intro room hc hr hst hbad
    obtain ⟨c, hc⟩ := Option.ne_none_iff_exists'.mp hc
    unfold Database.makeReservation
    rw [hc, hr]
    by_cases hcap : guests ≤ room.capacity
    · have hd : checkOut ≤ checkIn := by
        rcases hbad with h | h
        · omega
        · exact h
      obtain ⟨e, he⟩ := ctor_rejects_dates db.nextReservationId customerId roomNumber
        checkIn checkOut guests room.pricePerNight now hd
      refine ⟨e, ?_, ctor_error_isValidation _ _ _ _ _ _ _ _ e he⟩
      simp [Room.isAvailable, Room.canAccommodate, hst, hcap, he]
    · refine ⟨.ValidationException
        ("Room cannot accommodate " ++ toString guests ++ " guests"), ?_, rfl⟩
      simp [Room.isAvailable, Room.canAccommodate, hst, hcap]

/-- C3: whenever `makeReservation` fails with a `ValidationException` or a
`RoomException`, which are the failures of a missing customer or room, of a
room that is not `AVAILABLE`, of too many guests and of arguments that the
`Reservation` constructor rejects, the reservation collection (hence the
reservation count) and every room are as before the call; so are the customers,
employees and bills. The one thing that can differ is the next reservation id,
which has advanced by one when it was the `Reservation` constructor that
rejected the arguments. -/
theorem makeReservation_failure_frame (db : Database)
    (customerId roomNumber checkIn checkOut guests : Int) (requests : String) (now : Int)
    (disk : DataFiles) (e : HotelException)
    (h : (db.makeReservation customerId roomNumber checkIn checkOut guests requests now
      disk).1 = .error e)
    (hkind : e.isValidation = true ∨ e.isRoom = true) :
    (db.makeReservation customerId roomNumber checkIn checkOut guests requests now
      disk).2.reservations = db.reservations ∧
    (db.makeReservation customerId roomNumber checkIn checkOut guests requests
      now disk).2.reservations.length = db.reservations.length ∧
    (db.makeReservation customerId roomNumber checkIn checkOut guests requests now
      disk).2.rooms = db.rooms ∧
    ((db.makeReservation customerId roomNumber checkIn checkOut guests requests now
      disk).2 = db ∨
     (db.makeReservation customerId roomNumber checkIn checkOut guests requests now
       disk).2 = { db with nextReservationId := db.nextReservationId + 1 }) := by
  have hnofile : e.isFile = false := by
    cases e <;> simp [HotelException.isValidation, HotelException.isRoom,
      HotelException.isFile] at hkind ⊢
  unfold Database.makeReservation at h ⊢
  cases hc : db.findCustomer customerId with
  | none => simp
  | some c =>
    cases hr : db.findRoom roomNumber with
    | none => simp
    | some room =>
      cases hk : Reservation.ctor db.nextReservationId customerId roomNumber checkIn
          checkOut guests room.pricePerNight now with
      | error e' =>
        simp only [hk]
        split_ifs <;> simp
      | ok created =>
        simp only [hc, hr, hk] at h ⊢
        split_ifs at h ⊢ <;>
          first
          | (exfalso
             have hmem := afterSaves_error _ e _ h
             have hfile := save_error_isFile db disk e (by
               simp only [List.mem_cons, List.mem_singleton, List.not_mem_nil,
                 or_false] at hmem
               rcases hmem with hm | hm
               · exact Or.inr (Or.inr (Or.inl hm.symm))
               · exact Or.inl hm.symm)
             rw [hnofile] at hfile
             cases hfile)
          | simp

/-- C3 at the scenario of the specification: booking the occupied room 101
fails and the store keeps its reservations and rooms. -/
theorem makeReservation_failure_frame_witness :
    (sampleDbOccupied.makeReservation 1001 101 86400 345600 2 "" 0
      writableFiles).2.reservations = sampleDbOccupied.reservations ∧
    (sampleDbOccupied.makeReservation 1001 101 86400 345600 2 "" 0
      writableFiles).2.reservations.length = sampleDbOccupied.reservations.length ∧
    (sampleDbOccupied.makeReservation 1001 101 86400 345600 2 "" 0 writableFiles).2.rooms
      = sampleDbOccupied.rooms ∧
    ((sampleDbOccupied.makeReservation 1001 101 86400 345600 2 "" 0 writableFiles).2 =
        sampleDbOccupied ∨
     (sampleDbOccupied.makeReservation 1001 101 86400 345600 2 "" 0 writableFiles).2 =
       { sampleDbOccupied with
         nextReservationId := sampleDbOccupied.nextReservationId + 1 }) :=
  makeReservation_failure_frame sampleDbOccupied 1001 101 86400 345600 2 "" 0 writableFiles
    (.RoomException "Room operation failed: Room is not available") (by decide)
    (Or.inr rfl)

/-! ## The stored total of a reservation -/

theorem ctor_consistent (resId custId roomNo checkIn checkOut guests : Int) (rate : ℚ)
    (now : Int) (r : Reservation)
    (h : Reservation.ctor resId custId roomNo checkIn checkOut guests rate now = .ok r) :
    r.Consistent := by
  unfold Reservation.ctor at h
  simp only at h
  split_ifs at h with h1 h2 h3 h4 h5 h6
  cases h
  exact ⟨by simpa using h4, rfl⟩

theorem call_consistent (r : Reservation) (c : ReservationCall) (h : r.Consistent) :
    (r.call c).Consistent := by
  obtain ⟨hd, ht⟩ := h
  unfold Reservation.Consistent
  cases c with
  | setDates a b =>
    simp only [Reservation.call, Reservation.setDates]
    split_ifs with hab
    · exact ⟨hd, ht⟩
    · exact ⟨by simpa using hab, rfl⟩
  | setRoomRate rate =>
    simp only [Reservation.call, Reservation.setRoomRate]
    split_ifs
    · exact ⟨hd, ht⟩
    · exact ⟨hd, rfl⟩
  | setGuests g =>
    simp only [Reservation.call, Reservation.setGuests]
    split_ifs <;> exact ⟨hd, ht⟩
  | setSpecialRequests s => exact ⟨hd, ht⟩
  | checkIn =>
    simp only [Reservation.call, Reservation.checkIn]
    split_ifs <;> exact ⟨hd, ht⟩
  | checkOut =>
    simp only [Reservation.call, Reservation.checkOut]
    split_ifs <;> exact ⟨hd, ht⟩
  | cancel =>
    simp only [Reservation.call, Reservation.cancel]
    split_ifs <;> exact ⟨hd, ht⟩
  | makePayment amount =>
    simp only [Reservation.call, Reservation.makePayment]
    split_ifs <;> exact ⟨hd, ht⟩

theorem calls_consistent (cs : List ReservationCall) :
    ∀ r : Reservation, r.Consistent → (r.calls cs).Consistent := by
  induction cs with
  | nil => intro r h; exact h
  | cons c t ih =>
    intro r h
    exact ih (r.call c) (call_consistent r c h)

theorem wrapInt_64 (n : Int) (h1 : -9223372036854775808 ≤ n) (h2 : n < 9223372036854775808) :
    wrapInt 64 n = n := by
  unfold wrapInt
  norm_num
  omega

theorem wrapInt_32 (n : Int) (h1 : -2147483648 ≤ n) (h2 : n < 2147483648) :
    wrapInt 32 n = n := by
  unfold wrapInt
  norm_num
  omega

/-- For a non-empty stay of fewer than `2 ^ 31` days the result of
`daysBetween` is the floor of the exact quotient. -/
theorem daysBetween_eq_floor (start stop : Int) (h : start < stop)
    (hr : stop - start < 86400 * 2 ^ 31) :
    Utils.daysBetween start stop = ⌊((stop - start : Int) : ℚ) / 86400⌋ := by
  unfold Utils.daysBetween
  have h0 : (0 : Int) ≤ stop - start := by omega
  have hr2 : stop - start < 185542587187200 := by
    have : (86400 : Int) * 2 ^ 31 = 185542587187200 := by norm_num
    omega
  rw [wrapInt_64 _ (by omega) (by omega), Int.tdiv_eq_ediv h0 (by norm_num)]
  have hq1 : 0 ≤ (stop - start) / (60 * 60 * 24) :=
    Int.ediv_nonneg h0 (by norm_num)
  have hq2 : (stop - start) / (60 * 60 * 24) < 2147483648 := by
    have : (60 : Int) * 60 * 24 = 86400 := by norm_num
    rw [this]
    omega
  rw [wrapInt_32 _ (by omega) hq2]
  have := Rat.floor_intCast_div_natCast (stop - start) 86400
  simpa using this.symm

unseal Rat.mul in
/-- C8 (as stated, refuted): the validating constructor accepts a stay from 0
to `86400 * 2 ^ 31` seconds at rate 100; the quotient `2 ^ 31` does not fit the
`int` that `daysBetween` returns, `calculateNights` is -2147483648 and the
stored total is negative, while the floor of the exact quotient is
2147483648. -/
theorem reservation_nights_leave_int_range :
    Reservation.ctor 10001 1001 101 0 185542587187200 2 100 0 = .ok sampleReservationLong ∧
    sampleReservationLong.calculateNights = -2147483648 ∧
    sampleReservationLong.totalAmount = -214748364800 ∧
    (185542587187200 - 0 : Int) / 86400 = 2147483648 := by
  decide

/-- C8 (amended): for a reservation built by the validating constructor and
then changed by any sequence of `setDates`, `setRoomRate`, `setGuests`,
`setSpecialRequests`, `checkIn`, `checkOut`, `cancel` and `makePayment` calls
(rejected calls included), the stored total is what `calculateTotal` returns,
`roomRate * nights`, where `nights` is what `calculateNights` returns; `nights`
equals `floor((checkOut - checkIn) / 86400)` when the stay is shorter than
`2 ^ 31` days, that is when `checkOut - checkIn < 86400 * 2 ^ 31`. -/
theorem reservation_total_is_rate_times_nights
    (resId custId roomNo checkIn checkOut guests : Int) (rate : ℚ) (now : Int)
    (r : Reservation)
    (h : Reservation.ctor resId custId roomNo checkIn checkOut guests rate now = .ok r)
    (cs : List ReservationCall) :
    (r.calls cs).totalAmount = (r.calls cs).calculateTotal ∧
    (r.calls cs).totalAmount = (r.calls cs).roomRate * ((r.calls cs).calculateNights : ℚ) ∧
    ((r.calls cs).checkOutDate - (r.calls cs).checkInDate < 86400 * 2 ^ 31 →
      (r.calls cs).calculateNights =
        ⌊(((r.calls cs).checkOutDate - (r.calls cs).checkInDate : Int) : ℚ) / 86400⌋) := by
  obtain ⟨hd, ht⟩ := calls_consistent cs r (ctor_consistent _ _ _ _ _ _ _ _ r h)
  exact ⟨ht, ht, fun hr => daysBetween_eq_floor _ _ hd hr⟩

unseal Rat.mul Rat.add Rat.sub in
/-- C8 (amended) on a sample life of reservation 10001: a rejected and an
accepted change of dates, a payment, a new rate, check-in and a refused
cancellation. -/
theorem reservation_total_is_rate_times_nights_witness :
    ((sampleReservation 10001 ReservationStatus.CONFIRMED).calls sampleCalls).totalAmount =
      ((sampleReservation 10001 ReservationStatus.CONFIRMED).calls sampleCalls).roomRate *
        (((sampleReservation 10001 ReservationStatus.CONFIRMED).calls
          sampleCalls).calculateNights : ℚ) ∧
    ((sampleReservation 10001 ReservationStatus.CONFIRMED).calls sampleCalls).calculateNights =
      ⌊((((sampleReservation 10001 ReservationStatus.CONFIRMED).calls sampleCalls).checkOutDate -
        ((sampleReservation 10001 ReservationStatus.CONFIRMED).calls sampleCalls).checkInDate
          : Int) : ℚ) / 86400⌋ := by
  have h := reservation_total_is_rate_times_nights 10001 1001 101 86400 345600 2 100 0
    (sampleReservation 10001 ReservationStatus.CONFIRMED)
    (by
      have hdays : Utils.daysBetween 86400 345600 = 3 := by decide
      norm_num [Reservation.ctor, sampleReservation, Reservation.calculateTotal,
        Reservation.calculateNights, hdays])
    sampleCalls
  exact ⟨h.2.1, h.2.2 (by decide)⟩

/-! ## Billing -/

theorem foldl_getTotal (items : List BillItem) :
    ∀ acc : ℚ, items.foldl (fun subtotal item => subtotal + item.getTotal) acc =
      acc + (items.map (fun i => i.amount * (i.quantity : ℚ))).sum := by
  induction items with
  | nil => intro acc; simp
  | cons i t ih =>
    intro acc
    rw [List.foldl_cons, ih, List.map_cons, List.sum_cons, BillItem.getTotal]
    ring

/-- C9: for every bill with `taxRate ≥ 0` and `0 ≤ discount ≤ 1`, over exact
arithmetic, the subtotal is the sum of `amount * quantity` over the items, the
tax is `subtotal * taxRate`, the discount amount is `(subtotal + tax) *
discount`, the total is `subtotal + tax - discountAmount`, and the balance due
is 0 for a paid bill and the total otherwise. -/
theorem bill_calculations (b : Bill) (_htax : 0 ≤ b.taxRate) (_hlow : 0 ≤ b.discount)
    (_hhigh : b.discount ≤ 1) :
    b.calculateSubtotal = (b.items.map (fun i => i.amount * (i.quantity : ℚ))).sum ∧
    b.calculateTax = b.calculateSubtotal * b.taxRate ∧
    b.calculateDiscountAmount = (b.calculateSubtotal + b.calculateTax) * b.discount ∧
    b.calculateTotal = b.calculateSubtotal + b.calculateTax - b.calculateDiscountAmount ∧
    (b.isPaid = true → b.getBalanceDue = 0) ∧
    (b.isPaid = false → b.getBalanceDue = b.calculateTotal) := by
  refine ⟨?_, rfl, rfl, rfl, ?_, ?_⟩
  · unfold Bill.calculateSubtotal
    rw [foldl_getTotal]
    simp
  · intro h; simp [Bill.getBalanceDue, h]
  · intro h; simp [Bill.getBalanceDue, h]

/-- C9 at the scenario of the specification: one item of amount 100 and
quantity 3 with tax 0.10 and discount 0 gives subtotal 300, tax 30, total 330
and balance due 330 while unpaid. -/
theorem bill_calculations_witness :
    (0 ≤ (sampleBill false).taxRate ∧ 0 ≤ (sampleBill false).discount ∧
      (sampleBill false).discount ≤ 1) ∧
    ((sampleBill false).calculateSubtotal =
        ((sampleBill false).items.map (fun i => i.amount * (i.quantity : ℚ))).sum ∧
      (sampleBill false).calculateTax =
        (sampleBill false).calculateSubtotal * (sampleBill false).taxRate ∧
      (sampleBill false).calculateDiscountAmount =
        ((sampleBill false).calculateSubtotal + (sampleBill false).calculateTax) *
          (sampleBill false).discount ∧
      (sampleBill false).calculateTotal =
        (sampleBill false).calculateSubtotal + (sampleBill false).calculateTax -
          (sampleBill false).calculateDiscountAmount ∧
      ((sampleBill false).isPaid = true → (sampleBill false).getBalanceDue = 0) ∧
      ((sampleBill false).isPaid = false →
        (sampleBill false).getBalanceDue = (sampleBill false).calculateTotal)) ∧
    ((sampleBill false).calculateSubtotal = 300 ∧ (sampleBill false).calculateTax = 30 ∧
      (sampleBill false).calculateTotal = 330 ∧ (sampleBill false).getBalanceDue = 330) :=
  ⟨⟨by norm_num [sampleBill], by norm_num [sampleBill], by norm_num [sampleBill]⟩,
   bill_calculations (sampleBill false) (by norm_num [sampleBill]) (by norm_num [sampleBill])
     (by norm_num [sampleBill]),
   by norm_num [sampleBill, Bill.calculateSubtotal, Bill.calculateTax, Bill.calculateTotal,
     Bill.calculateDiscountAmount, Bill.getBalanceDue, BillItem.getTotal]⟩

/-- C10: `processPayment(method)` fails exactly when `method` is empty or the
bill is already paid; every failure is a `ValidationException` and leaves the
bill (paid flag, payment method, payment date and all) as it was. Otherwise it
returns true, sets the paid flag, records the method and the current time and
nothing else, and the balance due is 0. After a successful payment every
further `processPayment` fails and changes nothing. -/
theorem bill_processPayment_spec (b : Bill) (method : String) (now : Int) :
    ((∃ e, (b.processPayment method now).1 = .error e) ↔ (method = "" ∨ b.isPaid = true)) ∧
    (∀ e, (b.processPayment method now).1 = .error e →
      e.isValidation = true ∧ (b.processPayment method now).2 = b) ∧
    (method ≠ "" → b.isPaid = false →
      (b.processPayment method now).1 = .ok true ∧
      (b.processPayment method now).2 =
        { b with paymentMethod := method, paymentDate := now, isPaid := true } ∧
      (b.processPayment method now).2.getBalanceDue = 0) ∧
    (∀ method2 now2, (b.processPayment method now).1 = .ok true →
      (∃ e, ((b.processPayment method now).2.processPayment method2 now2).1 = .error e ∧
        e.isValidation = true) ∧
      ((b.processPayment method now).2.processPayment method2 now2).2 =
        (b.processPayment method now).2) := by
  by_cases hm : method = ""
  · simp [Bill.processPayment, hm, HotelException.isValidation]
  · cases hp : b.isPaid with
    | true => simp [Bill.processPayment, hm, hp, HotelException.isValidation]
    | false =>
      refine ⟨?_, ?_, ?_, ?_⟩
      · simp [Bill.processPayment, hm, hp]
      · simp [Bill.processPayment, hm, hp]
      · intro _ _
        simp [Bill.processPayment, hm, hp, Bill.getBalanceDue]
      · intro method2 now2 _
        by_cases hm2 : method2 = ""
        · simp [Bill.processPayment, hm, hp, hm2, HotelException.isValidation]
        · simp [Bill.processPayment, hm, hp, hm2, HotelException.isValidation]

/-- C10 at the scenario of the specification: the unpaid sample bill is paid by
card at time 1000, its balance due becomes 0, and a second payment is rejected
with a `ValidationException` and changes nothing. -/
theorem bill_processPayment_spec_witness :
    ((sampleBill false).processPayment "Credit Card" 1000).1 = .ok true ∧
    ((sampleBill false).processPayment "Credit Card" 1000).2 =
      { sampleBill false with
        paymentMethod := "Credit Card", paymentDate := 1000, isPaid := true } ∧
    ((sampleBill false).processPayment "Credit Card" 1000).2.getBalanceDue = 0 ∧
    ((∃ e, (((sampleBill false).processPayment "Credit Card" 1000).2.processPayment
        "Cash" 2000).1 = .error e ∧ e.isValidation = true) ∧
      (((sampleBill false).processPayment "Credit Card" 1000).2.processPayment "Cash" 2000).2 =
        ((sampleBill false).processPayment "Credit Card" 1000).2) := by
  have h := (bill_processPayment_spec (sampleBill false) "Credit Card" 1000).2.2.1
    (by decide) rfl
  exact ⟨h.1, h.2.1, h.2.2,
    (bill_processPayment_spec (sampleBill false) "Credit Card" 1000).2.2.2 "Cash" 2000 h.1⟩

/-! ## Rooms -/

/-- C14: constructing a `Room` with room number, price and capacity all
positive succeeds, with the given fields and status `AVAILABLE`, and the room
satisfies `isValid()`; with a room number, price or capacity that is not
positive the constructor fails with a `ValidationException`. -/
theorem room_ctor_spec (roomNo : Int) (t : RoomType) (price : ℚ) (cap : Int)
    (feat : List String) :
    (0 < roomNo → 0 < price → 0 < cap →
      ∃ r, Room.ctor roomNo t price cap feat = .ok r ∧
        r = { roomNumber := roomNo, type := t, status := RoomStatus.AVAILABLE,
              pricePerNight := price, capacity := cap, features := feat } ∧
        r.status = RoomStatus.AVAILABLE ∧ r.isValid = true) ∧
    (roomNo ≤ 0 ∨ price ≤ 0 ∨ cap ≤ 0 →
      ∃ e, Room.ctor roomNo t price cap feat = .error e ∧ e.isValidation = true) := by
  constructor
  · intro h1 h2 h3
    refine ⟨_, ?_, rfl, rfl, ?_⟩
    · simp [Room.ctor, not_le.mpr h1, not_le.mpr h2, not_le.mpr h3]
    · simp [Room.isValid, h1, h2, h3]
  · intro h
    unfold Room.ctor
    split_ifs with h1 h2 h3
    · exact ⟨_, rfl, rfl⟩
    · exact ⟨_, rfl, rfl⟩
    · exact ⟨_, rfl, rfl⟩
    · rcases h with h | h | h
      · exact absurd h h1
      · exact absurd h h2
      · exact absurd h h3

/-- C14 on the room of the unit test, `Room(301, SUITE, 350.0, 4, ...)`, and on
a room numbered 0. -/
theorem room_ctor_spec_witness :
    (∃ r, Room.ctor 301 RoomType.SUITE 350 4 ["WiFi", "TV", "AC", "Mini-fridge"] = .ok r ∧
      r = { roomNumber := 301, type := RoomType.SUITE, status := RoomStatus.AVAILABLE,
            pricePerNight := 350, capacity := 4,
            features := ["WiFi", "TV", "AC", "Mini-fridge"] } ∧
      r.status = RoomStatus.AVAILABLE ∧ r.isValid = true) ∧
    (∃ e, Room.ctor 0 RoomType.STANDARD 100 2 [] = .error e ∧ e.isValidation = true) :=
  ⟨(room_ctor_spec 301 RoomType.SUITE 350 4 ["WiFi", "TV", "AC", "Mini-fridge"]).1
      (by decide) (by norm_num) (by decide),
   (room_ctor_spec 0 RoomType.STANDARD 100 2 []).2 (Or.inl (by decide))⟩

/-- C13 (as stated, refuted): on a store whose only room is numbered -1 and
whose counter is 0, every room number is below the counter, the price and the
capacity are positive, and `addRoom` fails: the `Room` constructor rejects the
room number 0. On the empty store with seed 101 `addRoom` fails when the rooms
file cannot be opened: `saveRooms()` throws after room 101 was pushed. -/
theorem addRoom_nonpositive_counter_fails :
    ((∀ r ∈ sampleDbRoomCounterZero.rooms,
        r.roomNumber < sampleDbRoomCounterZero.nextRoomNumber) ∧
      (0 : ℚ) < 100 ∧ (0 : Int) < 2 ∧
      (sampleDbRoomCounterZero.addRoom RoomType.STANDARD 100 2 [] writableFiles).1 =
        .error (.ValidationException "Room number must be positive") ∧
      (sampleDbRoomCounterZero.addRoom RoomType.STANDARD 100 2 []
        writableFiles).2.findRoom 0 = none) ∧
    ((∀ r ∈ emptyDb.rooms, r.roomNumber < emptyDb.nextRoomNumber) ∧
      (emptyDb.addRoom RoomType.STANDARD 100 2 [] noRoomsFile).1 =
        .error (.FileException "File Error: Cannot open rooms file") ∧
      (emptyDb.addRoom RoomType.STANDARD 100 2 [] noRoomsFile).2.findRoom 101 =
        some sampleRoom) := by
  refine ⟨⟨by decide, by norm_num, by decide, by decide, by decide⟩,
    by decide, by decide, by decide⟩

/-- C13 (amended): on a store whose next-room counter is positive and above
every existing room number, `addRoom(type, price, capacity, features)` with
positive price and capacity appends one room, and `findRoom` of the counter's
value yields that room, with the given type, price, capacity and features and
with status `AVAILABLE`; the call returns the counter's value when the rooms
file can be opened, and otherwise throws the `FileException` of `saveRooms()`,
with the room appended. -/
theorem addRoom_spec (db : Database) (type : RoomType) (price : ℚ) (capacity : Int)
    (features : List String) (disk : DataFiles)
    (hbelow : ∀ r ∈ db.rooms, r.roomNumber < db.nextRoomNumber)
    (hpos : 0 < db.nextRoomNumber) (hprice : 0 < price) (hcap : 0 < capacity) :
    (disk.rooms = true →
      (db.addRoom type price capacity features disk).1 = .ok db.nextRoomNumber) ∧
    (disk.rooms = false →
      (db.addRoom type price capacity features disk).1 =
        .error (.FileException (fileExceptionMessage "Cannot open rooms file"))) ∧
    (db.addRoom type price capacity features disk).2.rooms =
      db.rooms ++ [{ roomNumber := db.nextRoomNumber, type := type,
                     status := RoomStatus.AVAILABLE, pricePerNight := price,
                     capacity := capacity, features := features }] ∧
    (db.addRoom type price capacity features disk).2.findRoom db.nextRoomNumber =
      some { roomNumber := db.nextRoomNumber, type := type,
             status := RoomStatus.AVAILABLE, pricePerNight := price,
             capacity := capacity, features := features } ∧
    (db.addRoom type price capacity features disk).2.nextRoomNumber =
      db.nextRoomNumber + 1 := by
  have hctor : Room.ctor db.nextRoomNumber type price capacity features =
      .ok { roomNumber := db.nextRoomNumber, type := type,
            status := RoomStatus.AVAILABLE, pricePerNight := price,
            capacity := capacity, features := features } := by
    simp [Room.ctor, not_le.mpr hpos, not_le.mpr hprice, not_le.mpr hcap]
  have hnone : ∀ z ∈ db.rooms, (z.roomNumber == db.nextRoomNumber) = false := by
    intro z hz
    have := hbelow z hz
    simp only [beq_eq_false_iff_ne, ne_eq]
    omega
  unfold Database.addRoom
  rw [hctor]
  refine ⟨?_, ?_, rfl, ?_, rfl⟩
  · intro h
    simp [afterSaves, Database.saveRooms, h]
  · intro h
    simp [afterSaves, Database.saveRooms, h]
  · unfold Database.findRoom
    exact find?_of_split (fun room : Room => room.roomNumber == db.nextRoomNumber) _ []
      db.rooms hnone (by simp)

/-- C13 (amended) on the empty store with the default seed and the rooms file
writable: `addRoom(STANDARD, 100.0, 2, [])` returns 101 and `findRoom(101)` is
that room, `AVAILABLE`. -/
theorem addRoom_spec_witness :
    (emptyDb.addRoom RoomType.STANDARD 100 2 [] writableFiles).1 = .ok 101 ∧
    (emptyDb.addRoom RoomType.STANDARD 100 2 [] writableFiles).2.rooms =
      emptyDb.rooms ++ [{ roomNumber := 101, type := RoomType.STANDARD,
                          status := RoomStatus.AVAILABLE, pricePerNight := 100,
                          capacity := 2, features := [] }] ∧
    (emptyDb.addRoom RoomType.STANDARD 100 2 [] writableFiles).2.findRoom 101 =
      some { roomNumber := 101, type := RoomType.STANDARD,
             status := RoomStatus.AVAILABLE, pricePerNight := 100,
             capacity := 2, features := [] } ∧
    (emptyDb.addRoom RoomType.STANDARD 100 2 [] writableFiles).2.nextRoomNumber = 101 + 1 := by
  have h := addRoom_spec emptyDb RoomType.STANDARD 100 2 [] writableFiles (by decide)
    (by decide) (by norm_num) (by decide)
  exact ⟨h.1 rfl, h.2.2⟩

/-! ## The paid amount of a reservation -/

/-- C11 (code on a paid reservation): reservation 10001 (rate 100, three nights,
total 300) is built by the validating constructor and paid in full;
`setRoomRate(50)` then makes the total 150, and `setDates` to a one-night stay
makes it 100, both below the 300 paid. -/
theorem reservation_paid_can_exceed_total :
    Reservation.ctor 10001 1001 101 86400 345600 2 100 0 =
      .ok (sampleReservation 10001 ReservationStatus.CONFIRMED) ∧
    ((sampleReservation 10001 ReservationStatus.CONFIRMED).calls
      [.makePayment 300, .setRoomRate 50]).paidAmount = 300 ∧
    ((sampleReservation 10001 ReservationStatus.CONFIRMED).calls
      [.makePayment 300, .setRoomRate 50]).totalAmount = 150 ∧
    ((sampleReservation 10001 ReservationStatus.CONFIRMED).calls
      [.makePayment 300, .setDates 86400 172800]).paidAmount = 300 ∧
    ((sampleReservation 10001 ReservationStatus.CONFIRMED).calls
      [.makePayment 300, .setDates 86400 172800]).totalAmount = 100 := by
  have h3 : Utils.daysBetween 86400 345600 = 3 := by decide
  have h1 : Utils.daysBetween 86400 172800 = 1 := by decide
  refine ⟨?_, ?_, ?_, ?_, ?_⟩ <;>
    norm_num [Reservation.ctor, sampleReservation, Reservation.calls, Reservation.call,
      Reservation.makePayment, Reservation.setRoomRate, Reservation.setDates,
      Reservation.getDueAmount, Reservation.calculateTotal, Reservation.calculateNights,
      h3, h1]

/-- C12 (as stated, refuted): on a reservation record whose paid amount is -10
(total 300), `makePayment(5)` succeeds, the new paid amount -5 does not reach
the total, and the payment status stays `PENDING` instead of becoming
`PARTIAL`. -/
theorem makePayment_status_unchanged_when_not_positive :
    (sampleReservationNegativePaid.makePayment 5).1 = .ok true ∧
    (sampleReservationNegativePaid.makePayment 5).2.paidAmount = -5 ∧
    (sampleReservationNegativePaid.makePayment 5).2.paidAmount <
      (sampleReservationNegativePaid.makePayment 5).2.totalAmount ∧
    (sampleReservationNegativePaid.makePayment 5).2.paymentStatus = PaymentStatus.PENDING := by
  refine ⟨?_, ?_, ?_, ?_⟩ <;>
    norm_num [sampleReservationNegativePaid, sampleReservation, Reservation.makePayment,
      Reservation.getDueAmount]

/-- C12 (amended): `makePayment(amount)` fails exactly when `amount ≤ 0` or
`amount > total - paid`; every failure is a `ValidationException` and leaves the
reservation as it was. On success it returns true, the paid amount grows by
exactly `amount`, and only the paid amount and the payment status can differ
from before (the lifecycle status is kept); the payment status is `PAID` when
the new paid amount reaches the total, `PARTIAL` when it does not and is
positive, which is always so when the paid amount was not negative before, and
is left as it was otherwise. -/
theorem reservation_makePayment_spec (r : Reservation) (amount : ℚ) :
    ((∃ e, (r.makePayment amount).1 = .error e) ↔
      (amount ≤ 0 ∨ amount > r.totalAmount - r.paidAmount)) ∧
    (∀ e, (r.makePayment amount).1 = .error e →
      e.isValidation = true ∧ (r.makePayment amount).2 = r) ∧
    (0 < amount → amount ≤ r.totalAmount - r.paidAmount →
      (r.makePayment amount).1 = .ok true ∧
      (r.makePayment amount).2.paidAmount = r.paidAmount + amount ∧
      (r.makePayment amount).2.status = r.status ∧
      (r.makePayment amount).2 =
        { r with paidAmount := r.paidAmount + amount,
                 paymentStatus := (r.makePayment amount).2.paymentStatus } ∧
      (r.totalAmount ≤ r.paidAmount + amount →
        (r.makePayment amount).2.paymentStatus = PaymentStatus.PAID) ∧
      (r.paidAmount + amount < r.totalAmount → 0 < r.paidAmount + amount →
        (r.makePayment amount).2.paymentStatus = PaymentStatus.PARTIAL) ∧
      (r.paidAmount + amount < r.totalAmount → 0 ≤ r.paidAmount →
        (r.makePayment amount).2.paymentStatus = PaymentStatus.PARTIAL) ∧
      (r.paidAmount + amount < r.totalAmount → r.paidAmount + amount ≤ 0 →
        (r.makePayment amount).2.paymentStatus = r.paymentStatus)) := by
  by_cases h1 : amount ≤ 0
  · have hres : r.makePayment amount =
        (.error (.ValidationException "Payment amount must be positive"), r) := by
      simp [Reservation.makePayment, h1]
    rw [hres]
    refine ⟨by simp [h1], ?_, ?_⟩
    · intro e he
      cases he
      exact ⟨rfl, rfl⟩
    · intro h; exact absurd h (not_lt.mpr h1)
  · by_cases h2 : amount > r.totalAmount - r.paidAmount
    · have hres : r.makePayment amount =
          (.error (.ValidationException "Payment exceeds due amount"), r) := by
        simp [Reservation.makePayment, Reservation.getDueAmount, h1, h2]
      rw [hres]
      refine ⟨by simp [h2], ?_, ?_⟩
      · intro e he
        cases he
        exact ⟨rfl, rfl⟩
      · intro _ h; exact absurd h2 (not_lt.mpr h)
    · have hres : r.makePayment amount =
          (.ok true,
            { r with
              paidAmount := r.paidAmount + amount
              paymentStatus :=
                if r.paidAmount + amount ≥ r.totalAmount then PaymentStatus.PAID
                else if r.paidAmount + amount > 0 then PaymentStatus.PARTIAL
                else r.paymentStatus }) := by
        simp only [Reservation.makePayment, Reservation.getDueAmount, h1, h2, if_false]
        split_ifs <;> rfl
      rw [hres]
      refine ⟨?_, ?_, ?_⟩
      · constructor
        · rintro ⟨e, he⟩; cases he
        · rintro (h | h)
          · exact absurd h h1
          · exact absurd h h2
      · intro e he; cases he
      · intro _ _
        refine ⟨rfl, rfl, rfl, rfl, ?_, ?_, ?_, ?_⟩
        · intro h
          simp only [ge_iff_le, h, if_true]
        · intro h3 h4
          simp only [ge_iff_le, not_le.mpr h3, h4, if_true, if_false]
        · intro h3 h4
          have h5 : r.paidAmount + amount > 0 := by
            have := not_le.mp h1
            linarith
          simp only [ge_iff_le, not_le.mpr h3, h5, if_true, if_false]
        · intro h3 h4
          simp only [ge_iff_le, not_le.mpr h3, gt_iff_lt, not_lt.mpr h4, if_false]

/-- C12 (amended) on reservation 10001 (total 300, nothing paid): a payment of
50 is accepted and gives `PARTIAL`, a payment of 300 gives `PAID`, a payment of
301 is rejected. -/
theorem reservation_makePayment_spec_witness :
    (((sampleReservation 10001 ReservationStatus.CONFIRMED).makePayment 50).1 = .ok true ∧
      ((sampleReservation 10001 ReservationStatus.CONFIRMED).makePayment 50).2.paidAmount =
        (sampleReservation 10001 ReservationStatus.CONFIRMED).paidAmount + 50 ∧
      ((sampleReservation 10001 ReservationStatus.CONFIRMED).makePayment 50).2.paymentStatus =
        PaymentStatus.PARTIAL) ∧
    ((sampleReservation 10001 ReservationStatus.CONFIRMED).makePayment 300).2.paymentStatus =
      PaymentStatus.PAID ∧
    (∃ e, ((sampleReservation 10001 ReservationStatus.CONFIRMED).makePayment 301).1 =
      .error e) := by
  have h50 := (reservation_makePayment_spec
    (sampleReservation 10001 ReservationStatus.CONFIRMED) 50).2.2
    (by norm_num) (by norm_num [sampleReservation])
  have h300 := (reservation_makePayment_spec
    (sampleReservation 10001 ReservationStatus.CONFIRMED) 300).2.2
    (by norm_num) (by norm_num [sampleReservation])
  exact ⟨⟨h50.1, h50.2.1, h50.2.2.2.2.2.2.1 (by norm_num [sampleReservation])
      (by norm_num [sampleReservation])⟩,
    h300.2.2.2.2.1 (by norm_num [sampleReservation]),
    (reservation_makePayment_spec (sampleReservation 10001 ReservationStatus.CONFIRMED)
      301).1.mpr (Or.inr (by norm_num [sampleReservation]))⟩

/-! ## E-mail and phone formats -/

/-- From an index at or past `pos`, `findFrom` returns the position of the first
occurrence. -/
theorem findFrom_eq_some (c : Char) :
    ∀ (l : List Char) (i pos : Nat), pos ≤ i → ∀ k,
      (Utils.findFrom c l i pos = some k ↔
        ∃ pre post, l = pre ++ c :: post ∧ c ∉ pre ∧ k = i + pre.length) := by
  intro l
  induction l with
  | nil =>
    intro i pos _ k
    simp [Utils.findFrom]
  | cons x xs ih =>
    intro i pos hpos k
    by_cases hx : x = c
    · subst hx
      simp only [Utils.findFrom, hpos, and_self, if_true, Option.some.injEq]
      constructor
      · intro hk
        exact ⟨[], xs, rfl, by simp, by simp [hk]⟩
      · rintro ⟨pre, post, hl, hnot, hk⟩
        cases pre with
        | nil => simp [hk]
        | cons y ys =>
          simp only [List.cons_append, List.cons.injEq] at hl
          exact absurd (by simp [hl.1]) hnot
    · simp only [Utils.findFrom, hx, and_false, if_false]
      rw [ih (i + 1) pos (by omega) k]
      constructor
      · rintro ⟨pre, post, hl, hnot, hk⟩
        refine ⟨x :: pre, post, by simp [hl], ?_, by simp [hk]; omega⟩
        simp only [List.mem_cons, not_or]
        exact ⟨fun h => hx h.symm, hnot⟩
      · rintro ⟨pre, post, hl, hnot, hk⟩
        cases pre with
        | nil =>
          simp only [List.nil_append, List.cons.injEq] at hl
          exact absurd hl.1 hx
        | cons y ys =>
          simp only [List.cons_append, List.cons.injEq] at hl
          refine ⟨ys, post, hl.2, ?_, by simp [hk]; omega⟩
          exact fun h => hnot (by simp [h])

/-- The characters before `pos` are skipped whatever they are. -/
theorem findFrom_skip (c : Char) (rest : List Char) :
    ∀ (pre : List Char) (i : Nat),
      Utils.findFrom c (pre ++ rest) i (i + pre.length) =
        Utils.findFrom c rest (i + pre.length) (i + pre.length) := by
  intro pre
  induction pre with
  | nil => intro i; simp
  | cons x xs ih =>
    intro i
    have hlt : ¬ (i + (xs.length + 1) ≤ i) := by omega
    simp only [List.cons_append, List.length_cons, Utils.findFrom, hlt, false_and, if_false]
    have := ih (i + 1)
    rw [show i + 1 + xs.length = i + (xs.length + 1) by omega] at this
    exact this

/-- C16 (as stated, refuted): `"a@.b"` contains an `'@'` (index 1) and a `'.'`
after it (index 2), and `isValidEmail` rejects it. -/
theorem isValidEmail_rejects_dot_right_after_at :
    "a@.b".data[1]? = some '@' ∧ "a@.b".data[2]? = some '.' ∧ 1 < 2 ∧
    Utils.isValidEmail "a@.b" = false := by
  decide

/-- C16 (amended): `isValidEmail` accepts a string exactly when it contains an
`'@'` and a `'.'` somewhere after the first `'@'`, with at least one character
between that `'@'` and the first `'.'` after it. -/
theorem isValidEmail_spec (email : String) :
    Utils.isValidEmail email = true ↔
      ∃ pre mid post, email.data = pre ++ '@' :: (mid ++ '.' :: post) ∧
        '@' ∉ pre ∧ '.' ∉ mid ∧ mid ≠ [] := by
  unfold Utils.isValidEmail
  constructor
  · intro h
    cases ha : Utils.findFrom '@' email.data 0 0 with
    | none => simp [ha] at h
    | some a =>
      obtain ⟨pre, rest, hl, hpre, hk⟩ :=
        (findFrom_eq_some '@' email.data 0 0 (le_refl _) a).mp ha
      have ha' : a = 0 + pre.length := hk
      cases hd : Utils.findFrom '.' email.data 0 a with
      | none => simp [ha, hd] at h
      | some d =>
        simp only [ha, hd, decide_eq_true_eq] at h
        have hd' := hd
        rw [hl, ha', findFrom_skip '.' ('@' :: rest) pre 0] at hd'
        obtain ⟨mid', post, hl2, hmid, hk2⟩ :=
          (findFrom_eq_some '.' ('@' :: rest) _ _ (le_refl _) d).mp hd'
        cases mid' with
        | nil => simp at hl2
        | cons y mid =>
          simp only [List.cons_append, List.cons.injEq] at hl2
          refine ⟨pre, mid, post, by rw [hl, hl2.2], hpre, ?_, ?_⟩
          · exact fun hm => hmid (by simp [hm])
          · intro hnil
            subst hnil
            simp only [List.length_cons, List.length_nil] at hk2
            omega
  · rintro ⟨pre, mid, post, hl, hpre, hmid, hne⟩
    have ha : Utils.findFrom '@' email.data 0 0 = some (0 + pre.length) :=
      (findFrom_eq_some '@' email.data 0 0 (le_refl _) _).mpr ⟨pre, _, hl, hpre, rfl⟩
    have hd : Utils.findFrom '.' email.data 0 (0 + pre.length) =
        some (0 + pre.length + ('@' :: mid).length) := by
      rw [hl, findFrom_skip '.' ('@' :: (mid ++ '.' :: post)) pre 0]
      refine (findFrom_eq_some '.' _ _ _ (le_refl _) _).mpr ⟨'@' :: mid, post, by simp, ?_, rfl⟩
      simp only [List.mem_cons, not_or]
      exact ⟨by decide, hmid⟩
    simp only [ha, hd, decide_eq_true_eq, List.length_cons]
    have : 0 < mid.length := List.length_pos.mpr hne
    omega

/-- C16 (amended) on the address of the integration test and on addresses that
miss one of the three conditions. -/
theorem isValidEmail_spec_witness :
    Utils.isValidEmail "test@email.com" = true ∧
    (∃ pre mid post, "test@email.com".data = pre ++ '@' :: (mid ++ '.' :: post) ∧
      '@' ∉ pre ∧ '.' ∉ mid ∧ mid ≠ []) ∧
    Utils.isValidEmail "test.email" = false ∧ Utils.isValidEmail "test@email" = false :=
  ⟨by decide, (isValidEmail_spec "test@email.com").mp (by decide), by decide, by decide⟩

/-! ## Customers -/

/-- The phone test, spelled out. -/
theorem isValidPhone_iff (phone : String) :
    Utils.isValidPhone phone = true ↔
      10 ≤ phone.length ∧
      ∀ c ∈ phone.data,
        c.isDigit = true ∨ c = '+' ∨ c = '-' ∨ c = ' ' ∨ c = '(' ∨ c = ')' := by
  have hchar : ∀ c : Char, Utils.isPhoneChar c = true ↔
      (c.isDigit = true ∨ c = '+' ∨ c = '-' ∨ c = ' ' ∨ c = '(' ∨ c = ')') := by
    intro c
    simp only [Utils.isPhoneChar, Bool.or_eq_true, beq_iff_eq, or_assoc]
  simp only [Utils.isValidPhone, Bool.and_eq_true, decide_eq_true_eq, List.all_eq_true,
    String.length, ge_iff_le, hchar]

/-- What the `Customer` constructor does with a positive id. -/
theorem customer_ctor_spec (id : Int) (n e p addr proof : String) (now : Int)
    (hid : 0 < id) :
    ((n ≠ "" ∧ addr ≠ "" ∧ proof ≠ "" ∧ Utils.isValidEmail e = true ∧
        Utils.isValidPhone p = true) →
      Customer.ctor id n e p addr proof now =
        .ok { customerId := id, name := n, email := e, phone := p, address := addr,
              idProof := proof, registrationDate := now, totalVisits := 0,
              totalSpent := 0 }) ∧
    (¬ (n ≠ "" ∧ addr ≠ "" ∧ proof ≠ "" ∧ Utils.isValidEmail e = true ∧
        Utils.isValidPhone p = true) →
      ∃ err, Customer.ctor id n e p addr proof now = .error err ∧
        err.isValidation = true) := by
  unfold Customer.ctor
  constructor
  · rintro ⟨h1, h2, h3, h4, h5⟩
    simp [not_le.mpr hid, h1, h2, h3, h4, h5]
  · intro h
    split_ifs with g1 g2 g3 g4 g5 g6
    · exact ⟨_, rfl, rfl⟩
    · exact ⟨_, rfl, rfl⟩
    · exact ⟨_, rfl, rfl⟩
    · exact ⟨_, rfl, rfl⟩
    · exact ⟨_, rfl, rfl⟩
    · exact ⟨_, rfl, rfl⟩
    · exfalso
      apply h
      refine ⟨g2, g5, g6, ?_, ?_⟩
      · simpa using g3
      · simpa using g4

/-- Every rejection by the `Customer` constructor is a `ValidationException`. -/
theorem customer_ctor_error_isValidation (id : Int) (n e p addr proof : String) (now : Int)
    (err : HotelException) (h : Customer.ctor id n e p addr proof now = .error err) :
    err.isValidation = true := by
  unfold Customer.ctor at h
  split_ifs at h <;> (cases h; rfl)

/-- C15 (as stated, refuted): on a store whose only customer has id -1 and whose
counter is 0, the name, address and id proof are non-empty, the e-mail and the
phone pass their checks, and `addCustomer` fails: the `Customer` constructor
rejects the id 0. On the empty store with seed 1001 the same arguments fail
when the customers file cannot be opened: `saveCustomers()` throws a
`FileException` after the customer was pushed. -/
theorem addCustomer_nonpositive_counter_fails :
    ("Test Customer" ≠ "" ∧ "Test Address" ≠ "" ∧ "TEST123" ≠ "" ∧
      Utils.isValidEmail "test@email.com" = true ∧
      Utils.isValidPhone "1234567890" = true) ∧
    (sampleDbCustomerCounterZero.addCustomer "Test Customer" "test@email.com" "1234567890"
        "Test Address" "TEST123" 0 writableFiles).1 =
      .error (.ValidationException "Customer ID must be positive") ∧
    (sampleDbCustomerCounterZero.addCustomer "Test Customer" "test@email.com" "1234567890"
        "Test Address" "TEST123" 0 writableFiles).2.customers =
      sampleDbCustomerCounterZero.customers ∧
    (emptyDb.addCustomer "Test Customer" "test@email.com" "1234567890"
        "Test Address" "TEST123" 0 noCustomersFile).1 =
      .error (.FileException "File Error: Cannot open customers file") ∧
    (emptyDb.addCustomer "Test Customer" "test@email.com" "1234567890"
        "Test Address" "TEST123" 0 noCustomersFile).2.customers = [sampleCustomer] := by
  decide

/-- C15 (amended): on a store whose next-customer counter is positive,
`addCustomer(name, email, phone, address, idProof)` succeeds exactly when name,
address and id proof are non-empty, the e-mail passes `isValidEmail`, the phone
has at least 10 characters, each a digit or one of `+ - space ( )`, and the
customers file can be opened. When the arguments meet these conditions one
customer is appended, with these fields, zero visits and zero spend, and the
call returns the counter's value, or throws the `FileException` of
`saveCustomers()` when the file cannot be opened. Every other failure is a
`ValidationException` and leaves the customer collection as before. -/
theorem addCustomer_spec (db : Database) (name email phone address idProof : String)
    (now : Int) (disk : DataFiles) (hpos : 0 < db.nextCustomerId) :
    ((∃ id, (db.addCustomer name email phone address idProof now disk).1 = .ok id) ↔
      ((name ≠ "" ∧ address ≠ "" ∧ idProof ≠ "" ∧ Utils.isValidEmail email = true ∧
        10 ≤ phone.length ∧
        ∀ c ∈ phone.data,
          c.isDigit = true ∨ c = '+' ∨ c = '-' ∨ c = ' ' ∨ c = '(' ∨ c = ')') ∧
        disk.customers = true)) ∧
    ((name ≠ "" ∧ address ≠ "" ∧ idProof ≠ "" ∧ Utils.isValidEmail email = true ∧
        10 ≤ phone.length ∧
        ∀ c ∈ phone.data,
          c.isDigit = true ∨ c = '+' ∨ c = '-' ∨ c = ' ' ∨ c = '(' ∨ c = ')') →
      (db.addCustomer name email phone address idProof now disk).2.customers =
        db.customers ++
          [{ customerId := db.nextCustomerId, name := name, email := email,
             phone := phone, address := address, idProof := idProof,
             registrationDate := now, totalVisits := 0, totalSpent := 0 }] ∧
      (disk.customers = true →
        (db.addCustomer name email phone address idProof now disk).1 =
          .ok db.nextCustomerId) ∧
      (disk.customers = false →
        (db.addCustomer name email phone address idProof now disk).1 =
          .error (.FileException (fileExceptionMessage "Cannot open customers file")))) ∧
    (¬ (name ≠ "" ∧ address ≠ "" ∧ idProof ≠ "" ∧ Utils.isValidEmail email = true ∧
        10 ≤ phone.length ∧
        ∀ c ∈ phone.data,
          c.isDigit = true ∨ c = '+' ∨ c = '-' ∨ c = ' ' ∨ c = '(' ∨ c = ')') →
      ∃ e, (db.addCustomer name email phone address idProof now disk).1 = .error e ∧
        e.isValidation = true ∧
        (db.addCustomer name email phone address idProof now disk).2.customers =
          db.customers) := by
  have hspec := customer_ctor_spec db.nextCustomerId name email phone address idProof now hpos
  rw [← isValidPhone_iff]
  by_cases hv : name ≠ "" ∧ address ≠ "" ∧ idProof ≠ "" ∧ Utils.isValidEmail email = true ∧
      Utils.isValidPhone phone = true
  · have hctor := hspec.1 hv
    have hout : db.addCustomer name email phone address idProof now disk =
        (afterSaves db.nextCustomerId [db.saveCustomers disk],
          { db with
            nextCustomerId := db.nextCustomerId + 1
            customers := db.customers ++
              [{ customerId := db.nextCustomerId, name := name, email := email,
                 phone := phone, address := address, idProof := idProof,
                 registrationDate := now, totalVisits := 0, totalSpent := 0 }] }) := by
      unfold Database.addCustomer
      rw [hctor]
      rfl
    rw [hout]
    cases hd : disk.customers with
    | true =>
      have hs : afterSaves db.nextCustomerId [db.saveCustomers disk] = .ok db.nextCustomerId := by
        simp [afterSaves, Database.saveCustomers, hd]
      rw [hs]
      refine ⟨⟨fun _ => ⟨hv, rfl⟩, fun _ => ⟨_, rfl⟩⟩, fun _ => ⟨rfl, fun _ => rfl, ?_⟩, ?_⟩
      · intro h; cases h
      · intro h; exact absurd hv h
    | false =>
      have hs : afterSaves db.nextCustomerId [db.saveCustomers disk] =
          .error (.FileException (fileExceptionMessage "Cannot open customers file")) := by
        simp [afterSaves, Database.saveCustomers, hd]
      rw [hs]
      refine ⟨⟨?_, ?_⟩, fun _ => ⟨rfl, ?_, fun _ => rfl⟩, ?_⟩
      · rintro ⟨id, hid⟩; cases hid
      · rintro ⟨_, h⟩; cases h
      · intro h; cases h
      · intro h; exact absurd hv h
  · obtain ⟨err, hctor, herr⟩ := hspec.2 hv
    have hout : db.addCustomer name email phone address idProof now disk =
        (.error err, { db with nextCustomerId := db.nextCustomerId + 1 }) := by
      unfold Database.addCustomer
      rw [hctor]
    rw [hout]
    refine ⟨⟨?_, fun h => absurd h.1 hv⟩, fun h => absurd h hv, fun _ => ⟨err, rfl, herr, rfl⟩⟩
    rintro ⟨id, hid⟩
    cases hid

/-- C15 (amended) on the empty store with the default seed and the customers
file writable: the customer of the integration test is added with id 1001, and
a phone of nine digits is refused. -/
theorem addCustomer_spec_witness :
    ((emptyDb.addCustomer "Test Customer" "test@email.com" "1234567890" "Test Address"
        "TEST123" 0 writableFiles).1 = .ok emptyDb.nextCustomerId ∧
      (emptyDb.addCustomer "Test Customer" "test@email.com" "1234567890" "Test Address"
        "TEST123" 0 writableFiles).2.customers =
        emptyDb.customers ++
          [{ customerId := emptyDb.nextCustomerId, name := "Test Customer",
             email := "test@email.com", phone := "1234567890", address := "Test Address",
             idProof := "TEST123", registrationDate := 0, totalVisits := 0,
             totalSpent := 0 }]) ∧
    ¬ (∃ id, (emptyDb.addCustomer "Test Customer" "test@email.com" "123456789"
        "Test Address" "TEST123" 0 writableFiles).1 = .ok id) := by
  have h := (addCustomer_spec emptyDb "Test Customer" "test@email.com" "1234567890"
    "Test Address" "TEST123" 0 writableFiles (by decide)).2.1
    ⟨by decide, by decide, by decide, by decide, by decide, by decide⟩
  have h9 := addCustomer_spec emptyDb "Test Customer" "test@email.com" "123456789"
    "Test Address" "TEST123" 0 writableFiles (by decide)
  refine ⟨⟨h.2.1 rfl, h.1⟩, ?_⟩
  intro hex
  have := (h9.1.mp hex).1.2.2.2.2.1
  revert this
  decide

/-! ## File codecs: rooms, customers, bills -/

/-- C17: the third room of the program's own sample data, a valid room with
the feature "Smart TV", is written as one line in which the features are
separated by spaces; read back into a fresh room, the five features are
"WiFi", "Smart", "TV", "AC", "Mini-bar" instead of the five written, and
"Jacuzzi" is left in the stream in front of the next record. -/
theorem room_roundtrip_splits_features :
    Room.ctor 103 RoomType.DELUXE 200 2 ["WiFi", "Smart TV", "AC", "Mini-bar", "Jacuzzi"] =
      .ok sampleRoomDeluxe ∧
    sampleRoomDeluxe.isValid = true ∧
    sampleRoomDeluxe.saveToFile =
      "103 2 1 200 2 5 WiFi Smart TV AC Mini-bar Jacuzzi \n".data ∧
    Room.loadFromFile Room.fresh (IStream.ofText sampleRoomDeluxe.saveToFile) =
      .done
        { roomNumber := 103, type := RoomType.DELUXE, status := RoomStatus.AVAILABLE,
          pricePerNight := 200, capacity := 2,
          features := ["WiFi", "Smart", "TV", "AC", "Mini-bar"] }
        { buf := " Jacuzzi \n".data, eof := false, fail := false } := by
  refine ⟨by decide, by decide, by decide, by decide⟩

/-- C18: the customer of the integration test is written with spaces between
the fields and read back with `'|'` as the delimiter of the five text fields.
Read into a fresh customer (made at time 5), the name is the whole rest of the
text, the other text fields stay empty and the registration date stays that of
the fresh object. -/
theorem customer_roundtrip_reads_past_fields :
    Customer.ctor 1001 "Test Customer" "test@email.com" "1234567890" "Test Address"
      "TEST123" 0 = .ok sampleCustomer ∧
    sampleCustomer.saveToFile =
      "1001 Test Customer test@email.com 1234567890 Test Address TEST123 0 0 0\n".data ∧
    Customer.loadFromFile (Customer.fresh 5) (IStream.ofText sampleCustomer.saveToFile) =
      ({ customerId := 1001,
         name := "Test Customer test@email.com 1234567890 Test Address TEST123 0 0 0\n",
         email := "", phone := "", address := "", idProof := "",
         registrationDate := 5, totalVisits := 0, totalSpent := 0 },
       { buf := [], eof := true, fail := true }) := by
  refine ⟨by decide, by decide, by decide⟩

unseal Rat.inv Rat.mul in
/-- C19: the unpaid bill of the specification's scenario has an empty payment
method, so its header holds two spaces in a row and the reader takes the
payment date for the method, the item count for the date and fails on the item
count: the bill read back has method "0", date 1 and no item. The same bill
paid by "Cash" is read back with its header intact and no item: the first turn
of the item loop reads the rest of the header line. -/
theorem bill_roundtrip_loses_fields :
    (sampleBill false).saveToFile = "5001 10001 0.1 0 0  0 1\nRoom Charge|100|3\n".data ∧
    Bill.loadFromFile Bill.fresh (IStream.ofText (sampleBill false).saveToFile) =
      .done
        { billId := 5001, reservationId := 10001, items := [], taxRate := 1 / 10,
          discount := 0, paymentMethod := "0", paymentDate := 1, isPaid := false }
        { buf := "Room Charge|100|3\n".data, eof := false, fail := true } ∧
    sampleBillPaid.saveToFile = "5001 10001 0.1 0 1 Cash 1000 1\nRoom Charge|100|3\n".data ∧
    Bill.loadFromFile Bill.fresh (IStream.ofText sampleBillPaid.saveToFile) =
      .done { sampleBillPaid with items := [] }
        { buf := "Room Charge|100|3\n".data, eof := false, fail := false } := by
  refine ⟨by decide, by decide, by decide, by decide⟩

/-! ## File codec: employees -/

unseal Rat.inv Rat.mul in
/-- C20 (code at three employees that the validating constructor builds): they
are not read back as written. With a `'|'` in the address the tokens after it
move one place: the address is cut, the join date is the rest of the address,
the e-mail is the join date and the password is the e-mail. With a line break in
the address the line read has fewer than eleven tokens and the object is left
as it was. A salary of 12500.75 is written as `12500.8` and read back as
12500.8. -/
theorem employee_roundtrip_fails :
    (Employee.ctor 201 "Test Employee" "Receptionist" Department.FRONT_DESK Shift.MORNING
        2500 "9876543210" "Suite 5|B Street" "2024-01-15" = .ok sampleEmployeePipe ∧
      Employee.loadFromFile Employee.fresh (IStream.ofText sampleEmployeePipe.saveToFile) =
        .done
          { sampleEmployee with
            address := "Suite 5", joinDate := "B Street", email := "2024-01-15",
            password := "test@hotel.com" }
          (IStream.ofText [])) ∧
    (Employee.ctor 201 "Test Employee" "Receptionist" Department.FRONT_DESK Shift.MORNING
        2500 "9876543210" "Suite 5\nB Street" "2024-01-15" = .ok sampleEmployeeTwoLines ∧
      Employee.loadFromFile Employee.fresh
          (IStream.ofText sampleEmployeeTwoLines.saveToFile) =
        .done Employee.fresh
          (IStream.ofText "B Street|2024-01-15|test@hotel.com|default123\n".data)) ∧
    (Employee.ctor 201 "Test Employee" "Receptionist" Department.FRONT_DESK Shift.MORNING
        (1250075 / 100) "9876543210" "Emp Address" "2024-01-15" =
        .ok sampleEmployeeSalary ∧
      sampleEmployeeSalary.saveToFile =
        ("201|Test Employee|Receptionist|1|1|12500.8|9876543210|Emp Address|2024-01-15|" ++
          "test@hotel.com|default123\n").data ∧
      Employee.loadFromFile Employee.fresh (IStream.ofText sampleEmployeeSalary.saveToFile) =
        .done { sampleEmployee with salary := 125008 / 10 } (IStream.ofText [])) := by
  refine ⟨⟨by decide, by decide⟩, ⟨by decide, by decide⟩, ⟨by decide, by decide, by decide⟩⟩

/-! ## Id counters -/

/-- C21 (code at a rooms file that lists room 105 before room 102): on a fresh
store `loadAllData` leaves the room counter at 103, one more than the last room
number and not one more than the highest; the next three calls of `addRoom`
return 103, 104 and 105, and the store then holds two rooms numbered 105. -/
theorem loadAllData_counter_follows_last_record :
    sampleDbReloaded.rooms.map Room.roomNumber = [105, 102] ∧
    sampleDbReloaded.nextRoomNumber = 103 ∧
    (sampleDbReloaded.addRoom RoomType.STANDARD 100 2 [] writableFiles).1 = .ok 103 ∧
    (sampleDbReloadedGrown.addRoom RoomType.STANDARD 100 2 [] writableFiles).1 = .ok 105 ∧
    (sampleDbReloadedGrown.addRoom RoomType.STANDARD 100 2 []
      writableFiles).2.rooms.map Room.roomNumber = [105, 102, 103, 104, 105] := by
  decide

theorem idsOrdered_skip (ids : List Int) (next : Int) (h : IdsOrdered ids next) :
    IdsOrdered ids (next + 1) := by
  obtain ⟨h1, h2, h3, h4⟩ := h
  refine ⟨h1, h2, ?_, by omega⟩
  intro i hi
  have := h3 i hi
  omega

theorem idsOrdered_push (ids : List Int) (next : Int) (h : IdsOrdered ids next) :
    IdsOrdered (ids ++ [next]) (next + 1) := by
  obtain ⟨h1, _, h3, h4⟩ := h
  have hp : (ids ++ [next]).Pairwise (· < ·) := by
    rw [List.pairwise_append]
    refine ⟨h1, List.pairwise_singleton _ _, ?_⟩
    intro a ha b hb
    have hb2 : b = next := by simpa using hb
    have := h3 a ha
    omega
  refine ⟨hp, hp.imp (fun hab => ne_of_lt hab), ?_, by omega⟩
  intro i hi
  rcases List.mem_append.mp hi with hi | hi
  · have := h3 i hi
    omega
  · have hi2 : i = next := by simpa using hi
    omega

theorem modifyFirst_map {α β : Type} (p : α → Bool) (f : α → α) (g : α → β)
    (hg : ∀ x, g (f x) = g x) (l : List α) : (modifyFirst p f l).map g = l.map g := by
  induction l with
  | nil => rfl
  | cons a t ih =>
    unfold modifyFirst
    split_ifs
    · simp [hg]
    · simp [ih]

theorem room_ctor_number (n : Int) (t : RoomType) (price : ℚ) (cap : Int) (feat : List String)
    (r : Room) (h : Room.ctor n t price cap feat = .ok r) : r.roomNumber = n := by
  unfold Room.ctor at h
  split_ifs at h
  cases h
  rfl

theorem customer_ctor_id (id : Int) (n e p addr proof : String) (now : Int) (c : Customer)
    (h : Customer.ctor id n e p addr proof now = .ok c) : c.customerId = id := by
  unfold Customer.ctor at h
  split_ifs at h
  cases h
  rfl

theorem employee_ctor_id (id : Int) (n pos : String) (dept : Department) (sh : Shift)
    (sal : ℚ) (contact addr joinDt : String) (e : Employee)
    (h : Employee.ctor id n pos dept sh sal contact addr joinDt = .ok e) :
    e.employeeId = id := by
  unfold Employee.ctor at h
  split_ifs at h
  cases h
  rfl

theorem reservation_ctor_id (resId custId roomNo checkIn checkOut guests : Int) (rate : ℚ)
    (now : Int) (r : Reservation)
    (h : Reservation.ctor resId custId roomNo checkIn checkOut guests rate now = .ok r) :
    r.reservationId = resId := by
  unfold Reservation.ctor at h
  simp only [] at h
  split_ifs at h
  cases h
  rfl

theorem bill_ctor_id (id resId : Int) (tax disc : ℚ) (b : Bill)
    (h : Bill.ctor id resId tax disc = .ok b) : b.billId = id := by
  unfold Bill.ctor at h
  split_ifs at h
  cases h
  rfl

theorem call_idsOrdered (db : Database) (c : StoreCall) (h : db.IdsOrdered) :
    (db.call c).IdsOrdered := by
  obtain ⟨hr, hc, he, hv, hb⟩ := h
  cases c with
  | addRoom t p cap f =>
    simp only [Database.call, Database.addRoom]
    cases hk : Room.ctor db.nextRoomNumber t p cap f with
    | error e => exact ⟨idsOrdered_skip _ _ hr, hc, he, hv, hb⟩
    | ok r =>
      refine ⟨?_, hc, he, hv, hb⟩
      simp only [List.map_append, List.map_cons, List.map_nil,
        room_ctor_number _ _ _ _ _ _ hk]
      exact idsOrdered_push _ _ hr
  | addCustomer n e p a i now =>
    simp only [Database.call, Database.addCustomer]
    cases hk : Customer.ctor db.nextCustomerId n e p a i now with
    | error e => exact ⟨hr, idsOrdered_skip _ _ hc, he, hv, hb⟩
    | ok r =>
      refine ⟨hr, ?_, he, hv, hb⟩
      simp only [List.map_append, List.map_cons, List.map_nil,
        customer_ctor_id _ _ _ _ _ _ _ _ hk]
      exact idsOrdered_push _ _ hc
  | addEmployee n pos d sh sal ct a j =>
    simp only [Database.call, Database.addEmployee]
    cases hk : Employee.ctor db.nextEmployeeId n pos d sh sal ct a j with
    | error e => exact ⟨hr, hc, idsOrdered_skip _ _ he, hv, hb⟩
    | ok r =>
      refine ⟨hr, hc, ?_, hv, hb⟩
      simp only [List.map_append, List.map_cons, List.map_nil,
        employee_ctor_id _ _ _ _ _ _ _ _ _ _ hk]
      exact idsOrdered_push _ _ he
  | makeReservation cu ro i o g q now =>
    simp only [Database.call, Database.makeReservation]
    cases hcu : db.findCustomer cu with
    | none => exact ⟨hr, hc, he, hv, hb⟩
    | some cust =>
      cases hro : db.findRoom ro with
      | none => exact ⟨hr, hc, he, hv, hb⟩
      | some room =>
        cases hk : Reservation.ctor db.nextReservationId cu ro i o g room.pricePerNight now with
        | error e =>
          simp only [hk]
          split_ifs <;> first
            | exact ⟨hr, hc, he, hv, hb⟩
            | exact ⟨hr, hc, he, idsOrdered_skip _ _ hv, hb⟩
        | ok r =>
          have hid := reservation_ctor_id _ _ _ _ _ _ _ _ _ hk
          have hrooms : IdsOrdered
              ((modifyFirst (fun r => r.roomNumber == ro)
                (fun r : Room => r.setStatus RoomStatus.RESERVED) db.rooms).map Room.roomNumber)
              db.nextRoomNumber := by
            rw [modifyFirst_map _ (fun r : Room => r.setStatus RoomStatus.RESERVED)
              Room.roomNumber (fun _ => rfl)]
            exact hr
          have hpush := idsOrdered_push _ _ hv
          simp only [hk]
          split_ifs
          · exact ⟨hr, hc, he, hv, hb⟩
          · exact ⟨hr, hc, he, hv, hb⟩
          · refine ⟨hrooms, hc, he, ?_, hb⟩
            simp only [List.map_append, List.map_cons, List.map_nil,
              Reservation.setSpecialRequests, hid]
            exact hpush
          · refine ⟨hrooms, hc, he, ?_, hb⟩
            simp only [List.map_append, List.map_cons, List.map_nil, hid]
            exact hpush
  | createBill rid t d =>
    simp only [Database.call, Database.createBill]
    cases hf : db.findReservation rid with
    | none => exact ⟨hr, hc, he, hv, hb⟩
    | some res =>
      simp only []
      cases hk : Bill.ctor db.nextBillId rid t d with
      | error e => exact ⟨hr, hc, he, hv, idsOrdered_skip _ _ hb⟩
      | ok r =>
        refine ⟨hr, hc, he, hv, ?_⟩
        simp only [List.map_append, List.map_cons, List.map_nil, bill_ctor_id _ _ _ _ _ hk]
        exact idsOrdered_push _ _ hb

theorem calls_idsOrdered (cs : List StoreCall) :
    ∀ db : Database, db.IdsOrdered → (db.calls cs).IdsOrdered := by
  induction cs with
  | nil => intro db h; exact h
  | cons c t ih =>
    intro db h
    exact ih (db.call c) (call_idsOrdered db c h)

/-- C22: from the store with no entities and the seeded counters, after any
sequence of `addRoom`, `addCustomer`, `addEmployee`, `makeReservation` and
`createBill` calls, returning or throwing, the ids of each collection are
positive, strictly increasing in insertion order, pairwise distinct and below
the counter of the collection. -/
theorem store_ids_ordered (cs : List StoreCall) : (emptyDb.calls cs).IdsOrdered := by
  apply calls_idsOrdered
  unfold Database.IdsOrdered IdsOrdered emptyDb
  simp

/-! ## Room price and reservations -/

/-- An operation that returns after its saves returns the value it had. -/
theorem afterSaves_value {α : Type} (value w : α) :
    ∀ saves : List (Except HotelException Bool), afterSaves value saves = .ok w → w = value := by
  intro saves
  induction saves with
  | nil => intro h; simp only [afterSaves, Except.ok.injEq] at h; exact h.symm
  | cons a t ih =>
    intro h
    cases a with
    | error e => simp [afterSaves] at h
    | ok b => simp only [afterSaves] at h; exact ih h

theorem modifyRoom_reservations (db : Database) (n : Int) (p : ℚ) (f : List String)
    (disk : DataFiles) : (db.modifyRoom n p f disk).2.reservations = db.reservations := by
  unfold Database.modifyRoom
  cases db.findRoom n with
  | none => rfl
  | some room =>
    simp only []
    cases (room.setPrice p).1 <;> rfl

theorem modifyRooms_reservations (ms : List (Int × ℚ × List String × DataFiles)) :
    ∀ db : Database, (db.modifyRooms ms).reservations = db.reservations := by
  induction ms with
  | nil => intro db; rfl
  | cons m t ih =>
    intro db
    show (Database.modifyRooms (db.modifyRoom m.1 m.2.1 m.2.2.1 m.2.2.2).2 t).reservations = _
    rw [ih, modifyRoom_reservations]

theorem reservation_ctor_rate (resId custId roomNo checkIn checkOut guests : Int) (rate : ℚ)
    (now : Int) (r : Reservation)
    (h : Reservation.ctor resId custId roomNo checkIn checkOut guests rate now = .ok r) :
    r.roomRate = rate ∧ r.totalAmount = rate * (Utils.daysBetween checkIn checkOut : ℚ) := by
  unfold Reservation.ctor at h
  simp only [] at h
  split_ifs at h
  cases h
  exact ⟨rfl, rfl⟩

/-- C23: when `makeReservation` returned the id `rid`, it appended one
reservation with that id, whose rate is the price that the room found had at
that moment and whose total is that rate times the nights; after any sequence
of later `modifyRoom` calls, whatever room, price and features they name and
whether they return or throw, the reservations of the store are the same
records, so that rate and total are as they were at booking time. -/
theorem modifyRoom_keeps_rate (db : Database)
    (customerId roomNumber checkIn checkOut guests : Int) (requests : String) (now : Int)
    (disk : DataFiles) (rid : Int)
    (hok : (db.makeReservation customerId roomNumber checkIn checkOut guests requests now
      disk).1 = .ok rid)
    (ms : List (Int × ℚ × List String × DataFiles)) :
    ∃ room r, db.findRoom roomNumber = some room ∧
      (db.makeReservation customerId roomNumber checkIn checkOut guests requests
        now disk).2.reservations = db.reservations ++ [r] ∧
      r.reservationId = rid ∧ r.roomRate = room.pricePerNight ∧
      r.totalAmount = room.pricePerNight * (Utils.daysBetween checkIn checkOut : ℚ) ∧
      ((db.makeReservation customerId roomNumber checkIn checkOut guests requests
        now disk).2.modifyRooms ms).reservations = db.reservations ++ [r] := by
  rw [modifyRooms_reservations]
  unfold Database.makeReservation at hok ⊢
  cases hcu : db.findCustomer customerId with
  | none => rw [hcu] at hok; cases hok
  | some cust =>
    rw [hcu] at hok
    cases hro : db.findRoom roomNumber with
    | none => rw [hro] at hok; cases hok
    | some room =>
      rw [hro] at hok
      simp only [] at hok ⊢
      cases hk : Reservation.ctor db.nextReservationId customerId roomNumber checkIn checkOut
          guests room.pricePerNight now with
      | error e =>
        simp only [hk] at hok
        split_ifs at hok
      | ok created =>
        have hf := reservation_ctor_rate _ _ _ _ _ _ _ _ _ hk
        simp only [hk] at hok ⊢
        split_ifs at hok ⊢ with h1 h2 h3
        · have hid := afterSaves_value _ _ _ hok
          exact ⟨room, created.setSpecialRequests requests, rfl, rfl, hid.symm, hf.1, hf.2, rfl⟩
        · have hid := afterSaves_value _ _ _ hok
          exact ⟨room, created, rfl, rfl, hid.symm, hf.1, hf.2, rfl⟩

/-- C23 at the sample store: room 101 is booked at 100 a night for three nights,
then its price is set to 250; the room shows the new price and the reservation
keeps rate 100 and total 300. -/
theorem modifyRoom_keeps_rate_witness :
    (sampleDb.makeReservation 1001 101 86400 345600 2 "" 0 writableFiles).1 = .ok 10001 ∧
    (((sampleDb.makeReservation 1001 101 86400 345600 2 "" 0 writableFiles).2.modifyRooms
      [(101, 250, ["Sea view"], writableFiles)]).findRoom 101).map Room.pricePerNight
      = some 250 ∧
    ∃ room r, sampleDb.findRoom 101 = some room ∧
      (sampleDb.makeReservation 1001 101 86400 345600 2 "" 0 writableFiles).2.reservations
        = sampleDb.reservations ++ [r] ∧
      r.reservationId = 10001 ∧ r.roomRate = room.pricePerNight ∧
      r.totalAmount = room.pricePerNight * (Utils.daysBetween 86400 345600 : ℚ) ∧
      ((sampleDb.makeReservation 1001 101 86400 345600 2 "" 0 writableFiles).2.modifyRooms
        [(101, 250, ["Sea view"], writableFiles)]).reservations = sampleDb.reservations ++ [r] :=
  ⟨by decide, by decide,
    modifyRoom_keeps_rate sampleDb 1001 101 86400 345600 2 "" 0 writableFiles 10001
      (by decide) [(101, 250, ["Sea view"], writableFiles)]⟩

/-! ## Searches -/

theorem positionsWhere_spec {α : Type} (p : α → Bool) :
    ∀ (l : List α) (i : Nat),
      (positionsWhere p l i).Pairwise (· < ·) ∧
      ∀ k, k ∈ positionsWhere p l i ↔ i ≤ k ∧ ∃ x, l[k - i]? = some x ∧ p x = true := by
  intro l
  induction l with
  | nil => intro i; simp [positionsWhere]
  | cons a t ih =>
    intro i
    obtain ⟨hs, hm⟩ := ih (i + 1)
    have hstep : ∀ k, i + 1 ≤ k → (a :: t)[k - i]? = t[k - (i + 1)]? := by
      intro k hk
      have : k - i = (k - (i + 1)) + 1 := by omega
      rw [this, List.getElem?_cons_succ]
    have hrest : ∀ k, k ∈ positionsWhere p t (i + 1) ↔
        i + 1 ≤ k ∧ ∃ x, (a :: t)[k - i]? = some x ∧ p x = true := by
      intro k
      rw [hm k]
      constructor
      · rintro ⟨h1, h2⟩; exact ⟨h1, by rw [hstep k h1]; exact h2⟩
      · rintro ⟨h1, h2⟩; exact ⟨h1, by rw [← hstep k h1]; exact h2⟩
    unfold positionsWhere
    by_cases hp : p a = true
    · rw [if_pos hp]
      refine ⟨List.pairwise_cons.mpr ⟨?_, hs⟩, ?_⟩
      · intro k hk
        have := ((hm k).mp hk).1
        omega
      · intro k
        rw [List.mem_cons, hrest k]
        constructor
        · rintro (rfl | ⟨h1, h2⟩)
          · exact ⟨le_refl _, a, by simp, hp⟩
          · exact ⟨by omega, h2⟩
        · rintro ⟨h1, h2⟩
          by_cases hk : k = i
          · exact Or.inl hk
          · exact Or.inr ⟨by omega, h2⟩
    · rw [if_neg hp]
      refine ⟨hs, ?_⟩
      intro k
      rw [hrest k]
      constructor
      · rintro ⟨h1, h2⟩; exact ⟨by omega, h2⟩
      · rintro ⟨h1, x, h2, h3⟩
        by_cases hk : k = i
        · subst hk
          simp at h2
          subst h2
          exact absurd h3 hp
        · exact ⟨by omega, x, h2, h3⟩

theorem positionsWhere_congr {α : Type} (p q : α → Bool) :
    ∀ (l : List α) (i : Nat), (∀ x ∈ l, p x = q x) →
      positionsWhere p l i = positionsWhere q l i := by
  intro l
  induction l with
  | nil => intro i _; rfl
  | cons a t ih =>
    intro i h
    unfold positionsWhere
    rw [h a (by simp), ih (i + 1) (fun x hx => h x (by simp [hx]))]

/-- C24: `findAvailableRooms(type, capacity)` returns positions of the room
vector in increasing order, none twice, and a position is returned exactly when
the room there has status `AVAILABLE`, capacity at least `capacity` and type
`type`. -/
theorem findAvailableRooms_spec (db : Database) (type : RoomType) (capacity : Int) :
    (db.findAvailableRooms type capacity).Pairwise (· < ·) ∧
    (db.findAvailableRooms type capacity).Nodup ∧
    ∀ k, k ∈ db.findAvailableRooms type capacity ↔
      ∃ room, db.rooms[k]? = some room ∧ room.status = RoomStatus.AVAILABLE ∧
        room.capacity ≥ capacity ∧ room.type = type := by
  obtain ⟨hs, hm⟩ := positionsWhere_spec
    (fun room : Room =>
      room.type == type && decide (room.capacity ≥ capacity) && room.isAvailable) db.rooms 0
  refine ⟨hs, hs.imp (fun hab => ne_of_lt hab), ?_⟩
  intro k
  unfold Database.findAvailableRooms
  rw [hm k]
  simp only [Nat.zero_le, true_and, Nat.sub_zero, Room.isAvailable, Bool.and_eq_true,
    beq_iff_eq, decide_eq_true_eq]
  constructor
  · rintro ⟨x, h1, ⟨h2, h3⟩, h4⟩; exact ⟨x, h1, h4, h3, h2⟩
  · rintro ⟨x, h1, h4, h3, h2⟩; exact ⟨x, h1, ⟨h2, h3⟩, h4⟩

theorem find_isSome_iff (needle : List Char) :
    ∀ (hay : List Char) (i : Nat), (Utils.find needle hay i).isSome = true ↔ needle <:+: hay := by
  intro hay
  induction hay with
  | nil =>
    intro i
    unfold Utils.find
    cases needle with
    | nil => simp
    | cons a t => simp
  | cons c rest ih =>
    intro i
    unfold Utils.find
    by_cases hp : needle.isPrefixOf (c :: rest) = true
    · rw [if_pos hp]
      simp only [Option.isSome_some, true_iff]
      exact (List.isPrefixOf_iff_prefix.mp hp).isInfix
    · rw [if_neg hp, ih (i + 1), List.infix_cons_iff]
      constructor
      · intro h; exact Or.inr h
      · rintro (h | h)
        · exact absurd (List.isPrefixOf_iff_prefix.mpr h) hp
        · exact h

theorem phoneChar_not_upper (n : Nat) (h1 : 65 ≤ n) (h2 : n ≤ 90) :
    Utils.isPhoneChar (Char.ofNat n) = false ∧ Utils.isPhoneChar (Char.ofNat (n + 32)) = false := by
  interval_cases n <;> decide

theorem toLower_phoneChar (c : Char) (h : Utils.isPhoneChar c = true) : c.toLower = c := by
  unfold Char.toLower
  simp only
  split_ifs with hup
  · have := (phoneChar_not_upper c.toNat hup.1 hup.2).1
    rw [Char.ofNat_toNat] at this
    rw [this] at h
    cases h
  · rfl

theorem toLower_fixed_of_phoneChar (c : Char) (h : Utils.isPhoneChar c.toLower = true) :
    c.toLower = c := by
  unfold Char.toLower at h ⊢
  simp only at h ⊢
  split_ifs at h ⊢ with hup
  · rw [(phoneChar_not_upper c.toNat hup.1 hup.2).2] at h
    cases h
  · rfl

theorem map_toLower_fixed (l : List Char) (h : ∀ c ∈ l, c.toLower = c) :
    l.map Char.toLower = l := by
  induction l with
  | nil => rfl
  | cons a t ih =>
    rw [List.map_cons, h a (by simp), ih (fun c hc => h c (by simp [hc]))]

theorem infix_phone_eq (k1 k2 phone : List Char)
    (hphone : ∀ c ∈ phone, Utils.isPhoneChar c = true)
    (hcase : k1.map Char.toLower = k2.map Char.toLower) (h : k1 <:+: phone) : k2 = k1 := by
  have h1 : ∀ c ∈ k1, Utils.isPhoneChar c = true := fun c hc => hphone c (h.subset hc)
  have hk1 : k1.map Char.toLower = k1 := map_toLower_fixed k1 (fun c hc => toLower_phoneChar c (h1 c hc))
  have hk2 : k2.map Char.toLower = k2 := by
    apply map_toLower_fixed
    intro c hc
    apply toLower_fixed_of_phoneChar
    have : c.toLower ∈ k1 := by
      rw [← hk1, hcase]
      exact List.mem_map_of_mem _ hc
    exact h1 _ this
  rw [← hk2, ← hcase, hk1]

/-- C25: `searchCustomers(keyword)` returns positions of the customer vector in
increasing order, and a position is returned exactly when the lower-cased
keyword occurs in the lower-cased name or in the lower-cased e-mail of the
customer there, or the keyword as given occurs in the phone; when every
customer of the store passes `isValid`, a keyword that differs from `keyword`
only in letter case returns the same positions. -/
theorem searchCustomers_spec (db : Database) (keyword : String) :
    (db.searchCustomers keyword).Pairwise (· < ·) ∧
    (∀ k, k ∈ db.searchCustomers keyword ↔
      ∃ c, db.customers[k]? = some c ∧
        (keyword.data.map Char.toLower <:+: c.name.data.map Char.toLower ∨
         keyword.data.map Char.toLower <:+: c.email.data.map Char.toLower ∨
         keyword.data <:+: c.phone.data)) ∧
    ∀ other : String, (∀ c ∈ db.customers, c.isValid = true) →
      other.data.map Char.toLower = keyword.data.map Char.toLower →
      db.searchCustomers other = db.searchCustomers keyword := by
  refine ⟨?_, ?_, ?_⟩
  · exact (positionsWhere_spec _ db.customers 0).1
  · intro k
    unfold Database.searchCustomers
    rw [(positionsWhere_spec _ db.customers 0).2 k]
    simp only [Nat.zero_le, true_and, Nat.sub_zero, Bool.or_eq_true, find_isSome_iff,
      Utils.toLower, or_assoc]
  · intro other hvalid hcase
    unfold Database.searchCustomers
    apply positionsWhere_congr
    intro c hc
    have hkey : Utils.toLower other = Utils.toLower keyword := by
      unfold Utils.toLower
      rw [hcase]
    have hphone : ∀ x ∈ c.phone.data, Utils.isPhoneChar x = true := by
      have hv := hvalid c hc
      simp only [Customer.isValid, Utils.isValidPhone, Bool.and_eq_true, List.all_eq_true] at hv
      exact hv.1.1.2.2
    have hfind : (Utils.find other.data c.phone.data 0).isSome
        = (Utils.find keyword.data c.phone.data 0).isSome := by
      rw [Bool.eq_iff_iff, find_isSome_iff, find_isSome_iff]
      constructor
      · intro h
        rw [infix_phone_eq other.data keyword.data c.phone.data hphone hcase h]
        exact h
      · intro h
        rw [infix_phone_eq keyword.data other.data c.phone.data hphone hcase.symm h]
        exact h
    simp only [hkey, hfind]

/-- C25 at the sample store: `TEST` and `test` both return the position of the
customer named `Test Customer`. -/
theorem searchCustomers_spec_witness :
    sampleDb.searchCustomers "TEST" = sampleDb.searchCustomers "test" ∧
    sampleDb.searchCustomers "test" = [0] :=
  ⟨(searchCustomers_spec sampleDb "test").2.2 "TEST" (by decide) (by decide), by decide⟩

/-! ## Customer visits -/

theorem updateInfo_eq (c : Customer) (p e a : String) :
    c.updateInfo p e a =
      if Utils.isValidPhone p = false then
        (.error (.ValidationException "Invalid phone number"), c)
      else if Utils.isValidEmail e = false then
        (.error (.ValidationException "Invalid email format"), { c with phone := p })
      else if a = "" then
        (.error (.ValidationException "Address cannot be empty"),
          { c with phone := p, email := e })
      else (.ok (), { c with phone := p, email := e, address := a }) := by
  unfold Customer.updateInfo Customer.setPhone Customer.setEmail Customer.setAddress
  cases hp : Utils.isValidPhone p <;> cases he : Utils.isValidEmail e <;>
    by_cases ha : a = "" <;> simp [ha]

theorem call_visits (c : Customer) (call : CustomerCall) :
    c.totalVisits ≤ (c.call call).totalVisits ∧ c.totalSpent ≤ (c.call call).totalSpent ∧
    (call.isAddVisit = false →
      (c.call call).totalVisits = c.totalVisits ∧ (c.call call).totalSpent = c.totalSpent) := by
  cases call with
  | setName s =>
    simp only [Customer.call, Customer.setName]
    split_ifs <;> simp
  | setEmail s =>
    simp only [Customer.call, Customer.setEmail]
    split_ifs <;> simp
  | setPhone s =>
    simp only [Customer.call, Customer.setPhone]
    split_ifs <;> simp
  | setAddress s =>
    simp only [Customer.call, Customer.setAddress]
    split_ifs <;> simp
  | setIdProof s =>
    simp only [Customer.call, Customer.setIdProof]
    split_ifs <;> simp
  | updateInfo p e a =>
    simp only [Customer.call, updateInfo_eq]
    split_ifs <;> simp
  | addVisit amount =>
    simp only [Customer.call, Customer.addVisit, CustomerCall.isAddVisit]
    split_ifs with h
    · simp
    · have : 0 ≤ amount := not_lt.mp h
      simp [this]

theorem calls_visits (cs : List CustomerCall) :
    ∀ c : Customer,
      c.totalVisits ≤ (c.calls cs).totalVisits ∧ c.totalSpent ≤ (c.calls cs).totalSpent ∧
      ((∀ x ∈ cs, x.isAddVisit = false) →
        (c.calls cs).totalVisits = c.totalVisits ∧ (c.calls cs).totalSpent = c.totalSpent) := by
  induction cs with
  | nil => intro c; exact ⟨le_refl _, le_refl _, fun _ => ⟨rfl, rfl⟩⟩
  | cons x t ih =>
    intro c
    obtain ⟨h1, h2, h3⟩ := call_visits c x
    obtain ⟨i1, i2, i3⟩ := ih (c.call x)
    refine ⟨le_trans h1 i1, le_trans h2 i2, ?_⟩
    intro hall
    have hx := h3 (hall x (by simp))
    have ht := i3 (fun y hy => hall y (by simp [hy]))
    exact ⟨ht.1.trans hx.1, ht.2.trans hx.2⟩

/-- C26: `addVisit(amount)` with `amount ≥ 0` returns and adds 1 to the visit
count and `amount` to the lifetime spend, every other member as it was; with
`amount < 0` it throws a `ValidationException` and the customer is as it was;
after any sequence of calls of `setName`, `setEmail`, `setPhone`, `setAddress`,
`setIdProof`, `updateInfo` and `addVisit`, returning or throwing, neither value
is lower than before, and both are what they were when no call of the sequence
is `addVisit`. -/
theorem customer_visits_spec (c : Customer) :
    (∀ amount : ℚ, 0 ≤ amount →
      c.addVisit amount = (.ok (),
        { c with totalVisits := c.totalVisits + 1, totalSpent := c.totalSpent + amount })) ∧
    (∀ amount : ℚ, amount < 0 →
      c.addVisit amount = (.error (.ValidationException "Amount cannot be negative"), c)) ∧
    ∀ cs : List CustomerCall,
      c.totalVisits ≤ (c.calls cs).totalVisits ∧ c.totalSpent ≤ (c.calls cs).totalSpent ∧
      ((∀ x ∈ cs, x.isAddVisit = false) →
        (c.calls cs).totalVisits = c.totalVisits ∧ (c.calls cs).totalSpent = c.totalSpent) := by
  refine ⟨?_, ?_, fun cs => calls_visits cs c⟩
  · intro amount h
    unfold Customer.addVisit
    rw [if_neg (not_lt.mpr h)]
  · intro amount h
    unfold Customer.addVisit
    rw [if_pos h]

/-- C26 at the sample customer: a visit of 50 is recorded, and a change of name
and a rejected update of the contact data leave the visit count at 0. -/
theorem customer_visits_spec_witness :
    sampleCustomer.addVisit 50 = (.ok (),
      { sampleCustomer with totalVisits := 0 + 1, totalSpent := 0 + 50 }) ∧
    (sampleCustomer.calls [.setName "New Name", .updateInfo "0987654321" "bad" "Here"]).totalVisits
      = 0 :=
  ⟨(customer_visits_spec sampleCustomer).1 50 (by norm_num),
    (((customer_visits_spec sampleCustomer).2.2
      [.setName "New Name", .updateInfo "0987654321" "bad" "Here"]).2.2 (by decide)).1⟩

/-! ## Lookups of absent ids -/

/-- C27 (as stated, refuted): in the sample store, which has no room 99999 and
no customer 99999, `findRoom(99999)` and `findCustomer(99999)` return the null
pointer; the functions have no `throw`. -/
theorem find_absent_returns_null :
    sampleDb.findRoom 99999 = none ∧ sampleDb.findCustomer 99999 = none := by
  decide

/-- C27 (amended): `findRoom(n)` returns the null pointer exactly when no room
of the store has the number `n`, and otherwise the first room that has it;
`findCustomer(n)` returns the null pointer exactly when no customer has the id
`n`, and otherwise the first customer that has it. Neither function throws. -/
theorem find_absent_spec (db : Database) (n : Int) :
    (db.findRoom n = none ↔ ∀ r ∈ db.rooms, r.roomNumber ≠ n) ∧
    (∀ r, db.findRoom n = some r →
      r.roomNumber = n ∧
      ∃ pre post, db.rooms = pre ++ r :: post ∧ ∀ z ∈ pre, z.roomNumber ≠ n) ∧
    (db.findCustomer n = none ↔ ∀ c ∈ db.customers, c.customerId ≠ n) ∧
    (∀ c, db.findCustomer n = some c →
      c.customerId = n ∧
      ∃ pre post, db.customers = pre ++ c :: post ∧ ∀ z ∈ pre, z.customerId ≠ n) := by
  unfold Database.findRoom Database.findCustomer
  refine ⟨?_, ?_, ?_, ?_⟩
  · simp [List.find?_eq_none]
  · intro r h
    obtain ⟨pre, post, h1, h2, h3⟩ :=
      find?_split (fun room : Room => room.roomNumber == n) db.rooms r h
    exact ⟨by simpa using h3, pre, post, h1, fun z hz => by simpa using h2 z hz⟩
  · simp [List.find?_eq_none]
  · intro c h
    obtain ⟨pre, post, h1, h2, h3⟩ :=
      find?_split (fun customer : Customer => customer.customerId == n) db.customers c h
    exact ⟨by simpa using h3, pre, post, h1, fun z hz => by simpa using h2 z hz⟩

/-! ## Double booking -/

/-- C28 (code on a sequence of store calls, every data file writable): on a
fresh store a room is added (101), a customer is added (1001), the room is
booked (10001), the booking is cancelled and the room is booked again (10002).
Cancelling 10001 a second time returns true and sets room 101 to `AVAILABLE`
while 10002 is `CONFIRMED` for it; a third booking of room 101 then returns
10003, and the room has the two `CONFIRMED` reservations 10002 and 10003. -/
theorem double_booking_after_second_cancel :
    sampleDbSecondBooking.activeReservations 101 = [10002] ∧
    (sampleDbSecondBooking.findRoom 101).map Room.status = some RoomStatus.RESERVED ∧
    (sampleDbSecondBooking.cancelReservation 10001 writableFiles).1 = .ok true ∧
    sampleDbCancelledTwice.activeReservations 101 = [10002] ∧
    (sampleDbCancelledTwice.findRoom 101).map Room.status = some RoomStatus.AVAILABLE ∧
    (sampleDbCancelledTwice.makeReservation 1001 101 86400 345600 2 "" 0 writableFiles).1
      = .ok 10003 ∧
    sampleDbDoubleBooked.activeReservations 101 = [10002, 10003] := by
  decide

/-! ## Validity of a constructed reservation -/

unseal Rat.mul in
/-- C29 (code at a stay of one hour): the constructor accepts reservation 10001
of customer 1001 for room 101 from 0 to 3600 seconds, two guests, rate 100; the
object has zero nights and total 0, and `isValid()` returns false on it.
`makeReservation` stores this reservation. -/
theorem reservation_ctor_accepts_zero_total :
    Reservation.ctor 10001 1001 101 0 3600 2 100 0 = .ok sampleReservationShort ∧
    sampleReservationShort.calculateNights = 0 ∧
    sampleReservationShort.totalAmount = 0 ∧
    sampleReservationShort.isValid = false ∧
    (sampleDb.makeReservation 1001 101 0 3600 2 "" 0 writableFiles).1 = .ok 10001 ∧
    (sampleDb.makeReservation 1001 101 0 3600 2 "" 0 writableFiles).2.reservations
      = [sampleReservationShort] := by
  decide

/-! ## Update of the contact data of a customer -/

/-- C30 (as stated, refuted): for customer 1001 of the sample store,
`updateCustomerInfo` with a valid phone and an e-mail without `@` throws the
`ValidationException` of the e-mail, and the customer's phone, which was
`1234567890`, is the new phone afterwards. -/
theorem updateCustomerInfo_keeps_new_phone_on_failure :
    (sampleDb.updateCustomerInfo 1001 "0987654321" "not-an-email" "New Address"
      writableFiles).1 = .error (.ValidationException "Invalid email format") ∧
    (sampleDb.findCustomer 1001).map Customer.phone = some "1234567890" ∧
    ((sampleDb.updateCustomerInfo 1001 "0987654321" "not-an-email" "New Address"
      writableFiles).2.findCustomer 1001).map Customer.phone = some "0987654321" := by
  decide

/-- C30 (amended): `updateCustomerInfo(id, phone, email, address)` returns false
and changes nothing when no customer has the id. Otherwise it works on the
first customer with the id and changes nothing else in the store: with an
invalid phone it throws the `ValidationException` of the phone and that
customer is as it was; with a valid phone and an invalid e-mail it throws that
of the e-mail and only the phone of that customer is replaced; with a valid
phone, a valid e-mail and an empty address it throws that of the address and
phone and e-mail are replaced; with all three valid, phone, e-mail and address
are replaced, and the call returns true when the customers file can be opened
and otherwise throws the `FileException` of `saveCustomers()`. -/
theorem updateCustomerInfo_spec (db : Database) (id : Int) (phone email address : String)
    (disk : DataFiles) :
    (db.findCustomer id = none →
      db.updateCustomerInfo id phone email address disk = (.ok false, db)) ∧
    ∀ c, db.findCustomer id = some c →
      (Utils.isValidPhone phone = false →
        db.updateCustomerInfo id phone email address disk
          = (.error (.ValidationException "Invalid phone number"), db)) ∧
      (Utils.isValidPhone phone = true → Utils.isValidEmail email = false →
        ∃ l2, db.updateCustomerInfo id phone email address disk
            = (.error (.ValidationException "Invalid email format"),
                { db with customers := l2 }) ∧
          ReplacedFirst (fun x => x.customerId == id) c { c with phone := phone }
            db.customers l2) ∧
      (Utils.isValidPhone phone = true → Utils.isValidEmail email = true → address = "" →
        ∃ l2, db.updateCustomerInfo id phone email address disk
            = (.error (.ValidationException "Address cannot be empty"),
                { db with customers := l2 }) ∧
          ReplacedFirst (fun x => x.customerId == id) c
            { c with phone := phone, email := email } db.customers l2) ∧
      (Utils.isValidPhone phone = true → Utils.isValidEmail email = true → address ≠ "" →
        ∃ l2, (db.updateCustomerInfo id phone email address disk).2
            = { db with customers := l2 } ∧
          ReplacedFirst (fun x => x.customerId == id) c
            { c with phone := phone, email := email, address := address }
            db.customers l2 ∧
          (disk.customers = true →
            (db.updateCustomerInfo id phone email address disk).1 = .ok true) ∧
          (disk.customers = false →
            (db.updateCustomerInfo id phone email address disk).1 =
              .error (.FileException (fileExceptionMessage "Cannot open customers file")))) := by
  constructor
  · intro hnone
    unfold Database.updateCustomerInfo
    rw [hnone]
  · intro c hfind
    have hrep := modifyFirst_replaced (fun x : Customer => x.customerId == id)
      (fun x => (x.updateInfo phone email address).2) db.customers c hfind
    refine ⟨?_, ?_, ?_, ?_⟩
    · intro hp
      have hc : c.updateInfo phone email address
          = (.error (.ValidationException "Invalid phone number"), c) := by
        rw [updateInfo_eq, if_pos hp]
      have hfix := modifyFirst_fixed (fun x : Customer => x.customerId == id)
        (fun x => (x.updateInfo phone email address).2) db.customers c hfind (by simp only [hc])
      unfold Database.updateCustomerInfo
      rw [hfind]
      simp only [hc, hfix]
    · intro hp he
      have hc : c.updateInfo phone email address
          = (.error (.ValidationException "Invalid email format"),
              { c with phone := phone }) := by
        rw [updateInfo_eq, if_neg (by simp [hp]), if_pos he]
      refine ⟨_, ?_, by simpa only [hc] using hrep⟩
      unfold Database.updateCustomerInfo
      rw [hfind]
      simp only [hc]
    · intro hp he ha
      have hc : c.updateInfo phone email address
          = (.error (.ValidationException "Address cannot be empty"),
              { c with phone := phone, email := email }) := by
        rw [updateInfo_eq, if_neg (by simp [hp]), if_neg (by simp [he]), if_pos ha]
      refine ⟨_, ?_, by simpa only [hc] using hrep⟩
      unfold Database.updateCustomerInfo
      rw [hfind]
      simp only [hc]
    · intro hp he ha
      have hc : c.updateInfo phone email address
          = (.ok (), { c with phone := phone, email := email, address := address }) := by
        rw [updateInfo_eq, if_neg (by simp [hp]), if_neg (by simp [he]), if_neg ha]
      have hout : db.updateCustomerInfo id phone email address disk =
          (afterSaves true [db.saveCustomers disk],
            { db with
              customers := modifyFirst (fun x => x.customerId == id)
                (fun x => (x.updateInfo phone email address).2) db.customers }) := by
        unfold Database.updateCustomerInfo
        rw [hfind]
        simp only [hc]
        rfl
      rw [hout]
      refine ⟨_, rfl, by simpa only [hc] using hrep, ?_, ?_⟩
      · intro hd
        simp [afterSaves, Database.saveCustomers, hd]
      · intro hd
        simp [afterSaves, Database.saveCustomers, hd]

/-- C30 (amended) at the sample store: an invalid phone leaves the store as it
was, and a valid phone with an invalid e-mail replaces the phone only. -/
theorem updateCustomerInfo_spec_witness :
    sampleDb.updateCustomerInfo 1001 "123" "new@email.com" "New Address" writableFiles
      = (.error (.ValidationException "Invalid phone number"), sampleDb) ∧
    ∃ l2, sampleDb.updateCustomerInfo 1001 "0987654321" "not-an-email" "New Address"
          writableFiles
        = (.error (.ValidationException "Invalid email format"),
            { sampleDb with customers := l2 }) ∧
      ReplacedFirst (fun x => x.customerId == 1001) sampleCustomer
        { sampleCustomer with phone := "0987654321" } sampleDb.customers l2 :=
  ⟨((updateCustomerInfo_spec sampleDb 1001 "123" "new@email.com" "New Address"
      writableFiles).2 sampleCustomer (by decide)).1 (by decide),
    ((updateCustomerInfo_spec sampleDb 1001 "0987654321" "not-an-email" "New Address"
      writableFiles).2 sampleCustomer (by decide)).2.1 (by decide) (by decide)⟩

end Hotel
